import Mathlib

/-!
# SmartShelf: payment-gated restocking

A shallow embedding of the supplier server (`supplier/server.js`), the decision engine
(`store-agent/src/ai-agent.js`) and the inventory watcher with its order client
(`store-agent/src/App.jsx`), followed by theorems about them.

JavaScript numbers are IEEE-754 binary64 values.  A finite binary64 value is held as the
integer `k` that stands for `k * 2^(-1074)`; every finite double is such a multiple.  Sums are
computed exactly and then rounded to 53 significant bits, ties to even, as the hardware does.
-/

set_option exponentiation.threshold 4000

namespace SmartShelf

/-! ## Binary64 arithmetic -/

/-- Number of units in 1.0: a unit is `2^(-1074)`, the smallest positive double. -/
def f64One : Nat := 2 ^ 1074

/-- Quotient `p / q` rounded to the nearest natural number, ties to the even one. -/
def rne (p q : Nat) : Nat :=
  if 2 * (p % q) < q then p / q
  else if q < 2 * (p % q) then p / q + 1
  else p / q + (p / q) % 2

/-- Auxiliary of `log2`: at most `fuel` halvings. -/
def log2Aux : Nat → Nat → Nat
  | 0, _ => 0
  | fuel + 1, n => if n < 2 then 0 else log2Aux fuel (n / 2) + 1

/-- Position of the leading bit of `n`: the floor of its binary logarithm (0 for 0). -/
def log2 (n : Nat) : Nat := log2Aux n n

/-- Spacing of the doubles around a value of `n` units (1 for subnormals). -/
def ulp (n : Nat) : Nat := 2 ^ (log2 n - 52)

/-- Nearest double, in units, to the non-negative rational `p / q` units (ties to even).
Values stay far below `2^1024` in this program, so overflow to infinity does not arise. -/
def roundF64 (p q : Nat) : Nat := ulp (p / q) * rne p (q * ulp (p / q))

/-- Double nearest to an exact integer number of units, with its sign. -/
def roundInt (s : Int) : Int :=
  if 0 ≤ s then (roundF64 s.toNat 1 : Int) else -(roundF64 (-s).toNat 1 : Int)

/-- Binary64 addition `a + b`: the exact sum, rounded. -/
def fadd (a b : Int) : Int := roundInt (a + b)

/-- Double denoted by the decimal literal `m / 10^d`, as in `0.0001 = lit 1 4`. -/
def lit (m d : Nat) : Int := (roundF64 (m * f64One) (10 ^ d) : Int)

/-- JavaScript number: `none` is NaN, `some k` the finite double of `k` units. -/
abbrev JSNumber := Option Int

/-- JavaScript `a + b` on numbers: NaN is absorbing. -/
def jsAdd (a b : JSNumber) : JSNumber :=
  match a, b with
  | some x, some y => some (fadd x y)
  | _, _ => none

/-! ## `Number.prototype.toFixed` and `parseFloat` -/

/-- Integer `n` for which `n / 10^f - x` is closest to zero, the larger one on a tie
(the choice `toFixed` makes), for the non-negative double of `k` units. -/
def toFixedInt (k f : Nat) : Nat := (2 * k * 10 ^ f + f64One) / (2 * f64One)

/-- Decimal digits of `n`, left-padded with zeros to at least `f + 1` characters, with a point
before the last `f` of them (`f` is positive at both call sites). -/
def fixedDigits (n f : Nat) : List Char :=
  let ds := Nat.toDigits 10 n
  let padded := List.replicate (f + 1 - ds.length) '0' ++ ds
  padded.take (padded.length - f) ++ '.' :: padded.drop (padded.length - f)

/-- Method `x.toFixed(f)` for `f > 0` and `|x| < 10^21`. -/
def toFixed (x : JSNumber) (f : Nat) : String :=
  match x with
  | none => "NaN"
  | some k =>
    if k < 0 then String.mk ('-' :: fixedDigits (toFixedInt (-k).toNat f) f)
    else String.mk (fixedDigits (toFixedInt k.toNat f) f)

/-- Value of a run of decimal digits read left to right, starting from `acc`. -/
def digitsValue (acc : Nat) : List Char → Nat
  | [] => acc
  | c :: cs => digitsValue (10 * acc + (c.toNat - 48)) cs

/-- Function `parseFloat` on the unsigned plain-decimal prefix `digits[.digits]` of its argument;
every `total` the server stores has this form.  The result is NaN when no digit is found. -/
def parseFloat (s : String) : JSNumber :=
  let ip := s.data.takeWhile Char.isDigit
  let rest := s.data.dropWhile Char.isDigit
  let fp := match rest with
    | '.' :: r => r.takeWhile Char.isDigit
    | _ => []
  if ip.length + fp.length = 0 then none
  else some (lit (digitsValue 0 (ip ++ fp)) fp.length)

/-! ## Supplier server (`supplier/server.js`) -/

/-- Entry of the in-memory `orders` array. -/
structure Order where
  id : String
  time : String
  item : String
  quantity : Int
  total : String
  hash : String
  status : String
deriving DecidableEq, Repr, Inhabited

/-- Request to `POST /buy-stock`: the JSON body and the `x-payment-hash` header
(`none` when the header is absent). -/
structure BuyRequest where
  item : String
  quantity : Int
  paymentHash : Option String
deriving DecidableEq, Repr

/-- What the handler reads from its surroundings while serving one request. -/
structure Clock where
  /-- Value of `new Date().getHours()` -/
  hour : Nat
  /-- Value of `Date.now()` when the invoice or order id is built -/
  now : Nat
  /-- Value of `Date.now()` when the tracking id is built -/
  nowTracking : Nat
  /-- Value of `new Date().toLocaleTimeString()` -/
  localeTime : String
  /-- Value of `process.env.SUPPLIER_WALLET_ADDRESS` -/
  wallet : Option String
deriving DecidableEq, Repr

/-- Field `paymentDetails` of a 402 body. -/
structure PaymentDetails where
  amount : String
  currency : String
  destination : Option String
  invoiceId : String
deriving DecidableEq, Repr

/-- JSON body of a `POST /buy-stock` response; fields the body lacks are `none`. -/
structure Body where
  error : Option String
  message : Option String
  paymentDetails : Option PaymentDetails
  success : Option Bool
  trackingId : Option String
  invoiceSatisfied : Option Bool
deriving DecidableEq, Repr

/-- Response of `POST /buy-stock`: status code and JSON body. -/
structure BuyResponse where
  status : Nat
  body : Body
deriving DecidableEq, Repr

/-- Field `dynamicPricing.basePrice`. -/
def basePrice : Int := lit 1 4

/-- Field `dynamicPricing.surge`: `new Date().getHours() >= 17 ? 0.00002 : 0`. -/
def surge (hour : Nat) : Int := if hour ≥ 17 then lit 2 5 else 0

/-- Field `dynamicPricing.bulkDiscount`: `quantity > 100 ? -0.00001 : 0`. -/
def bulkDiscount (quantity : Int) : Int := if quantity > 100 then -(lit 1 5) else 0

/-- The string `finalPrice`: `(basePrice + surge + bulkDiscount).toFixed(6)`. -/
def finalPrice (quantity : Int) (hour : Nat) : String :=
  toFixed (some (fadd (fadd basePrice (surge hour)) (bulkDiscount quantity))) 6

/-- Truthiness of the header value: `!paymentHash` holds when it is absent or empty. -/
def proofOf (paymentHash : Option String) : Option String :=
  match paymentHash with
  | none => none
  | some p => if p = "" then none else some p

/-- Handler of `POST /buy-stock`: the new `orders` array and the response. -/
def buyStock (orders : List Order) (req : BuyRequest) (c : Clock) : List Order × BuyResponse :=
  match proofOf req.paymentHash with
  | none =>
    (orders,
     { status := 402
       body :=
         { error := some "Payment Required"
           message := some ("Please send " ++ finalPrice req.quantity c.hour ++ " ETH")
           paymentDetails := some
             { amount := finalPrice req.quantity c.hour
               currency := "ETH"
               destination := c.wallet
               invoiceId := "INV-" ++ toString c.now }
           success := none
           trackingId := none
           invoiceSatisfied := none } })
  | some p =>
    ({ id := "ORD-" ++ toString c.now
       time := c.localeTime
       item := req.item
       quantity := req.quantity
       total := finalPrice req.quantity c.hour
       hash := p
       status := "Dispatched ✈️" } :: orders,
     { status := 200
       body :=
         { error := none
           message := some ("Payment confirmed! " ++ toString req.quantity ++ " " ++ req.item
             ++ " dispatched via drone.")
           paymentDetails := none
           success := some true
           trackingId := some ("TRK-" ++ toString c.nowTracking)
           invoiceSatisfied := some true } })

/-- Accumulator of `GET /supplier/orders`:
`orders.reduce((acc, curr) => acc + parseFloat(curr.total), 0)`. -/
def revenueSum (orders : List Order) : JSNumber :=
  orders.foldl (fun acc curr => jsAdd acc (parseFloat curr.total)) (some 0)

/-- Body of `GET /supplier/orders`. -/
structure OrdersResponse where
  orders : List Order
  totalRevenue : String
deriving DecidableEq, Repr

/-- Handler of `GET /supplier/orders`. -/
def getOrders (orders : List Order) : OrdersResponse :=
  { orders := orders, totalRevenue := toFixed (revenueSum orders) 5 }

/-- Request to the supplier process. -/
inductive SupplierRequest where
  | buy (req : BuyRequest) (c : Clock)
  | listOrders
deriving DecidableEq, Repr

/-- State of `orders` after one request. -/
def serve (orders : List Order) : SupplierRequest → List Order
  | .buy req c => (buyStock orders req c).1
  | .listOrders => orders

/-- State of `orders` after a sequence of requests, served in arrival order. -/
def serveAll (orders : List Order) (reqs : List SupplierRequest) : List Order :=
  reqs.foldl serve orders

/-! ## Decision engine (`store-agent/src/ai-agent.js`) -/

/-- Value of type RestockRecommendation as the watcher reads it.  Quantities are integers
(exact in binary64 below `2^53`); `recommendedQuantity` is `none` when the field is missing. -/
structure Recommendation where
  shouldRestock : Bool
  recommendedQuantity : Option Int
  reason : String
  urgencyScore : Int
deriving DecidableEq, Repr

/-- Outcome of `this.model.generateContent(prompt)` followed by `response.text()`. -/
inductive ModelReply where
  | rejects
  | text (t : String)
deriving DecidableEq, Repr

/-- Copy of `s` without the non-overlapping occurrences of `pat`, found left to right;
`skip` counts the characters of a found occurrence still to be dropped. -/
def removeAllAux (pat : List Char) : Nat → List Char → List Char
  | _, [] => []
  | skip + 1, _ :: cs => removeAllAux pat skip cs
  | 0, c :: cs =>
    if pat ≠ [] ∧ (c :: cs).take pat.length = pat then removeAllAux pat (pat.length - 1) cs
    else c :: removeAllAux pat 0 cs

/-- Method `text.replace(/pat/g, '')` for a literal pattern. -/
def removeAll (pat : String) (text : String) : String :=
  String.mk (removeAllAux pat.data 0 text.data)

/-- White space and line terminators, the characters `trim` strips. -/
def isJsSpace (c : Char) : Bool :=
  c.toNat = 9 || c.toNat = 10 || c.toNat = 11 || c.toNat = 12 || c.toNat = 13 || c.toNat = 32
  || c.toNat = 160 || c.toNat = 5760 || (8192 ≤ c.toNat && c.toNat ≤ 8202)
  || c.toNat = 8232 || c.toNat = 8233 || c.toNat = 8239 || c.toNat = 8287
  || c.toNat = 12288 || c.toNat = 65279

/-- Method `text.trim()`. -/
def trim (text : String) : String :=
  String.mk ((text.data.dropWhile isJsSpace).reverse.dropWhile isJsSpace).reverse

/-- Clean-up of the model's answer: the two `replace` calls and `trim`. -/
def cleanup (text : String) : String :=
  trim (removeAll "```" (removeAll "```json" text))

/-- The safety fallback returned from the `catch` block. -/
def fallback (currentStock : Int) : Recommendation :=
  { shouldRestock := decide (currentStock < 10)
    recommendedQuantity := some 50
    reason := "AI unavailable (Network/Quota), using default logic."
    urgencyScore := if currentStock < 5 then 10 else 5 }

/-- The prompt sent to the model; `salesHistory` is the text `JSON.stringify(salesHistory)`. -/
def prompt (currentStock : Int) (salesHistory : String) : String :=
  "\n      You are an autonomous procurement agent for a Kirana store.\n      \n"
  ++ "      CURRENT SITUATION:\n      - Item: Rice\n      - Current Stock: "
  ++ toString currentStock ++ " kg\n      - Restock Threshold: 10 kg\n      - Sales History: "
  ++ salesHistory ++ "\n      \n      TASK:\n"
  ++ "      Decide if we should restock. Return ONLY valid JSON format:\n      \x7b\n"
  ++ "        \"shouldRestock\": boolean,\n        \"recommendedQuantity\": number,\n"
  ++ "        \"reason\": \"short explanation\",\n        \"urgencyScore\": number (1-10)\n"
  ++ "      \x7d\n    "

/-- Method `analyzeStockStrategy(currentStock, salesHistory, context)`.  The model call and
`JSON.parse` are collaborators: `jsonParse t` is `none` when parsing throws and otherwise the
parsed value, `some none` standing for `null`. -/
def analyzeStockStrategy (generateContent : String → ModelReply)
    (jsonParse : String → Option (Option Recommendation))
    (currentStock : Int) (salesHistory : String) (_context : String) : Option Recommendation :=
  match generateContent (prompt currentStock salesHistory) with
  | .rejects => some (fallback currentStock)
  | .text t =>
    match jsonParse (cleanup t) with
    | none => some (fallback currentStock)
    | some v => v

/-! ## Inventory watcher and order client (`store-agent/src/App.jsx`) -/

/-- Entry of the `items` state. -/
structure Item where
  id : Nat
  name : String
  unit : String
  stock : Int
  threshold : Int
  capacity : Int
  icon : String
deriving DecidableEq, Repr, Inhabited

/-- The constant `INITIAL_ITEMS`. -/
def INITIAL_ITEMS : List Item :=
  [ { id := 1, name := "Basmati Rice", unit := "kg", stock := 38, threshold := 10,
      capacity := 50, icon := "🌾" },
    { id := 2, name := "Nataraj Pencils", unit := "box", stock := 15, threshold := 5,
      capacity := 100, icon := "✏️" },
    { id := 3, name := "Lays Chips", unit := "pkt", stock := 8, threshold := 20,
      capacity := 50, icon := "🥔" },
    { id := 4, name := "Thums Up", unit := "btl", stock := 45, threshold := 12,
      capacity := 60, icon := "🥤" },
    { id := 5, name := "Dairy Milk", unit := "bar", stock := 22, threshold := 15,
      capacity := 100, icon := "🍫" } ]

/-- Entry of the `transactionHistory` state. -/
structure HistoryEntry where
  id : Nat
  time : String
  item : String
  qty : Int
  hash : String
  status : String
deriving DecidableEq, Repr

/-- Call that leaves the agent for an external collaborator. -/
inductive Effect where
  /-- Call of `analyzeStockStrategy` with `item.stock`, the history and the item's name -/
  | decisionCall (currentStock : Int) (history : String) (itemName : String)
  /-- Request `POST /buy-stock` with this body and proof header -/
  | orderRequest (req : BuyRequest)
  /-- Call of `signer.sendTransaction` with this recipient and value in wei -/
  | payment (recipient : Option String) (value : Nat)
  /-- Call of `tx.wait()` on the transaction with this hash -/
  | confirmation (hash : String)
  /-- Call of `ap2GatewayRef.current.discoverSuppliers(item, quantity)` -/
  | discovery (item : String) (quantity : Int)
deriving DecidableEq, Repr

/-- State of the `App` component that the core reads or writes, with the record `effects` of
the external calls made so far, oldest first. -/
structure AgentState where
  items : List Item
  logs : List String
  transactionHistory : List HistoryEntry
  walletAddress : Option String
  isRestocking : Bool
  processingRef : Bool
  effects : List Effect
deriving DecidableEq, Repr

/-- State of a freshly mounted component. -/
def initialState : AgentState :=
  { items := INITIAL_ITEMS, logs := [], transactionHistory := [], walletAddress := none,
    isRestocking := false, processingRef := false, effects := [] }

/-- Second argument of `addLog`. -/
inductive LogType where
  | info | success | error | warning | ai
deriving DecidableEq, Repr

/-- Function `addLog(msg, type)`: the newest line first, at most 50 lines kept. -/
def addLog (s : AgentState) (msg : String) (type : LogType) : AgentState :=
  let icon := match type with
    | .success => "✅"
    | .error => "❌"
    | .warning => "⚠️"
    | .ai => "🧠"
    | .info => ">"
  { s with logs := ((icon ++ " " ++ msg) :: s.logs).take 50 }

/-- Record of one external call. -/
def emit (s : AgentState) (e : Effect) : AgentState :=
  { s with effects := s.effects ++ [e] }

/-- Status and body of a response as `fetch` hands it to the client; `json` is an error
when `response.json()` rejects. -/
structure ClientResponse where
  status : Nat
  json : Except String Body

/-- Outcomes of the external calls of one workflow; an `Except.error` carries `err.message`. -/
structure World where
  /-- Text `JSON.stringify(history)` of the simulated sales history -/
  history : String
  /-- The model behind `analyzeStockStrategy` -/
  generateContent : String → ModelReply
  /-- Function `JSON.parse` on recommendation texts -/
  jsonParse : String → Option (Option Recommendation)
  /-- Truthiness of `window.ethereum` -/
  ethereum : Bool
  /-- Outcome of `provider.getSigner()` on the browser provider -/
  browserSigner : Except String Unit
  /-- Outcome of building the wallet from `VITE_AGENT_PRIVATE_KEY`; `none` when the key is unset -/
  envSigner : Option (Except String Unit)
  /-- First `fetch` of `/buy-stock` -/
  fetchOrder : BuyRequest → Except String ClientResponse
  /-- Function `ethers.parseEther` -/
  parseEther : String → Except String Nat
  /-- Method `signer.sendTransaction`: the hash of the transaction sent -/
  sendTransaction : Option String → Nat → Except String String
  /-- Method `tx.wait()` -/
  wait : String → Except String Unit
  /-- Second `fetch` of `/buy-stock`, with the proof header -/
  fetchProof : BuyRequest → Except String ClientResponse
  /-- Value of `Date.now()` for the history entry -/
  now : Nat
  /-- Value of `new Date().toLocaleTimeString()` for the history entry -/
  localeTime : String

/-- Truthiness of an optional string: absent and empty are falsy. -/
def truthy (v : Option String) : Bool :=
  match v with
  | none => false
  | some t => t ≠ ""

/-- Choice of the signer at the head of the `try` block of `triggerRestock`. -/
def acquireSigner (w : World) (s : AgentState) : Except String Unit :=
  if truthy s.walletAddress && w.ethereum then w.browserSigner
  else match w.envSigner with
    | some r => r
    | none => .error "No Wallet Connected! Please connect MetaMask."

/-- Tail of the `try` block of `triggerRestock`: `response.json()` and the success branch.
The second component is the message of the exception thrown, if any. -/
def completeRestock (w : World) (s : AgentState) (item : Item) (quantity : Int)
    (response : ClientResponse) : AgentState × Option String :=
  match response.json with
  | .error e => (s, some e)
  | .ok data =>
    if data.success = some true then
      let s := addLog s ("✅ Restock Complete: " ++ item.name) .success
      ({ s with
          items := s.items.map (fun i =>
            if i.id = item.id then { i with stock := i.stock + quantity } else i)
          transactionHistory :=
            { id := w.now, time := w.localeTime, item := item.name, qty := quantity,
              hash := if truthy data.trackingId then data.trackingId.getD "" else "0x...",
              status := "Success" } :: s.transactionHistory }, none)
    else (s, none)

/-- Steps "2. Pay" and "3. Verify" of `triggerRestock`, taken when the first response has
status 402. -/
def payAndVerify (w : World) (s : AgentState) (item : Item) (quantity : Int)
    (response : ClientResponse) : AgentState × Option String :=
  match response.json with
  | .error e => (s, some e)
  | .ok invoice =>
    match invoice.paymentDetails with
    | none => (s, some "Cannot read properties of undefined (reading 'amount')")
    | some pd =>
      let s := addLog s ("💰 Paying " ++ pd.amount ++ " ETH for " ++ toString quantity
        ++ " " ++ item.unit ++ "...") .warning
      match w.parseEther pd.amount with
      | .error e => (s, some e)
      | .ok value =>
        let s := emit s (.payment pd.destination value)
        match w.sendTransaction pd.destination value with
        | .error e => (s, some e)
        | .ok hash =>
          let s := addLog s ("⏳ Tx Sent: " ++ String.mk (hash.data.take 10) ++ "...") .info
          let s := emit s (.confirmation hash)
          match w.wait hash with
          | .error e => (s, some e)
          | .ok () =>
            let s := emit s (.orderRequest ⟨item.name, quantity, some hash⟩)
            match w.fetchProof ⟨item.name, quantity, some hash⟩ with
            | .error e => (s, some e)
            | .ok verified => completeRestock w s item quantity verified

/-- The `try` block of `triggerRestock`. -/
def restockAttempt (w : World) (s : AgentState) (item : Item) (quantity : Int) :
    AgentState × Option String :=
  match acquireSigner w s with
  | .error e => (s, some e)
  | .ok () =>
    let s := emit s (.orderRequest ⟨item.name, quantity, none⟩)
    match w.fetchOrder ⟨item.name, quantity, none⟩ with
    | .error e => (s, some e)
    | .ok response =>
      if response.status = 402 then payAndVerify w s item quantity response
      else completeRestock w s item quantity response

/-- Function `triggerRestock(item, quantity)`, run to completion. -/
def triggerRestock (w : World) (s : AgentState) (item : Item) (quantity : Int) : AgentState :=
  let s := addLog { s with isRestocking := true }
    ("⚡ Initiating x402 Protocol for " ++ item.name ++ "...") .warning
  let s := match restockAttempt w s item quantity with
    | (s, some message) => addLog s ("❌ Error: " ++ message) .error
    | (s, none) => s
  { s with isRestocking := false, processingRef := false }

/-- Expression `recommendation.recommendedQuantity || 20`. -/
def quantityOrDefault (recommendedQuantity : Option Int) : Int :=
  match recommendedQuantity with
  | none => 20
  | some q => if q = 0 then 20 else q

/-- Function `checkWithAI` from the lock to the `await`: the lock is taken, the log line
written and the decision call issued. -/
def checkWithAIStart (w : World) (s : AgentState) (item : Item) : AgentState :=
  emit (addLog { s with processingRef := true }
    ("🤔 AI analyzing stock for " ++ item.name ++ "...") .ai)
    (.decisionCall item.stock w.history item.name)

/-- Function `checkWithAI` after the `await`, given what the decision call yielded
(`Except.error` when it threw, `Except.ok none` for a falsy value). -/
def checkWithAIResume (w : World) (s : AgentState) (item : Item)
    (outcome : Except String (Option Recommendation)) : AgentState :=
  match outcome with
  | .error _ => { s with processingRef := false }
  | .ok none => { s with processingRef := false }
  | .ok (some recommendation) =>
    if recommendation.shouldRestock then
      triggerRestock w
        (addLog s ("🧠 AI Decision: RESTOCK " ++ item.name ++ ". Reason: "
          ++ recommendation.reason) .ai)
        item (quantityOrDefault recommendation.recommendedQuantity)
    else { s with processingRef := false }

/-- Function `checkWithAI(item)` with the decision engine of `ai-agent.js`, run to
completion. -/
def checkWithAI (w : World) (s : AgentState) (item : Item) : AgentState :=
  if s.processingRef then s
  else checkWithAIResume w (checkWithAIStart w s item) item
    (.ok (analyzeStockStrategy w.generateContent w.jsonParse item.stock w.history item.name))

/-- Expression `items.find(i => i.stock < i.threshold)`. -/
def lowStockItem (items : List Item) : Option Item :=
  items.find? (fun i => decide (i.stock < i.threshold))

/-- The watchman effect: one observation of `items` and `isRestocking`. -/
def watchman (w : World) (s : AgentState) : AgentState :=
  if s.processingRef then s
  else match lowStockItem s.items with
    | some item => if !s.isRestocking then checkWithAI w s item else s
    | none => s


/-- The `try` block of `analyzeStockStrategy`: what it returns, or the exception that leaves
it when the model call rejects or `JSON.parse` throws. -/
def analyzeAttempt (generateContent : String → ModelReply)
    (jsonParse : String → Option (Option Recommendation))
    (currentStock : Int) (salesHistory : String) : Except String (Option Recommendation) :=
  match generateContent (prompt currentStock salesHistory) with
  | .rejects => .error "generateContent failed"
  | .text t =>
    match jsonParse (cleanup t) with
    | none => .error "SyntaxError"
    | some v => .ok v

/-- How the promise of `analyzeStockStrategy` settles: `Except.ok` when it resolves,
`Except.error` when it rejects.  The `catch` block logs and returns the fallback. -/
def analyzeStockStrategyOutcome (generateContent : String → ModelReply)
    (jsonParse : String → Option (Option Recommendation))
    (currentStock : Int) (salesHistory : String) (_context : String) :
    Except String (Option Recommendation) :=
  match analyzeAttempt generateContent jsonParse currentStock salesHistory with
  | .ok v => .ok v
  | .error _ => .ok (some (fallback currentStock))

/-- Function `simulateSale(id)`: the updater passed to `setItems`, with the log line it writes
for every item it decrements. -/
def simulateSale (s : AgentState) (id : Nat) : AgentState :=
  { s with
    items := s.items.map (fun item =>
      if item.id = id ∧ item.stock > 0 then { item with stock := item.stock - 1 } else item)
    logs := s.items.foldl (fun logs item =>
      if item.id = id ∧ item.stock > 0 then
        (("> 🛒 Sold 1 " ++ item.unit ++ " of " ++ item.name) :: logs).take 50
      else logs) s.logs }

/-- The `newItem` form state; `threshold` and `capacity` hold what `parseInt` reads from the
fields (an integer; a field that does not parse is outside this model). -/
structure NewItem where
  name : String
  threshold : Int
  capacity : Int
  unit : String
deriving DecidableEq, Repr

/-- Function `addNewItem()`; `now` is the value of `Date.now()`. -/
def addNewItem (s : AgentState) (newItem : NewItem) (now : Nat) : AgentState :=
  if newItem.name = "" then s
  else addLog
    { s with items := s.items ++
        [{ id := now, name := newItem.name, stock := newItem.capacity,
           threshold := newItem.threshold, capacity := newItem.capacity,
           unit := newItem.unit, icon := "📦" }] }
    ("✨ Added new item: " ++ newItem.name) .success

/-- Function `triggerRestock` up to its `try` block: the state the component renders while
the workflow is suspended at an `await`. -/
def triggerRestockStart (s : AgentState) (item : Item) : AgentState :=
  addLog { s with isRestocking := true }
    ("⚡ Initiating x402 Protocol for " ++ item.name ++ "...") .warning

/-- Function `triggerRestock` from its `try` block to the end of `finally`, run on the state
the component is in when the workflow resumes. -/
def triggerRestockFinish (w : World) (s : AgentState) (item : Item) (quantity : Int) :
    AgentState :=
  let s := match restockAttempt w s item quantity with
    | (s, some message) => addLog s ("❌ Error: " ++ message) .error
    | (s, none) => s
  { s with isRestocking := false, processingRef := false }

/-- Whether a run of `triggerRestock` reaches an `await` before its `finally`: it awaits
`getSigner()` on the browser path and `fetch` once the environment wallet is built, and throws
at once otherwise. -/
def restockSuspends (w : World) (s : AgentState) : Bool :=
  (truthy s.walletAddress && w.ethereum) ||
    (match w.envSigner with
     | some (.ok ()) => true
     | _ => false)

/-- Response of the supplier as `fetch` delivers it to the agent. -/
def clientView (r : BuyResponse) : ClientResponse :=
  { status := r.status, json := .ok r.body }

/-- Answer of the model that recommends a restock with `recommendedQuantity` 0. -/
def zeroQuantityText : String :=
  "\x7b\"shouldRestock\": true, \"recommendedQuantity\": 0, \"reason\": \"low\", "
  ++ "\"urgencyScore\": 7\x7d"

/-- A world in which the model answers `zeroQuantityText` inside a Markdown fence, the
environment wallet is configured and the supplier cannot be reached. -/
def zeroQuantityWorld : World :=
  { history := "[]"
    generateContent := fun _ => .text ("```json\n" ++ zeroQuantityText ++ "\n```")
    jsonParse := fun t =>
      if t = zeroQuantityText then some (some
        { shouldRestock := true, recommendedQuantity := some 0, reason := "low",
          urgencyScore := 7 })
      else none
    ethereum := false
    browserSigner := .ok ()
    envSigner := some (.ok ())
    fetchOrder := fun _ => .error "Failed to fetch"
    parseEther := fun _ => .error "invalid"
    sendTransaction := fun _ _ => .error "rejected"
    wait := fun _ => .ok ()
    fetchProof := fun _ => .error "Failed to fetch"
    now := 0
    localeTime := "09:00:00" }

/-- A world in which the model call rejects; everything else as in `zeroQuantityWorld`. -/
def advisoryDownWorld : World :=
  { zeroQuantityWorld with generateContent := fun _ => .rejects }

/-- A state whose inventory is the initial one after a restock of 20 "Lays Chips" and eight
sales of "Dairy Milk": "Dairy Milk" stands at 14, one below its threshold of 15. -/
def dairyLowState : AgentState :=
  { initialState with
    items :=
      [ { id := 1, name := "Basmati Rice", unit := "kg", stock := 38, threshold := 10,
          capacity := 50, icon := "🌾" },
        { id := 2, name := "Nataraj Pencils", unit := "box", stock := 15, threshold := 5,
          capacity := 100, icon := "✏️" },
        { id := 3, name := "Lays Chips", unit := "pkt", stock := 28, threshold := 20,
          capacity := 50, icon := "🥔" },
        { id := 4, name := "Thums Up", unit := "btl", stock := 45, threshold := 12,
          capacity := 60, icon := "🥤" },
        { id := 5, name := "Dairy Milk", unit := "bar", stock := 14, threshold := 15,
          capacity := 100, icon := "🍫" } ] }

/-! ### Interleaving: workflows suspended at an `await`

The functions above run a workflow to its end.  Below, a workflow started by the watchman
effect or by the Restock button is parked where it awaits, other events may happen, and the
workflow is resumed later by an event of its own. -/

/-- Workflow suspended at an `await`. -/
inductive Pending where
  /-- Function `checkWithAI(item)` awaiting `analyzeStockStrategy` -/
  | deciding (item : Item)
  /-- Function `triggerRestock(item, quantity)` awaiting inside its `try` block -/
  | restocking (item : Item) (quantity : Int)
deriving DecidableEq, Repr

/-- The component between two events: its state, the workflows in progress, oldest first, and
the values of the dependencies `[items, isRestocking]` at the last render whose watchman effect
ran (`none` before the first render). -/
structure Running where
  state : AgentState
  pending : List Pending
  lastDeps : Option (List Item × Bool)
deriving DecidableEq, Repr

/-- What can happen to the component. -/
inductive Event where
  /-- React renders; the watchman effect runs when `items` or `isRestocking` differs from
  the last render -/
  | render
  /-- Click on "Sell" of the item with this id -/
  | sell (id : Nat)
  /-- Click on "Restock" of this item; the button is disabled while `isRestocking` -/
  | click (item : Item)
  /-- The awaited promise of the workflow at this position of `pending` settles -/
  | resume (k : Nat)
deriving DecidableEq, Repr

/-- A freshly mounted component. -/
def mount (s : AgentState) : Running :=
  { state := s, pending := [], lastDeps := none }

/-- Call of `triggerRestock(item, quantity)`: parked at its first `await`, or run to its end
when it throws before any. -/
def startRestock (w : World) (r : Running) (item : Item) (quantity : Int) : Running :=
  if restockSuspends w r.state then
    { r with state := triggerRestockStart r.state item
             pending := r.pending ++ [.restocking item quantity] }
  else { r with state := triggerRestock w r.state item quantity }

/-- Body of the watchman effect, with `checkWithAI` parked at its `await`. -/
def runEffect (w : World) (r : Running) : Running :=
  if r.state.processingRef then r
  else match lowStockItem r.state.items with
    | some item =>
      if !r.state.isRestocking then
        { r with state := checkWithAIStart w r.state item
                 pending := r.pending ++ [.deciding item] }
      else r
    | none => r

/-- Function `checkWithAI(item)` after its `await`, with `triggerRestock` parked at its
`await`. -/
def resumeDecision (w : World) (r : Running) (item : Item) : Running :=
  match analyzeStockStrategy w.generateContent w.jsonParse item.stock w.history item.name with
  | none => { r with state := { r.state with processingRef := false } }
  | some recommendation =>
    if recommendation.shouldRestock then
      startRestock w
        { r with state := addLog r.state ("🧠 AI Decision: RESTOCK " ++ item.name
            ++ ". Reason: " ++ recommendation.reason) .ai }
        item (quantityOrDefault recommendation.recommendedQuantity)
    else { r with state := { r.state with processingRef := false } }

/-- One event. -/
def step (w : World) (r : Running) : Event → Running
  | .render =>
    if r.lastDeps = some (r.state.items, r.state.isRestocking) then r
    else runEffect w { r with lastDeps := some (r.state.items, r.state.isRestocking) }
  | .sell id => { r with state := simulateSale r.state id }
  | .click item => if r.state.isRestocking then r else startRestock w r item 20
  | .resume k =>
    match r.pending.get? k with
    | none => r
    | some (.deciding item) => resumeDecision w { r with pending := r.pending.eraseIdx k } item
    | some (.restocking item quantity) =>
      { r with state := triggerRestockFinish w r.state item quantity
               pending := r.pending.eraseIdx k }

/-- A sequence of events, in order. -/
def run (w : World) (r : Running) (events : List Event) : Running :=
  events.foldl (step w) r

/-- Number of order requests among the external calls. -/
def orderRequests (effects : List Effect) : Nat :=
  (effects.filter (fun e => match e with
    | .orderRequest _ => true
    | _ => false)).length

/-- Function `ethers.parseEther` on plain decimal strings: `digits[.digits]` with at most 18
decimals, as a number of wei. -/
def parseEtherDecimal (amount : String) : Except String Nat :=
  let ip := amount.data.takeWhile Char.isDigit
  let rest := amount.data.dropWhile Char.isDigit
  let fp := match rest with
    | '.' :: r => r
    | _ => rest
  if ip = [] ∨ fp.length > 18 ∨ !fp.all Char.isDigit ∨ (rest ≠ [] ∧ rest.head? ≠ some '.')
  then .error "invalid FixedNumber string value"
  else .ok (digitsValue 0 ip * 10 ^ 18 + digitsValue 0 fp * 10 ^ (18 - fp.length))

/-- A world whose supplier is the server of `server.js` holding `orders` and reading `c`, whose
environment wallet is configured and whose payments are mined. -/
def liveWorld (generateContent : String → ModelReply)
    (jsonParse : String → Option (Option Recommendation)) (orders : List Order) (c : Clock) :
    World :=
  { history := "[]"
    generateContent := generateContent
    jsonParse := jsonParse
    ethereum := false
    browserSigner := .ok ()
    envSigner := some (.ok ())
    fetchOrder := fun req => .ok (clientView (buyStock orders req c).2)
    parseEther := parseEtherDecimal
    sendTransaction := fun _ _ => .ok "0xfeed"
    wait := fun _ => .ok ()
    fetchProof := fun req => .ok (clientView (buyStock orders req c).2)
    now := 7
    localeTime := "09:00:05" }

/-- Answer of the model that recommends a restock with `recommendedQuantity` -50. -/
def negativeQuantityText : String :=
  "\x7b\"shouldRestock\": true, \"recommendedQuantity\": -50, \"reason\": \"low\", "
  ++ "\"urgencyScore\": 7\x7d"

/-- A live world in which the model answers `negativeQuantityText`. -/
def negativeQuantityWorld : World :=
  liveWorld (fun _ => .text negativeQuantityText)
    (fun t =>
      if t = negativeQuantityText then some (some
        { shouldRestock := true, recommendedQuantity := some (-50), reason := "low",
          urgencyScore := 7 })
      else none)
    [] ⟨9, 1, 2, "09:00:00", some "0x5a11e5"⟩

/-! ## Discovery gateway (`supplier-frontend/src/ap2-gateway.js`) -/

/-- Entry of `supplierNetwork`; `rating` is a double, in units. -/
structure Supplier where
  id : String
  name : String
  rating : Int
  deliveryTime : String
  ap2Endpoint : String
  supportedProtocols : List String
deriving DecidableEq, Repr

/-- The directory that the constructor of `AP2Gateway` stores in `this.supplierNetwork`. -/
def supplierNetwork : List Supplier :=
  [ { id := "supplier-1", name := "Premium Rice Distributors", rating := lit 48 1,
      deliveryTime := "2 hours", ap2Endpoint := "https://ap2.supplier1.com/order",
      supportedProtocols := ["x402", "ap2"] },
    { id := "supplier-2", name := "Local Farm Co-op", rating := lit 45 1,
      deliveryTime := "4 hours", ap2Endpoint := "https://ap2.farmcoop.com/order",
      supportedProtocols := ["ap2", "traditional"] } ]

/-- Method `discoverSuppliers(item, quantity)` of a gateway whose directory is `network`. -/
def discoverSuppliers (network : List Supplier) (_item : String) (_quantity : Int) :
    List Supplier :=
  network.filter (fun s => s.supportedProtocols.contains "ap2")

/-- Argument `orderDetails` of `placeOrderViaAP2`. -/
structure OrderDetails where
  item : String
  quantity : Int
deriving DecidableEq, Repr

/-- Value returned by `placeOrderViaAP2`. -/
structure AP2Order where
  success : Bool
  orderId : String
  estimatedDelivery : String
  protocolUsed : String
  message : String
deriving DecidableEq, Repr

/-- Method `placeOrderViaAP2(supplier, orderDetails)`; `now` is the value of `Date.now()`. -/
def placeOrderViaAP2 (supplier : Supplier) (_orderDetails : OrderDetails) (now : Nat) :
    AP2Order :=
  { success := true
    orderId := "AP2-" ++ toString now
    estimatedDelivery := supplier.deliveryTime
    protocolUsed := "ap2"
    message := "Order placed via Google AP2 network to " ++ supplier.name }

/-! ## Supplier dashboard (`supplier-frontend/src/App.jsx`) -/

/-- The `stats` state of the dashboard after a poll. -/
structure Stats where
  revenue : String
  activeOrders : Nat
deriving DecidableEq, Repr

/-- Function `fetchOrders` of the dashboard on the body `data` of `GET /supplier/orders`:
the value passed to `setStats`. -/
def fetchOrders (data : OrdersResponse) : Stats :=
  { revenue := toFixed
      (data.orders.foldl (fun acc curr => jsAdd acc (parseFloat curr.total)) (some 0)) 5
    activeOrders := data.orders.length }

/-! ## Agent and supplier together -/

/-- The world `w` with the supplier of `server.js` at the other end of both requests: the
first is served from the ledger `orders1` at clock `c1`, the one with the proof from the
ledger `orders2` at clock `c2`. -/
def againstSupplier (w : World) (orders1 : List Order) (c1 : Clock) (orders2 : List Order)
    (c2 : Clock) : World :=
  { w with
    fetchOrder := fun req => .ok (clientView (buyStock orders1 req c1).2)
    fetchProof := fun req => .ok (clientView (buyStock orders2 req c2).2) }

/-- Ledger of the supplier after it has served, at clock `c`, the order requests among the
external calls `effects`, in the order they were sent. -/
def ledgerAfter (orders : List Order) (c : Clock) (effects : List Effect) : List Order :=
  serveAll orders (effects.filterMap (fun e =>
    match e with
    | .orderRequest req => some (.buy req c)
    | _ => none))

/-- Scenario A: one item with stock 8 and threshold 10, no workflow active. -/
def scenarioA : AgentState :=
  { initialState with
    items := [{ id := 1, name := "Basmati Rice", unit := "kg", stock := 8, threshold := 10,
                capacity := 50, icon := "🌾" }] }

/-- World of scenario A: the advisory call rejects, so the fallback policy decides; the
supplier is the server of `server.js` with an empty ledger at nine o'clock; payments are mined. -/
def scenarioAWorld : World :=
  liveWorld (fun _ => .rejects) (fun _ => none) [] ⟨9, 1, 2, "09:00:00", some "0x5a11e5"⟩

/-- The initial state after eight sales of "Dairy Milk": "Lays Chips" (8 of 20) and
"Dairy Milk" (14 of 15) are both below threshold, "Lays Chips" first. -/
def twoLowState : AgentState :=
  (List.range 8).foldl (fun s _ => simulateSale s 5) initialState

/-! ## Specification-side definitions -/

/-- Spec: the price formula in millionths, `0.0001 + (0.00002 if h >= 17) - (0.00001 if q > 100)`. -/
def specQuoteMicro (quantity : Int) (hour : Nat) : Nat :=
  100 + (if hour ≥ 17 then 20 else 0) - (if quantity > 100 then 10 else 0)

/-- Spec: a number of millionths below one, written with exactly six decimals. -/
def specSixDecimals (n : Nat) : String :=
  String.mk ('0' :: '.' ::
    (List.replicate (6 - (Nat.toDigits 10 n).length) '0' ++ Nat.toDigits 10 n))

/-- Spec: the price a `POST /buy-stock` outcome quotes: the invoice amount of a challenge,
the `total` of the entry just stored otherwise. -/
def quotedPrice (out : List Order × BuyResponse) : Option String :=
  match out.2.body.paymentDetails with
  | some pd => some pd.amount
  | none => out.1.head?.map (fun o => o.total)

/-- Spec: what a proof-bearing request contributes to the ledger: item, quantity and proof. -/
def proofBearing : SupplierRequest → Option (String × Int × String)
  | .buy req _ =>
    match req.paymentHash with
    | some p => if p = "" then none else some (req.item, req.quantity, p)
    | none => none
  | .listOrders => none

/-- Spec: the whole number that the digits of a decimal string spell when the point is left
out; for a string with six decimals this is its value in millionths. -/
def specMicros (total : String) : Nat :=
  digitsValue 0 (total.data.filter Char.isDigit)

/-- Spec: the exact sum, in millionths, of the `total` fields of a ledger. -/
def specLedgerMicros (orders : List Order) : Nat :=
  (orders.map (fun o => specMicros o.total)).sum

/-- Spec: the number `n / 10^f` written in fixed-point with `f` decimals. -/
def specFixed (n f : Nat) : String := String.mk (fixedDigits n f)

/-- Units of the double that `parseFloat` reads from the stored total "0.000100". -/
def priceUnits : Nat := roundF64 (100 * f64One) (10 ^ 6)

/-- A proof-bearing request for 20 units of rice, quoted "0.000100" at nine o'clock. -/
def riceRequest : SupplierRequest :=
  .buy ⟨"Basmati Rice", 20, some "0xabc"⟩ ⟨9, 1, 2, "09:00:00", none⟩

/-- Spec: the body that `const data = await response.json()` yields in a run of
`triggerRestock`, when the run gets that far; `none` when an exception ends it before. -/
def finalData (w : World) (s : AgentState) (item : Item) (quantity : Int) : Option Body :=
  match acquireSigner w s with
  | .error _ => none
  | .ok () =>
    match w.fetchOrder ⟨item.name, quantity, none⟩ with
    | .error _ => none
    | .ok response =>
      if response.status = 402 then
        match response.json with
        | .error _ => none
        | .ok invoice =>
          match invoice.paymentDetails with
          | none => none
          | some pd =>
            match w.parseEther pd.amount with
            | .error _ => none
            | .ok value =>
              match w.sendTransaction pd.destination value with
              | .error _ => none
              | .ok hash =>
                match w.wait hash with
                | .error _ => none
                | .ok () =>
                  match w.fetchProof ⟨item.name, quantity, some hash⟩ with
                  | .error _ => none
                  | .ok verified => verified.json.toOption
      else response.json.toOption

/-- Spec: whether the final response body of a run of `triggerRestock` has `success = true`. -/
def restockSucceeds (w : World) (s : AgentState) (item : Item) (quantity : Int) : Bool :=
  match finalData w s item quantity with
  | some data => data.success = some true
  | none => false

/-- Spec: whether an external call is a query to the Discovery Gateway. -/
def isDiscovery : Effect → Bool
  | .discovery _ _ => true
  | _ => false

/-- Spec: a well-formed RestockRecommendation: `recommendedQuantity` is present and positive
and `urgencyScore` lies between 1 and 10 (`shouldRestock` is a boolean by its type). -/
def wellFormed (r : Recommendation) : Bool :=
  (match r.recommendedQuantity with
   | some q => decide (0 < q)
   | none => false)
  && decide (1 ≤ r.urgencyScore) && decide (r.urgencyScore ≤ 10)

/-- Spec: whether an external call can belong to the restock of the item called `name`: an
order request for that item, a payment or a confirmation; not a further decision call. -/
def restockCallFor (name : String) : Effect → Bool
  | .orderRequest req => req.item = name
  | .payment _ _ => true
  | .confirmation _ => true
  | .decisionCall _ _ _ => false
  | .discovery _ _ => false

/-- Units of the double that `parseFloat` reads from the stored total "0.000090". -/
def bulkUnits : Nat := roundF64 (90 * f64One) (10 ^ 6)

/-- A proof-bearing request for 150 units of rice, quoted "0.000090" at nine o'clock. -/
def bulkRequest : SupplierRequest :=
  .buy ⟨"Basmati Rice", 150, some "0xabc"⟩ ⟨9, 1, 2, "09:00:00", none⟩

/-- Spec: whether a text contains a triple backtick: at some position the next three
characters are "```". -/
def containsFence : List Char → Bool
  | [] => false
  | c :: cs => decide ((c :: cs).take 3 = "```".data) || containsFence cs

/-! ## Pricing -/

theorem finalPrice_plain (q : Int) (h : Nat) (hh : ¬ h ≥ 17) (hq : ¬ q > 100) :
    finalPrice q h = "0.000100" := by
  simp only [finalPrice, surge, bulkDiscount, if_neg hh, if_neg hq]
  decide!

theorem finalPrice_surge (q : Int) (h : Nat) (hh : h ≥ 17) (hq : ¬ q > 100) :
    finalPrice q h = "0.000120" := by
  simp only [finalPrice, surge, bulkDiscount, if_pos hh, if_neg hq]
  decide!

theorem finalPrice_bulk (q : Int) (h : Nat) (hh : ¬ h ≥ 17) (hq : q > 100) :
    finalPrice q h = "0.000090" := by
  simp only [finalPrice, surge, bulkDiscount, if_neg hh, if_pos hq]
  decide!

theorem finalPrice_surge_bulk (q : Int) (h : Nat) (hh : h ≥ 17) (hq : q > 100) :
    finalPrice q h = "0.000110" := by
  simp only [finalPrice, surge, bulkDiscount, if_pos hh, if_pos hq]
  decide!

theorem finalPrice_eq_spec (q : Int) (h : Nat) :
    finalPrice q h = specSixDecimals (specQuoteMicro q h) := by
  by_cases hh : h ≥ 17 <;> by_cases hq : q > 100
  · rw [finalPrice_surge_bulk q h hh hq]; simp only [specQuoteMicro, if_pos hh, if_pos hq]; decide
  · rw [finalPrice_surge q h hh hq]; simp only [specQuoteMicro, if_pos hh, if_neg hq]; decide
  · rw [finalPrice_bulk q h hh hq]; simp only [specQuoteMicro, if_neg hh, if_pos hq]; decide
  · rw [finalPrice_plain q h hh hq]; simp only [specQuoteMicro, if_neg hh, if_neg hq]; decide

theorem proofOf_none_iff (h : Option String) : proofOf h = none ↔ h = none ∨ h = some "" := by
  cases h with
  | none => simp [proofOf]
  | some p => by_cases hp : p = "" <;> simp [proofOf, hp]

theorem proofOf_some (p : String) (hp : p ≠ "") : proofOf (some p) = some p := by
  simp [proofOf, hp]

theorem tag_append_ne_empty (t : String) : "TRK-" ++ t ≠ "" := by
  intro h
  have := congrArg String.length h
  simp [String.length_append] at this
  exact absurd this.1 (by decide)



/-! ## Binary64 rounding -/

theorem log2Aux_spec (fuel n : Nat) (hn : n ≠ 0) (hf : n ≤ fuel) :
    2 ^ log2Aux fuel n ≤ n ∧ n < 2 ^ (log2Aux fuel n + 1) := by
  induction fuel generalizing n with
  | zero => omega
  | succ fuel ih =>
    unfold log2Aux
    by_cases h2 : n < 2
    · simp only [h2, if_true]
      omega
    · simp only [h2, if_false]
      have h := ih (n / 2) (by omega) (by omega)
      constructor
      · rw [pow_succ]; omega
      · rw [pow_succ]; omega

theorem log2_spec (n : Nat) (hn : n ≠ 0) : 2 ^ log2 n ≤ n ∧ n < 2 ^ (log2 n + 1) :=
  log2Aux_spec n n hn (le_refl n)

theorem log2_eq (n L : Nat) (hlo : 2 ^ L ≤ n) (hhi : n < 2 ^ (L + 1)) : log2 n = L := by
  have hn : n ≠ 0 := by
    have : 0 < 2 ^ L := Nat.pow_pos (by decide)
    omega
  obtain ⟨h1, h2⟩ := log2_spec n hn
  have a : log2 n < L + 1 := (Nat.pow_lt_pow_iff_right (by decide : 1 < 2)).1 (lt_of_le_of_lt h1 hhi)
  have b : L < log2 n + 1 := (Nat.pow_lt_pow_iff_right (by decide : 1 < 2)).1 (lt_of_le_of_lt hlo h2)
  omega

theorem log2_lt (n L : Nat) (hhi : n < 2 ^ L) : log2 n < L ∨ n = 0 := by
  by_cases hn : n = 0
  · exact Or.inr hn
  · left
    obtain ⟨h1, _⟩ := log2_spec n hn
    exact (Nat.pow_lt_pow_iff_right (by decide : 1 < 2)).1 (lt_of_le_of_lt h1 hhi)

theorem rne_error (p u : Nat) (hu : 0 < u) :
    2 * (u * rne p u) ≤ 2 * p + u ∧ 2 * p ≤ 2 * (u * rne p u) + u := by
  have hdm := Nat.div_add_mod p u
  have hmod := Nat.mod_lt p hu
  unfold rne
  split
  · generalize u * (p / u) = q at hdm ⊢
    omega
  · split
    · rw [Nat.mul_add, Nat.mul_one]
      generalize u * (p / u) = q at hdm ⊢
      omega
    · rcases Nat.mod_two_eq_zero_or_one (p / u) with h | h
      · rw [h, Nat.add_zero]
        generalize u * (p / u) = q at hdm ⊢
        omega
      · rw [h, Nat.mul_add, Nat.mul_one]
        generalize u * (p / u) = q at hdm ⊢
        omega

theorem ulp_pos (n : Nat) : 0 < ulp n := Nat.pow_pos (by decide)

theorem roundF64_error (S : Nat) (hS : S < 2 ^ 1085) :
    roundF64 S 1 ≤ S + 2 ^ 1031 ∧ S ≤ roundF64 S 1 + 2 ^ 1031 := by
  have hU : ulp S ≤ 2 ^ 1032 := by
    unfold ulp
    apply Nat.pow_le_pow_right (by decide)
    rcases log2_lt S 1085 hS with h | h
    · omega
    · subst h
      have : log2 0 = 0 := rfl
      omega
  have h := rne_error S (ulp S) (ulp_pos S)
  unfold roundF64
  simp only [Nat.div_one, Nat.one_mul]
  generalize ulp S * rne S (ulp S) = r at h ⊢
  generalize ulp S = u at h hU
  have e : (2 : Nat) ^ 1032 = 2 * 2 ^ 1031 := by rw [← pow_succ']
  generalize (2 : Nat) ^ 1031 = x at e ⊢
  omega

theorem fadd_natCast (a b : Nat) : fadd (a : Int) (b : Int) = ((roundF64 (a + b) 1 : Nat) : Int) := by
  unfold fadd roundInt
  have h : (0 : Int) ≤ (a : Int) + (b : Int) := by omega
  rw [if_pos h]
  congr 1

theorem rne_add_mul (C U t : Nat) (hU : 0 < U) (htie : 2 * (C % U) ≠ U) :
    rne (U * t + C) U = t + rne C U := by
  unfold rne
  rw [Nat.mul_add_mod, Nat.mul_add_div hU]
  split
  · rfl
  · split
    · omega
    · omega

theorem fadd_step (C L A : Nat) (htie : 2 * (C % 2 ^ (L - 52)) ≠ 2 ^ (L - 52))
    (hdiv : A % 2 ^ (L - 52) = 0) (hlo : 2 ^ L ≤ A + C) (hhi : A + C < 2 ^ (L + 1)) :
    roundF64 (A + C) 1 = A + 2 ^ (L - 52) * rne C (2 ^ (L - 52)) := by
  have hU : 0 < 2 ^ (L - 52) := Nat.pow_pos (by decide)
  obtain ⟨t, ht⟩ := Nat.dvd_of_mod_eq_zero hdiv
  unfold roundF64 ulp
  simp only [Nat.div_one, Nat.one_mul]
  rw [log2_eq (A + C) L hlo hhi, ht, rne_add_mul C _ t hU htie, Nat.mul_add]

theorem fadd_run (C L : Nat) (htie : 2 * (C % 2 ^ (L - 52)) ≠ 2 ^ (L - 52)) :
    ∀ n A : Nat, A % 2 ^ (L - 52) = 0 → 2 ^ L ≤ A + C →
      A + n * (2 ^ (L - 52) * rne C (2 ^ (L - 52))) + C
        < 2 ^ (L + 1) + 2 ^ (L - 52) * rne C (2 ^ (L - 52)) →
      (fun a => roundF64 (a + C) 1)^[n] A = A + n * (2 ^ (L - 52) * rne C (2 ^ (L - 52))) := by
  intro n
  induction n with
  | zero => intro A _ _ _; simp
  | succ n ih =>
    intro A hdiv hlo hhi
    rw [Function.iterate_succ_apply]
    generalize hD : 2 ^ (L - 52) * rne C (2 ^ (L - 52)) = D at hhi ih ⊢
    have hsucc : (n + 1) * D = n * D + D := Nat.succ_mul n D
    rw [hsucc] at hhi ⊢
    have hA : A + C < 2 ^ (L + 1) := by
      have : 0 ≤ n * D := Nat.zero_le _
      omega
    have hstep := fadd_step C L A htie hdiv hlo hA
    rw [hD] at hstep
    show (fun a => roundF64 (a + C) 1)^[n] (roundF64 (A + C) 1) = _
    rw [hstep, ih (A + D) ?_ (by omega) (by omega)]
    · omega
    · rw [← hD, Nat.add_mod, hdiv, Nat.mul_mod_right]
      simp

/-! ## Supplier: challenge and fulfilment -/

theorem buyStock_of_none (orders : List Order) (req : BuyRequest) (c : Clock)
    (h : proofOf req.paymentHash = none) :
    buyStock orders req c =
      (orders,
       { status := 402
         body :=
           { error := some "Payment Required"
             message := some ("Please send " ++ finalPrice req.quantity c.hour ++ " ETH")
             paymentDetails := some
               { amount := finalPrice req.quantity c.hour
                 currency := "ETH"
                 destination := c.wallet
                 invoiceId := "INV-" ++ toString c.now }
             success := none
             trackingId := none
             invoiceSatisfied := none } }) := by
  unfold buyStock
  rw [h]

theorem buyStock_of_some (orders : List Order) (req : BuyRequest) (c : Clock) (p : String)
    (h : proofOf req.paymentHash = some p) :
    buyStock orders req c =
      ({ id := "ORD-" ++ toString c.now
         time := c.localeTime
         item := req.item
         quantity := req.quantity
         total := finalPrice req.quantity c.hour
         hash := p
         status := "Dispatched ✈️" } :: orders,
       { status := 200
         body :=
           { error := none
             message := some ("Payment confirmed! " ++ toString req.quantity ++ " " ++ req.item
               ++ " dispatched via drone.")
             paymentDetails := none
             success := some true
             trackingId := some ("TRK-" ++ toString c.nowTracking)
             invoiceSatisfied := some true } }) := by
  unfold buyStock
  rw [h]

/-- C1: a `POST /buy-stock` request whose `x-payment-hash` header is absent or empty gets
status 402 with an invoice whose amount is the price quoted for its quantity and hour and whose
currency is "ETH", and leaves the ledger as it was. -/
theorem buyStock_challenge (orders : List Order) (req : BuyRequest) (c : Clock)
    (hproof : req.paymentHash = none ∨ req.paymentHash = some "") :
    (buyStock orders req c).2.status = 402 ∧
    (∃ pd, (buyStock orders req c).2.body.paymentDetails = some pd ∧
      pd.amount = finalPrice req.quantity c.hour ∧
      pd.amount = specSixDecimals (specQuoteMicro req.quantity c.hour) ∧
      pd.currency = "ETH") ∧
    (buyStock orders req c).1 = orders := by
  rw [buyStock_of_none orders req c ((proofOf_none_iff req.paymentHash).2 hproof)]
  exact ⟨rfl, ⟨_, rfl, rfl, finalPrice_eq_spec _ _, rfl⟩, rfl⟩

theorem buyStock_challenge_witness :
    (buyStock [] ⟨"Basmati Rice", 20, some ""⟩ ⟨9, 1, 2, "09:00:00", none⟩).2.status = 402 ∧
    (∃ pd, (buyStock [] ⟨"Basmati Rice", 20, some ""⟩
        ⟨9, 1, 2, "09:00:00", none⟩).2.body.paymentDetails = some pd ∧
      pd.amount = finalPrice 20 9 ∧
      pd.amount = specSixDecimals (specQuoteMicro 20 9) ∧
      pd.currency = "ETH") ∧
    (buyStock [] ⟨"Basmati Rice", 20, some ""⟩ ⟨9, 1, 2, "09:00:00", none⟩).1 = [] :=
  buyStock_challenge [] ⟨"Basmati Rice", 20, some ""⟩ ⟨9, 1, 2, "09:00:00", none⟩ (Or.inr rfl)

/-- C2: a `POST /buy-stock` request with a non-empty `x-payment-hash` value `p` is answered with
`success = true` and a non-empty `trackingId`, and the ledger gains exactly one entry, at the
front, carrying the request's item and quantity, the quoted price and `p`; the request is
fulfilled if and only if the proof is present and non-empty. -/
theorem buyStock_fulfilment (orders : List Order) (req : BuyRequest) (c : Clock) :
    (∀ p, req.paymentHash = some p → p ≠ "" →
      (buyStock orders req c).2.body.success = some true ∧
      (∃ t, (buyStock orders req c).2.body.trackingId = some t ∧ t ≠ "") ∧
      ∃ o, (buyStock orders req c).1 = o :: orders ∧ o.item = req.item ∧
        o.quantity = req.quantity ∧ o.total = finalPrice req.quantity c.hour ∧ o.hash = p) ∧
    (((buyStock orders req c).2.body.success = some true ∧
        (buyStock orders req c).1.length = orders.length + 1) ↔
      ∃ p, req.paymentHash = some p ∧ p ≠ "") := by
  constructor
  · intro p hp hne
    have h : proofOf req.paymentHash = some p := by rw [hp]; exact proofOf_some p hne
    rw [buyStock_of_some orders req c p h]
    exact ⟨rfl, ⟨_, rfl, tag_append_ne_empty _⟩, _, rfl, rfl, rfl, rfl, rfl⟩
  · constructor
    · intro hs
      cases hph : req.paymentHash with
      | none =>
        rw [buyStock_of_none orders req c ((proofOf_none_iff _).2 (Or.inl hph))] at hs
        simp at hs
      | some p =>
        by_cases hp : p = ""
        · rw [buyStock_of_none orders req c
            ((proofOf_none_iff _).2 (Or.inr (by rw [hph, hp])))] at hs
          simp at hs
        · exact ⟨p, rfl, hp⟩
    · rintro ⟨p, hp, hne⟩
      have h : proofOf req.paymentHash = some p := by rw [hp]; exact proofOf_some p hne
      rw [buyStock_of_some orders req c p h]
      simp

theorem buyStock_fulfilment_witness :
    (buyStock [] ⟨"Basmati Rice", 20, some "0xabc"⟩ ⟨9, 1, 2, "09:00:00", none⟩).2.body.success
        = some true ∧
      (∃ t, (buyStock [] ⟨"Basmati Rice", 20, some "0xabc"⟩
          ⟨9, 1, 2, "09:00:00", none⟩).2.body.trackingId = some t ∧ t ≠ "") ∧
      ∃ o, (buyStock [] ⟨"Basmati Rice", 20, some "0xabc"⟩ ⟨9, 1, 2, "09:00:00", none⟩).1
          = o :: [] ∧ o.item = "Basmati Rice" ∧
        o.quantity = 20 ∧ o.total = finalPrice 20 9 ∧ o.hash = "0xabc" :=
  (buyStock_fulfilment [] ⟨"Basmati Rice", 20, some "0xabc"⟩ ⟨9, 1, 2, "09:00:00", none⟩).1
    "0xabc" rfl (by decide)

/-! ## Supplier: the ledger -/

theorem serve_cases (orders : List Order) (r : SupplierRequest) :
    (proofBearing r = none ∧ serve orders r = orders) ∨
    ∃ o, serve orders r = o :: orders ∧ proofBearing r = some (o.item, o.quantity, o.hash) := by
  cases r with
  | listOrders => exact Or.inl ⟨rfl, rfl⟩
  | buy req c =>
    cases hph : req.paymentHash with
    | none =>
      left
      refine ⟨by simp [proofBearing, hph], ?_⟩
      show (buyStock orders req c).1 = orders
      rw [buyStock_of_none orders req c ((proofOf_none_iff _).2 (Or.inl hph))]
    | some p =>
      by_cases hp : p = ""
      · left
        refine ⟨by simp [proofBearing, hph, hp], ?_⟩
        show (buyStock orders req c).1 = orders
        rw [buyStock_of_none orders req c ((proofOf_none_iff _).2 (Or.inr (by rw [hph, hp])))]
      · right
        have h : proofOf req.paymentHash = some p := by rw [hph]; exact proofOf_some p hp
        refine ⟨(buyStock orders req c).1.headD default, ?_, ?_⟩
        · show (buyStock orders req c).1 = _
          rw [buyStock_of_some orders req c p h]
          rfl
        · rw [buyStock_of_some orders req c p h]
          simp [proofBearing, hph, hp]

theorem serveAll_ledger (reqs : List SupplierRequest) (orders : List Order) :
    (serveAll orders reqs).map (fun o => (o.item, o.quantity, o.hash))
      = (reqs.filterMap proofBearing).reverse
        ++ orders.map (fun o => (o.item, o.quantity, o.hash)) := by
  induction reqs generalizing orders with
  | nil => simp [serveAll]
  | cons r rs ih =>
    have step : serveAll orders (r :: rs) = serveAll (serve orders r) rs := rfl
    rw [step, ih]
    rcases serve_cases orders r with ⟨hn, hs⟩ | ⟨o, hs, hp⟩
    · simp [hs, List.filterMap_cons, hn]
    · simp [hs, List.filterMap_cons, hp]

/-- C4: after any sequence of requests, served from the empty ledger of a fresh process, the
list returned by `GET /supplier/orders` is exactly the proof-bearing requests in reverse arrival
order, and every request leaves the stored entries untouched: the new list is the old one or the
old one with a single entry in front, the latter exactly for a proof-bearing request. -/
theorem ledger_newest_first (reqs : List SupplierRequest) :
    (getOrders (serveAll [] reqs)).orders.map (fun o => (o.item, o.quantity, o.hash))
      = (reqs.filterMap proofBearing).reverse ∧
    ∀ (orders : List Order) (r : SupplierRequest),
      (proofBearing r = none ∧ serve orders r = orders) ∨
      (proofBearing r ≠ none ∧ (serve orders r).tail = orders ∧
        (serve orders r).length = orders.length + 1) := by
  constructor
  · have h := serveAll_ledger reqs []
    simpa [getOrders] using h
  · intro orders r
    rcases serve_cases orders r with h | ⟨o, hs, hp⟩
    · exact Or.inl h
    · right
      refine ⟨by simp [hp], by simp [hs], by simp [hs]⟩


/-- C5: the price quoted by `POST /buy-stock`, as invoice amount or as stored `total`, is
`0.0001 + (0.00002 if hour >= 17) - (0.00001 if quantity > 100)` written with six decimals,
whatever the item, the proof header and the ledger; quantity 20 before 17h quotes "0.000100"
and quantity 150 at 18h quotes "0.000110", a different price. -/
theorem quote_formula (orders : List Order) (req : BuyRequest) (c : Clock) :
    finalPrice req.quantity c.hour = specSixDecimals (specQuoteMicro req.quantity c.hour) ∧
    quotedPrice (buyStock orders req c)
      = some (specSixDecimals (specQuoteMicro req.quantity c.hour)) ∧
    (∀ h : Nat, h < 17 → finalPrice 20 h = "0.000100") ∧
    finalPrice 150 18 = "0.000110" ∧
    finalPrice 150 18 ≠ finalPrice 20 9 := by
  refine ⟨finalPrice_eq_spec _ _, ?_, ?_, ?_, ?_⟩
  · cases h : proofOf req.paymentHash with
    | none =>
      rw [buyStock_of_none orders req c h]
      simp [quotedPrice, finalPrice_eq_spec]
    | some p =>
      rw [buyStock_of_some orders req c p h]
      simp [quotedPrice, finalPrice_eq_spec]
  · intro h hh
    exact finalPrice_plain 20 h (by omega) (by decide)
  · exact finalPrice_surge_bulk 150 18 (by decide) (by decide)
  · rw [finalPrice_surge_bulk 150 18 (by decide) (by decide),
      finalPrice_plain 20 9 (by decide) (by decide)]
    decide

/-! ## Supplier: revenue -/

theorem price_units (q : Int) (h : Nat) :
    ∃ c m : Nat, parseFloat (finalPrice q h) = some (c : Int) ∧
      specMicros (finalPrice q h) = m ∧ m ≤ 120 ∧ 10 ∣ m ∧ c < 2 ^ 1062 ∧
      m * 2 ^ 1074 ≤ 10 ^ 6 * c + 2 ^ 1030 ∧ 10 ^ 6 * c ≤ m * 2 ^ 1074 + 2 ^ 1030 := by
  by_cases hh : h ≥ 17 <;> by_cases hq : q > 100
  · rw [finalPrice_surge_bulk q h hh hq]
    exact ⟨roundF64 (110 * f64One) (10 ^ 6), 110, by decide!, by decide!, by decide!, by decide!,
      by decide!, by decide!, by decide!⟩
  · rw [finalPrice_surge q h hh hq]
    exact ⟨roundF64 (120 * f64One) (10 ^ 6), 120, by decide!, by decide!, by decide!, by decide!,
      by decide!, by decide!, by decide!⟩
  · rw [finalPrice_bulk q h hh hq]
    exact ⟨roundF64 (90 * f64One) (10 ^ 6), 90, by decide!, by decide!, by decide!, by decide!,
      by decide!, by decide!, by decide!⟩
  · rw [finalPrice_plain q h hh hq]
    exact ⟨roundF64 (100 * f64One) (10 ^ 6), 100, by decide!, by decide!, by decide!, by decide!,
      by decide!, by decide!, by decide!⟩

theorem toFixedInt_exact (A E k : Nat) (hk : k ≤ 10 ^ 7) (h10 : 10 ∣ E)
    (h1 : E * 2 ^ 1074 ≤ 10 ^ 6 * A + k * (10 ^ 6 * 2 ^ 1031 + 2 ^ 1030))
    (h2 : 10 ^ 6 * A ≤ E * 2 ^ 1074 + k * (10 ^ 6 * 2 ^ 1031 + 2 ^ 1030)) :
    toFixedInt A 5 = E / 10 := by
  obtain ⟨T, rfl⟩ := h10
  unfold toFixedInt f64One
  omega

theorem revenue_fold (orders : List Order)
    (hprice : ∀ o ∈ orders, ∃ q h, o.total = finalPrice q h) :
    ∀ A E k : Nat, k + orders.length ≤ 10 ^ 7 → E ≤ 120 * k →
      E * 2 ^ 1074 ≤ 10 ^ 6 * A + k * (10 ^ 6 * 2 ^ 1031 + 2 ^ 1030) →
      10 ^ 6 * A ≤ E * 2 ^ 1074 + k * (10 ^ 6 * 2 ^ 1031 + 2 ^ 1030) →
      ∃ A' : Nat,
        orders.foldl (fun acc curr => jsAdd acc (parseFloat curr.total)) (some (A : Int))
          = some (A' : Int) ∧
        10 ∣ specLedgerMicros orders ∧
        E + specLedgerMicros orders ≤ 120 * (k + orders.length) ∧
        (E + specLedgerMicros orders) * 2 ^ 1074
          ≤ 10 ^ 6 * A' + (k + orders.length) * (10 ^ 6 * 2 ^ 1031 + 2 ^ 1030) ∧
        10 ^ 6 * A' ≤ (E + specLedgerMicros orders) * 2 ^ 1074
          + (k + orders.length) * (10 ^ 6 * 2 ^ 1031 + 2 ^ 1030) := by
  induction orders with
  | nil =>
    intro A E k _ hE h1 h2
    exact ⟨A, rfl, by simp [specLedgerMicros], by simpa [specLedgerMicros] using hE,
      by simpa [specLedgerMicros] using h1, by simpa [specLedgerMicros] using h2⟩
  | cons o os ih =>
    intro A E k hk hE h1 h2
    obtain ⟨q, h, ho⟩ := hprice o (List.mem_cons_self _ _)
    obtain ⟨c, m, hc, hm, hm120, hm10, hcb, hc1, hc2⟩ := price_units q h
    rw [← ho] at hc hm
    have hlen : (o :: os).length = os.length + 1 := rfl
    rw [hlen] at hk
    have hS : A + c < 2 ^ 1085 := by omega
    obtain ⟨r1, r2⟩ := roundF64_error (A + c) hS
    have hstep : (o :: os).foldl (fun acc curr => jsAdd acc (parseFloat curr.total))
        (some (A : Int))
        = os.foldl (fun acc curr => jsAdd acc (parseFloat curr.total))
          (some ((roundF64 (A + c) 1 : Nat) : Int)) := by
      rw [List.foldl_cons, hc]
      simp only [jsAdd, fadd_natCast]
    have hsum : specLedgerMicros (o :: os) = m + specLedgerMicros os := by
      simp [specLedgerMicros, hm]
    obtain ⟨A', hf, hd, hb0, hb1, hb2⟩ := ih (fun o' ho' => hprice o' (List.mem_cons_of_mem _ ho'))
      (roundF64 (A + c) 1) (E + m) (k + 1) (by omega) (by omega) (by omega) (by omega)
    refine ⟨A', by rw [hstep, hf], ?_, ?_, ?_, ?_⟩
    · rw [hsum]; exact Dvd.dvd.add hm10 hd
    · rw [hsum, hlen]; omega
    · rw [hsum, hlen]
      have e1 : E + (m + specLedgerMicros os) = E + m + specLedgerMicros os := by omega
      have e2 : k + (os.length + 1) = k + 1 + os.length := by omega
      rw [e1, e2]; exact hb1
    · rw [hsum, hlen]
      have e1 : E + (m + specLedgerMicros os) = E + m + specLedgerMicros os := by omega
      have e2 : k + (os.length + 1) = k + 1 + os.length := by omega
      rw [e1, e2]; exact hb2

theorem serveAll_replicate (r : SupplierRequest) (o : Order)
    (hr : ∀ orders, serve orders r = o :: orders) (n : Nat) :
    ∀ orders, serveAll orders (List.replicate n r) = List.replicate n o ++ orders := by
  induction n with
  | zero => intro orders; rfl
  | succ n ih =>
    intro orders
    have step : serveAll orders (List.replicate (n + 1) r)
        = serveAll (serve orders r) (List.replicate n r) := rfl
    rw [step, hr, ih, List.replicate_succ' n o, List.append_assoc]
    rfl

theorem revenueSum_replicate (o : Order) (C : Nat) (hC : parseFloat o.total = some (C : Int))
    (n : Nat) :
    ∀ A : Nat, (List.replicate n o).foldl (fun acc curr => jsAdd acc (parseFloat curr.total))
        (some (A : Int))
      = some (((fun a => roundF64 (a + C) 1)^[n] A : Nat) : Int) := by
  induction n with
  | zero => intro A; rfl
  | succ n ih =>
    intro A
    rw [List.replicate_succ, List.foldl_cons, hC, Function.iterate_succ_apply]
    simp only [jsAdd, fadd_natCast]
    exact ih _


theorem revenue_run :
    (fun a => roundF64 (a + priceUnits) 1)^[47386665] 0 = 5210218922400159 * 2 ^ 1034 := by
  have h1 : (fun a => roundF64 (a + priceUnits) 1)^[1] 0
      = 7378697629483821 * 2 ^ 1008 := by
    rw [fadd_run priceUnits 1060 (by decide!) 1 0 (by decide!) (by decide!)
      (by decide!)]
    decide!
  have h2 : (fun a => roundF64 (a + priceUnits) 1)^[2] 0
      = 7378697629483821 * 2 ^ 1009 := by
    rw [Function.iterate_succ_apply', h1]
    decide!
  have h3 : (fun a => roundF64 (a + priceUnits) 1)^[3] 0
      = 2767011611056433 * 2 ^ 1011 := by
    rw [Function.iterate_succ_apply', h2]
    decide!
  have h4 : (fun a => roundF64 (a + priceUnits) 1)^[4] 0
      = 7378697629483821 * 2 ^ 1010 := by
    rw [show (4 : Nat) = 1 + 3 from rfl, Function.iterate_add_apply, h3,
      fadd_run priceUnits 1062 (by decide!) 1 (2767011611056433 * 2 ^ 1011) (by decide!) (by decide!)
        (by decide!)]
    decide!
  have h5 : (fun a => roundF64 (a + priceUnits) 1)^[5] 0
      = 1152921504606847 * 2 ^ 1013 := by
    rw [Function.iterate_succ_apply', h4]
    decide!
  have h9 : (fun a => roundF64 (a + priceUnits) 1)^[9] 0
      = 2075258708292325 * 2 ^ 1013 := by
    rw [show (9 : Nat) = 4 + 5 from rfl, Function.iterate_add_apply, h5,
      fadd_run priceUnits 1063 (by decide!) 4 (1152921504606847 * 2 ^ 1013) (by decide!) (by decide!)
        (by decide!)]
    decide!
  have h19 : (fun a => roundF64 (a + priceUnits) 1)^[19] 0
      = 1095275429376505 * 2 ^ 1015 := by
    rw [show (19 : Nat) = 10 + 9 from rfl, Function.iterate_add_apply, h9,
      fadd_run priceUnits 1064 (by decide!) 10 (2075258708292325 * 2 ^ 1013) (by decide!) (by decide!)
        (by decide!)]
    decide!
  have h39 : (fun a => roundF64 (a + priceUnits) 1)^[39] 0
      = 1124098466991675 * 2 ^ 1016 := by
    rw [show (39 : Nat) = 20 + 19 from rfl, Function.iterate_add_apply, h19,
      fadd_run priceUnits 1065 (by decide!) 20 (1095275429376505 * 2 ^ 1015) (by decide!) (by decide!)
        (by decide!)]
    decide!
  have h78 : (fun a => roundF64 (a + priceUnits) 1)^[78] 0
      = 8992787735933415 * 2 ^ 1014 := by
    rw [show (78 : Nat) = 39 + 39 from rfl, Function.iterate_add_apply, h39,
      fadd_run priceUnits 1066 (by decide!) 39 (1124098466991675 * 2 ^ 1016) (by decide!) (by decide!)
        (by decide!)]
    decide!
  have h79 : (fun a => roundF64 (a + priceUnits) 1)^[79] 0
      = 2277019971598525 * 2 ^ 1016 := by
    rw [Function.iterate_succ_apply', h78]
    decide!
  have h156 : (fun a => roundF64 (a + priceUnits) 1)^[156] 0
      = 1124098466991673 * 2 ^ 1018 := by
    rw [show (156 : Nat) = 77 + 79 from rfl, Function.iterate_add_apply, h79,
      fadd_run priceUnits 1067 (by decide!) 77 (2277019971598525 * 2 ^ 1016) (by decide!) (by decide!)
        (by decide!)]
    decide!
  have h312 : (fun a => roundF64 (a + priceUnits) 1)^[312] 0
      = 1124098466991671 * 2 ^ 1019 := by
    rw [show (312 : Nat) = 156 + 156 from rfl, Function.iterate_add_apply, h156,
      fadd_run priceUnits 1068 (by decide!) 156 (1124098466991673 * 2 ^ 1018) (by decide!) (by decide!)
        (by decide!)]
    decide!
  have h624 : (fun a => roundF64 (a + priceUnits) 1)^[624] 0
      = 2248196933983379 * 2 ^ 1019 := by
    rw [show (624 : Nat) = 312 + 312 from rfl, Function.iterate_add_apply, h312,
      fadd_run priceUnits 1069 (by decide!) 312 (1124098466991671 * 2 ^ 1019) (by decide!) (by decide!)
        (by decide!)]
    decide!
  have h1249 : (fun a => roundF64 (a + priceUnits) 1)^[1249] 0
      = 8999993495337383 * 2 ^ 1018 := by
    rw [show (1249 : Nat) = 625 + 624 from rfl, Function.iterate_add_apply, h624,
      fadd_run priceUnits 1070 (by decide!) 625 (2248196933983379 * 2 ^ 1019) (by decide!) (by decide!)
        (by decide!)]
    decide!
  have h1250 : (fun a => roundF64 (a + priceUnits) 1)^[1250] 0
      = 1125899906842647 * 2 ^ 1021 := by
    rw [Function.iterate_succ_apply', h1249]
    decide!
  have h2500 : (fun a => roundF64 (a + priceUnits) 1)^[2500] 0
      = 2251799813685147 * 2 ^ 1021 := by
    rw [show (2500 : Nat) = 1250 + 1250 from rfl, Function.iterate_add_apply, h1250,
      fadd_run priceUnits 1071 (by decide!) 1250 (1125899906842647 * 2 ^ 1021) (by decide!) (by decide!)
        (by decide!)]
    decide!
  have h5000 : (fun a => roundF64 (a + priceUnits) 1)^[5000] 0
      = 4503599627370147 * 2 ^ 1021 := by
    rw [show (5000 : Nat) = 2500 + 2500 from rfl, Function.iterate_add_apply, h2500,
      fadd_run priceUnits 1072 (by decide!) 2500 (2251799813685147 * 2 ^ 1021) (by decide!) (by decide!)
        (by decide!)]
    decide!
  have h10000 : (fun a => roundF64 (a + priceUnits) 1)^[10000] 0
      = 9007199254740147 * 2 ^ 1021 := by
    rw [show (10000 : Nat) = 5000 + 5000 from rfl, Function.iterate_add_apply, h5000,
      fadd_run priceUnits 1073 (by decide!) 5000 (4503599627370147 * 2 ^ 1021) (by decide!) (by decide!)
        (by decide!)]
    decide!
  have h10001 : (fun a => roundF64 (a + priceUnits) 1)^[10001] 0
      = 4504049987332811 * 2 ^ 1022 := by
    rw [Function.iterate_succ_apply', h10000]
    decide!
  have h20000 : (fun a => roundF64 (a + priceUnits) 1)^[20000] 0
      = 4503599627370037 * 2 ^ 1023 := by
    rw [show (20000 : Nat) = 9999 + 10001 from rfl, Function.iterate_add_apply, h10001,
      fadd_run priceUnits 1074 (by decide!) 9999 (4504049987332811 * 2 ^ 1022) (by decide!) (by decide!)
        (by decide!)]
    decide!
  have h39999 : (fun a => roundF64 (a + priceUnits) 1)^[39999] 0
      = 2251743518692167 * 2 ^ 1025 := by
    rw [show (39999 : Nat) = 19999 + 20000 from rfl, Function.iterate_add_apply, h20000,
      fadd_run priceUnits 1075 (by decide!) 19999 (4503599627370037 * 2 ^ 1023) (by decide!) (by decide!)
        (by decide!)]
    decide!
  have h80000 : (fun a => roundF64 (a + priceUnits) 1)^[80000] 0
      = 4503599627367509 * 2 ^ 1025 := by
    rw [show (80000 : Nat) = 40001 + 39999 from rfl, Function.iterate_add_apply, h39999,
      fadd_run priceUnits 1076 (by decide!) 40001 (2251743518692167 * 2 ^ 1025) (by decide!) (by decide!)
        (by decide!)]
    decide!
  have h160000 : (fun a => roundF64 (a + priceUnits) 1)^[160000] 0
      = 9007199254727509 * 2 ^ 1025 := by
    rw [show (160000 : Nat) = 80000 + 80000 from rfl, Function.iterate_add_apply, h80000,
      fadd_run priceUnits 1077 (by decide!) 80000 (4503599627367509 * 2 ^ 1025) (by decide!) (by decide!)
        (by decide!)]
    decide!
  have h160001 : (fun a => roundF64 (a + priceUnits) 1)^[160001] 0
      = 2251813887430713 * 2 ^ 1027 := by
    rw [Function.iterate_succ_apply', h160000]
    decide!
  have h320000 : (fun a => roundF64 (a + priceUnits) 1)^[320000] 0
      = 9007199254723755 * 2 ^ 1026 := by
    rw [show (320000 : Nat) = 159999 + 160001 from rfl, Function.iterate_add_apply, h160001,
      fadd_run priceUnits 1078 (by decide!) 159999 (2251813887430713 * 2 ^ 1027) (by decide!) (by decide!)
        (by decide!)]
    decide!
  have h320001 : (fun a => roundF64 (a + priceUnits) 1)^[320001] 0
      = 4503613701110713 * 2 ^ 1027 := by
    rw [Function.iterate_succ_apply', h320000]
    decide!
  have h639999 : (fun a => roundF64 (a + priceUnits) 1)^[639999] 0
      = 9007185181133041 * 2 ^ 1027 := by
    rw [show (639999 : Nat) = 319998 + 320001 from rfl, Function.iterate_add_apply, h320001,
      fadd_run priceUnits 1079 (by decide!) 319998 (4503613701110713 * 2 ^ 1027) (by decide!) (by decide!)
        (by decide!)]
    decide!
  have h640000 : (fun a => roundF64 (a + priceUnits) 1)^[640000] 0
      = 2251799813720469 * 2 ^ 1029 := by
    rw [Function.iterate_succ_apply', h639999]
    decide!
  have h1279999 : (fun a => roundF64 (a + priceUnits) 1)^[1279999] 0
      = 1125899027260815 * 2 ^ 1031 := by
    rw [show (1279999 : Nat) = 639999 + 640000 from rfl, Function.iterate_add_apply, h640000,
      fadd_run priceUnits 1080 (by decide!) 639999 (2251799813720469 * 2 ^ 1029) (by decide!) (by decide!)
        (by decide!)]
    decide!
  have h2559999 : (fun a => roundF64 (a + priceUnits) 1)^[2559999] 0
      = 2251798934140815 * 2 ^ 1031 := by
    rw [show (2559999 : Nat) = 1280000 + 1279999 from rfl, Function.iterate_add_apply, h1279999,
      fadd_run priceUnits 1081 (by decide!) 1280000 (1125899027260815 * 2 ^ 1031) (by decide!) (by decide!)
        (by decide!)]
    decide!
  have h5120000 : (fun a => roundF64 (a + priceUnits) 1)^[5120000] 0
      = 4503599626870117 * 2 ^ 1031 := by
    rw [show (5120000 : Nat) = 2560001 + 2559999 from rfl, Function.iterate_add_apply, h2559999,
      fadd_run priceUnits 1082 (by decide!) 2560001 (2251798934140815 * 2 ^ 1031) (by decide!) (by decide!)
        (by decide!)]
    decide!
  have h10240000 : (fun a => roundF64 (a + priceUnits) 1)^[10240000] 0
      = 9007199253110117 * 2 ^ 1031 := by
    rw [show (10240000 : Nat) = 5120000 + 5120000 from rfl, Function.iterate_add_apply, h5120000,
      fadd_run priceUnits 1083 (by decide!) 5120000 (4503599626870117 * 2 ^ 1031) (by decide!) (by decide!)
        (by decide!)]
    decide!
  have h10240001 : (fun a => roundF64 (a + priceUnits) 1)^[10240001] 0
      = 2251800033179855 * 2 ^ 1033 := by
    rw [Function.iterate_succ_apply', h10240000]
    decide!
  have h20480000 : (fun a => roundF64 (a + priceUnits) 1)^[20480000] 0
      = 9007199252795059 * 2 ^ 1032 := by
    rw [show (20480000 : Nat) = 10239999 + 10240001 from rfl, Function.iterate_add_apply, h10240001,
      fadd_run priceUnits 1084 (by decide!) 10239999 (2251800033179855 * 2 ^ 1033) (by decide!) (by decide!)
        (by decide!)]
    decide!
  have h20480001 : (fun a => roundF64 (a + priceUnits) 1)^[20480001] 0
      = 4503599846299855 * 2 ^ 1033 := by
    rw [Function.iterate_succ_apply', h20480000]
    decide!
  have h40959999 : (fun a => roundF64 (a + priceUnits) 1)^[40959999] 0
      = 9007199042975203 * 2 ^ 1033 := by
    rw [show (40959999 : Nat) = 20479998 + 20480001 from rfl, Function.iterate_add_apply, h20480001,
      fadd_run priceUnits 1085 (by decide!) 20479998 (4503599846299855 * 2 ^ 1033) (by decide!) (by decide!)
        (by decide!)]
    decide!
  have h40960000 : (fun a => roundF64 (a + priceUnits) 1)^[40960000] 0
      = 1125899907859691 * 2 ^ 1036 := by
    rw [Function.iterate_succ_apply', h40959999]
    decide!
  have h47386665 : (fun a => roundF64 (a + priceUnits) 1)^[47386665] 0
      = 5210218922400159 * 2 ^ 1034 := by
    rw [show (47386665 : Nat) = 6426665 + 40960000 from rfl, Function.iterate_add_apply, h40960000,
      fadd_run priceUnits 1086 (by decide!) 6426665 (1125899907859691 * 2 ^ 1036) (by decide!) (by decide!)
        (by decide!)]
    decide!
  exact h47386665

theorem riceRequest_ledger (n : Nat) :
    serveAll [] (List.replicate n riceRequest)
      = List.replicate n
          { id := "ORD-1", time := "09:00:00", item := "Basmati Rice", quantity := 20,
            total := "0.000100", hash := "0xabc", status := "Dispatched ✈️" } := by
  have hr : ∀ orders, serve orders riceRequest
      = { id := "ORD-1", time := "09:00:00", item := "Basmati Rice", quantity := 20,
          total := "0.000100", hash := "0xabc", status := "Dispatched ✈️" } :: orders := by
    intro orders
    show (buyStock orders _ _).1 = _
    rw [buyStock_of_some orders _ _ "0xabc" (by decide)]
    simp only [finalPrice_plain 20 9 (by decide) (by decide)]
    rfl
  rw [serveAll_replicate riceRequest _ hr n [], List.append_nil]

/-- C3 fails as stated: after 47,386,665 fulfilled orders of "0.000100" each, the exact sum
of the totals is 4738.666500 and `GET /supplier/orders` reports "4738.66651". -/
theorem totalRevenue_drift_counterexample :
    (getOrders (serveAll [] (List.replicate 47386665 riceRequest))).totalRevenue
      = "4738.66651" ∧
    specLedgerMicros (serveAll [] (List.replicate 47386665 riceRequest)) = 4738666500 ∧
    specFixed (4738666500 / 10) 5 = "4738.66650" := by
  refine ⟨?_, ?_, by decide!⟩
  · rw [riceRequest_ledger]
    unfold getOrders revenueSum
    simp only
    have h0 : (some 0 : JSNumber) = some ((0 : Nat) : Int) := rfl
    rw [h0, revenueSum_replicate _ priceUnits (by decide!) 47386665 0, revenue_run]
    decide!
  · rw [riceRequest_ledger]
    unfold specLedgerMicros
    rw [List.map_replicate, List.sum_replicate]
    decide!

theorem serve_total (orders : List Order) (r : SupplierRequest) :
    serve orders r = orders ∨
    ∃ o q h, serve orders r = o :: orders ∧ o.total = finalPrice q h := by
  cases r with
  | listOrders => exact Or.inl rfl
  | buy req c =>
    cases hp : proofOf req.paymentHash with
    | none =>
      left
      show (buyStock orders req c).1 = orders
      rw [buyStock_of_none orders req c hp]
    | some p =>
      right
      refine ⟨(buyStock orders req c).1.headD default, req.quantity, c.hour, ?_, ?_⟩
      · show (buyStock orders req c).1 = _
        rw [buyStock_of_some orders req c p hp]
        rfl
      · rw [buyStock_of_some orders req c p hp]
        rfl

theorem serveAll_totals (reqs : List SupplierRequest) :
    ∀ orders : List Order, ∀ o ∈ serveAll orders reqs,
      o ∈ orders ∨ ∃ q h, o.total = finalPrice q h := by
  induction reqs with
  | nil => intro orders o ho; exact Or.inl ho
  | cons r rs ih =>
    intro orders o ho
    have step : serveAll orders (r :: rs) = serveAll (serve orders r) rs := rfl
    rw [step] at ho
    rcases ih (serve orders r) o ho with h | h
    · rcases serve_total orders r with hs | ⟨o', q, hh, hs, ht⟩
      · rw [hs] at h; exact Or.inl h
      · rw [hs] at h
        rcases List.mem_cons.1 h with rfl | h'
        · exact Or.inr ⟨q, hh, ht⟩
        · exact Or.inl h'
    · exact Or.inr h

theorem toFixed_natCast (A f : Nat) :
    toFixed (some (A : Int)) f = specFixed (toFixedInt A f) f := by
  unfold toFixed specFixed
  have h : ¬ ((A : Int) < 0) := by omega
  simp only [h, if_false, Int.toNat_ofNat]

/-- C3, amended: for every ledger of at most 10,000,000 fulfilled orders, the `totalRevenue`
reported by `GET /supplier/orders` is the exact sum of the `total` fields, written with five
decimals (the sum is a whole number of hundred-thousandths); for the empty ledger it is
"0.00000". -/
theorem totalRevenue_exact (reqs : List SupplierRequest)
    (hlen : (serveAll [] reqs).length ≤ 10000000) :
    10 ∣ specLedgerMicros (serveAll [] reqs) ∧
    (getOrders (serveAll [] reqs)).totalRevenue
      = specFixed (specLedgerMicros (serveAll [] reqs) / 10) 5 ∧
    (getOrders []).totalRevenue = "0.00000" := by
  have hprice : ∀ o ∈ serveAll [] reqs, ∃ q h, o.total = finalPrice q h := by
    intro o ho
    rcases serveAll_totals reqs [] o ho with h | h
    · exact absurd h (List.not_mem_nil _)
    · exact h
  obtain ⟨A, hf, hd, _, h1, h2⟩ := revenue_fold (serveAll [] reqs) hprice 0 0 0
    (by omega) (by omega) (by omega) (by omega)
  refine ⟨hd, ?_, by decide!⟩
  have h0 : (some 0 : JSNumber) = some ((0 : Nat) : Int) := rfl
  unfold getOrders revenueSum
  simp only
  rw [h0, hf, toFixed_natCast]
  congr 1
  exact toFixedInt_exact A (0 + specLedgerMicros (serveAll [] reqs))
    (0 + (serveAll [] reqs).length) (by omega) (by simpa using hd) h1 h2 |>.trans (by simp)

theorem totalRevenue_exact_witness :
    (serveAll [] [riceRequest, .listOrders,
        .buy ⟨"Thums Up", 150, some "0xdef"⟩ ⟨18, 3, 4, "18:30:00", none⟩]).length
      ≤ 10000000 ∧
    (getOrders (serveAll [] [riceRequest, .listOrders,
        .buy ⟨"Thums Up", 150, some "0xdef"⟩ ⟨18, 3, 4, "18:30:00", none⟩])).totalRevenue
      = specFixed (specLedgerMicros (serveAll [] [riceRequest, .listOrders,
        .buy ⟨"Thums Up", 150, some "0xdef"⟩ ⟨18, 3, 4, "18:30:00", none⟩]) / 10) 5 :=
  ⟨by decide, (totalRevenue_exact [riceRequest, .listOrders,
    .buy ⟨"Thums Up", 150, some "0xdef"⟩ ⟨18, 3, 4, "18:30:00", none⟩] (by decide)).2.1⟩

/-! ## Watcher -/

theorem lowStockItem_none (items : List Item) (h : ∀ i ∈ items, i.stock ≥ i.threshold) :
    lowStockItem items = none := by
  unfold lowStockItem
  rw [List.find?_eq_none]
  intro i hi
  have := h i hi
  simp only [decide_eq_true_eq]
  omega

theorem lowStockItem_low (items : List Item) (item : Item) (h : lowStockItem items = some item) :
    item ∈ items ∧ item.stock < item.threshold := by
  unfold lowStockItem at h
  refine ⟨List.mem_of_find?_eq_some h, ?_⟩
  have := List.find?_some h
  simpa using this

/-- C6: while `processingRef` is set, an observation by the watcher changes nothing: no decision
call is made, no restock workflow starts, and the lock, the inventory and every other part of
the state stay as they were, also when items are below threshold; `checkWithAI` itself
returns at its guard. -/
theorem watchman_locked (w : World) (s : AgentState) (hlock : s.processingRef = true) :
    watchman w s = s ∧ ∀ item, checkWithAI w s item = s := by
  constructor
  · simp [watchman, hlock]
  · intro item
    simp [checkWithAI, hlock]

theorem watchman_locked_witness :
    watchman zeroQuantityWorld { initialState with processingRef := true }
        = { initialState with processingRef := true } ∧
      ∀ item, checkWithAI zeroQuantityWorld { initialState with processingRef := true } item
        = { initialState with processingRef := true } :=
  watchman_locked zeroQuantityWorld { initialState with processingRef := true } rfl

theorem triggerRestock_flags (w : World) (s : AgentState) (item : Item) (q : Int) :
    (triggerRestock w s item q).processingRef = false ∧
    (triggerRestock w s item q).isRestocking = false :=
  ⟨rfl, rfl⟩

/-- C7: a workflow started by `checkWithAI` from an idle watcher ends with the lock released:
whatever the decision call yields (an exception, a missing or negative recommendation, a
positive one) and whatever the signer, the network, the payment and the supplier do, the final
state has `processingRef = false` and `isRestocking = false`. -/
theorem workflow_releases_lock (w : World) (s : AgentState) (item : Item)
    (outcome : Except String (Option Recommendation)) (hidle : s.isRestocking = false) :
    (checkWithAIResume w (checkWithAIStart w s item) item outcome).processingRef = false ∧
    (checkWithAIResume w (checkWithAIStart w s item) item outcome).isRestocking = false ∧
    (s.processingRef = false →
      (checkWithAI w s item).processingRef = false ∧
      (checkWithAI w s item).isRestocking = false) := by
  have key : ∀ o : Except String (Option Recommendation),
      (checkWithAIResume w (checkWithAIStart w s item) item o).processingRef = false ∧
      (checkWithAIResume w (checkWithAIStart w s item) item o).isRestocking = false := by
    intro o
    have hstart : (checkWithAIStart w s item).isRestocking = false := hidle
    rcases o with e | (_ | r)
    · exact ⟨rfl, hstart⟩
    · exact ⟨rfl, hstart⟩
    · by_cases hr : r.shouldRestock = true
      · simp only [checkWithAIResume, hr, if_true]
        exact triggerRestock_flags _ _ _ _
      · simp only [checkWithAIResume, hr]
        exact ⟨rfl, hstart⟩
  refine ⟨(key outcome).1, (key outcome).2, ?_⟩
  intro hlock
  simp only [checkWithAI, hlock]
  exact key _

theorem workflow_releases_lock_witness :
    (checkWithAIResume zeroQuantityWorld
        (checkWithAIStart zeroQuantityWorld initialState (INITIAL_ITEMS.getD 2 default))
        (INITIAL_ITEMS.getD 2 default) (.error "boom")).processingRef = false ∧
    (checkWithAIResume zeroQuantityWorld
        (checkWithAIStart zeroQuantityWorld initialState (INITIAL_ITEMS.getD 2 default))
        (INITIAL_ITEMS.getD 2 default) (.error "boom")).isRestocking = false ∧
    (initialState.processingRef = false →
      (checkWithAI zeroQuantityWorld initialState
        (INITIAL_ITEMS.getD 2 default)).processingRef = false ∧
      (checkWithAI zeroQuantityWorld initialState
        (INITIAL_ITEMS.getD 2 default)).isRestocking = false) :=
  workflow_releases_lock zeroQuantityWorld initialState (INITIAL_ITEMS.getD 2 default)
    (.error "boom") rfl

/-- C8: when every item has `stock >= threshold`, an observation by the watcher starts no
workflow: the state, with its record of decision calls and order requests and with the lock, is
returned unchanged. -/
theorem watchman_stocked (w : World) (s : AgentState)
    (hstock : ∀ i ∈ s.items, i.stock ≥ i.threshold) :
    watchman w s = s ∧ (watchman w s).effects = s.effects ∧
    (watchman w s).processingRef = s.processingRef := by
  have h : watchman w s = s := by
    simp only [watchman, lowStockItem_none s.items hstock]
    split <;> rfl
  rw [h]
  exact ⟨rfl, rfl, rfl⟩

theorem watchman_stocked_witness :
    watchman zeroQuantityWorld { initialState with items := INITIAL_ITEMS.take 2 }
        = { initialState with items := INITIAL_ITEMS.take 2 } ∧
      (watchman zeroQuantityWorld { initialState with items := INITIAL_ITEMS.take 2 }).effects
        = ({ initialState with items := INITIAL_ITEMS.take 2 } : AgentState).effects ∧
      (watchman zeroQuantityWorld
          { initialState with items := INITIAL_ITEMS.take 2 }).processingRef
        = ({ initialState with items := INITIAL_ITEMS.take 2 } : AgentState).processingRef :=
  watchman_stocked zeroQuantityWorld { initialState with items := INITIAL_ITEMS.take 2 }
    (by decide)


theorem completeRestock_effects (w : World) (s : AgentState) (item : Item) (q : Int)
    (r : ClientResponse) : (completeRestock w s item q r).1.effects = s.effects := by
  unfold completeRestock
  split
  · rfl
  · split <;> rfl

theorem payAndVerify_effects (w : World) (s : AgentState) (item : Item) (q : Int)
    (r : ClientResponse) :
    ∃ rest, (payAndVerify w s item q r).1.effects = s.effects ++ rest := by
  unfold payAndVerify
  split
  · exact ⟨[], by simp⟩
  · split
    · exact ⟨[], by simp⟩
    · split
      · exact ⟨[], by simp [addLog]⟩
      · split
        · exact ⟨_, by simp [addLog, emit]; rfl⟩
        · split
          · exact ⟨_, by simp [addLog, emit]; rfl⟩
          · split
            · exact ⟨_, by simp [addLog, emit]; rfl⟩
            · rw [completeRestock_effects]
              exact ⟨_, by simp [addLog, emit]; rfl⟩

theorem restock_effects (w : World) (s : AgentState) (item : Item) (q : Int)
    (hs : acquireSigner w s = .ok ()) :
    ∃ rest, (triggerRestock w s item q).effects
      = s.effects ++ Effect.orderRequest ⟨item.name, q, none⟩ :: rest := by
  have hs' : acquireSigner w (addLog { s with isRestocking := true }
      ("⚡ Initiating x402 Protocol for " ++ item.name ++ "...") .warning) = .ok () := hs
  have hfin : (triggerRestock w s item q).effects
      = (restockAttempt w (addLog { s with isRestocking := true }
          ("⚡ Initiating x402 Protocol for " ++ item.name ++ "...") .warning) item q).1.effects := by
    simp only [triggerRestock]
    generalize restockAttempt w _ item q = r
    rcases r with ⟨s', _ | m⟩ <;> rfl
  rw [hfin]
  unfold restockAttempt
  rw [hs']
  simp only
  split
  · exact ⟨[], by simp [emit, addLog]⟩
  · split
    · obtain ⟨rest, h⟩ := payAndVerify_effects w
        (emit (addLog { s with isRestocking := true }
          ("⚡ Initiating x402 Protocol for " ++ item.name ++ "...") .warning)
          (.orderRequest ⟨item.name, q, none⟩)) item q ‹_›
      exact ⟨rest, by rw [h]; simp [emit, addLog]⟩
    · rw [completeRestock_effects]
      exact ⟨[], by simp [emit, addLog]⟩

/-- C9 fails as stated: the model recommends a restock with `recommendedQuantity = 0` for
"Lays Chips" (stock 8, threshold 20), and the order request that leaves the agent asks for 20. -/
theorem order_quantity_counterexample :
    (analyzeStockStrategy zeroQuantityWorld.generateContent zeroQuantityWorld.jsonParse 8
        zeroQuantityWorld.history "Lays Chips").map
        (fun r => (r.shouldRestock, r.recommendedQuantity)) = some (true, some 0) ∧
    (watchman zeroQuantityWorld initialState).effects
      = [Effect.decisionCall 8 "[]" "Lays Chips",
         Effect.orderRequest ⟨"Lays Chips", 20, none⟩] := by
  constructor
  · rfl
  · decide

/-- C9, amended: when the watcher observes an item below threshold with no workflow active, it
takes the lock and issues the decision call; on a recommendation with `shouldRestock = true`
it invokes `triggerRestock` for that item with the recommended quantity if that is present and
non-zero and with 20 otherwise, and with a signer at hand the first request to leave asks for
that item and quantity; on `shouldRestock = false` it sends no order request and
releases the lock at once. -/
theorem watcher_decision_gate (w : World) (s : AgentState) (item : Item)
    (hlock : s.processingRef = false) (hidle : s.isRestocking = false)
    (hlow : lowStockItem s.items = some item) :
    item.stock < item.threshold ∧
    (checkWithAIStart w s item).processingRef = true ∧
    (checkWithAIStart w s item).effects
      = s.effects ++ [Effect.decisionCall item.stock w.history item.name] ∧
    watchman w s = checkWithAIResume w (checkWithAIStart w s item) item
      (.ok (analyzeStockStrategy w.generateContent w.jsonParse item.stock w.history
        item.name)) ∧
    ∀ r : Recommendation,
      (r.shouldRestock = true →
        ∃ s1 : AgentState, s1.items = s.items ∧
          s1.effects = s.effects ++ [Effect.decisionCall item.stock w.history item.name] ∧
          (∀ q, r.recommendedQuantity = some q → q ≠ 0 →
            checkWithAIResume w (checkWithAIStart w s item) item (.ok (some r))
              = triggerRestock w s1 item q) ∧
          (r.recommendedQuantity = none ∨ r.recommendedQuantity = some 0 →
            checkWithAIResume w (checkWithAIStart w s item) item (.ok (some r))
              = triggerRestock w s1 item 20) ∧
          (∀ q, acquireSigner w s = .ok () →
            ∃ rest, (triggerRestock w s1 item q).effects
              = s1.effects ++ Effect.orderRequest ⟨item.name, q, none⟩ :: rest)) ∧
      (r.shouldRestock = false →
        (checkWithAIResume w (checkWithAIStart w s item) item (.ok (some r))).processingRef
          = false ∧
        (checkWithAIResume w (checkWithAIStart w s item) item (.ok (some r))).effects
          = s.effects ++ [Effect.decisionCall item.stock w.history item.name] ∧
        (checkWithAIResume w (checkWithAIStart w s item) item (.ok (some r))).items
          = s.items) := by
  refine ⟨(lowStockItem_low s.items item hlow).2, rfl, rfl, ?_, ?_⟩
  · simp [watchman, hlock, hlow, hidle, checkWithAI]
  · intro r
    constructor
    · intro hr
      refine ⟨addLog (checkWithAIStart w s item) ("🧠 AI Decision: RESTOCK " ++ item.name
        ++ ". Reason: " ++ r.reason) .ai, rfl, rfl, ?_, ?_, ?_⟩
      · intro q hq hq0
        simp [checkWithAIResume, hr, quantityOrDefault, hq, hq0]
      · rintro (hq | hq) <;> simp [checkWithAIResume, hr, quantityOrDefault, hq]
      · intro q hsig
        exact restock_effects w _ item q hsig
    · intro hr
      simp only [checkWithAIResume, hr]
      exact ⟨rfl, rfl, rfl⟩

theorem watcher_decision_gate_witness :
    (8 : Int) < 20 ∧
    (checkWithAIStart zeroQuantityWorld initialState
      (INITIAL_ITEMS.getD 2 default)).processingRef = true ∧
    (watchman zeroQuantityWorld initialState).effects
      = [Effect.decisionCall 8 "[]" "Lays Chips",
         Effect.orderRequest ⟨"Lays Chips", 20, none⟩] := by
  have h := watcher_decision_gate zeroQuantityWorld initialState
    (INITIAL_ITEMS.getD 2 default) rfl rfl (by decide)
  exact ⟨h.1, h.2.1, by decide⟩

/-- C10 fails on the code: with the advisory call down, "Dairy Milk" at stock 14 is below its
own threshold 15 and the watcher consults the engine, whose fallback answers
`shouldRestock = (14 < 10) = false`; no order request is sent and the stock stays at 14. -/
theorem fallback_threshold_failing_input :
    lowStockItem dairyLowState.items
      = some { id := 5, name := "Dairy Milk", unit := "bar", stock := 14, threshold := 15,
               capacity := 100, icon := "🍫" } ∧
    (analyzeStockStrategy advisoryDownWorld.generateContent advisoryDownWorld.jsonParse 14
        advisoryDownWorld.history "Dairy Milk").map (fun r => r.shouldRestock) = some false ∧
    (watchman advisoryDownWorld dairyLowState).effects
      = [Effect.decisionCall 14 "[]" "Dairy Milk"] ∧
    (watchman advisoryDownWorld dairyLowState).items = dairyLowState.items ∧
    ∀ stock : Int, (fallback stock).shouldRestock = decide (stock < 10) := by
  refine ⟨by decide, by decide, by decide, by decide, fun _ => rfl⟩


/-! ## Decision engine -/

theorem analyzeStockStrategy_of_rejects (gen : String → ModelReply)
    (parse : String → Option (Option Recommendation)) (stock : Int) (history context : String)
    (h : gen (prompt stock history) = .rejects) :
    analyzeStockStrategy gen parse stock history context = some (fallback stock) := by
  unfold analyzeStockStrategy
  rw [h]

theorem analyzeStockStrategy_of_text (gen : String → ModelReply)
    (parse : String → Option (Option Recommendation)) (stock : Int) (history context : String)
    (t : String) (h : gen (prompt stock history) = .text t) :
    analyzeStockStrategy gen parse stock history context
      = match parse (cleanup t) with
        | none => some (fallback stock)
        | some v => v := by
  unfold analyzeStockStrategy
  rw [h]

/-- C11: when the advisory call fails (the model call rejects or its cleaned answer does not
parse), the recommendation depends on `currentStock` only: two failing calls with the same
stock and any sales histories, contexts, models and parsers return the same value, whose
`recommendedQuantity` is the constant 50 and whose `urgencyScore` is 10 when the stock is below
half the engine's restock threshold of 10 and 5 otherwise. -/
theorem fallback_deterministic (gen gen' : String → ModelReply)
    (parse parse' : String → Option (Option Recommendation)) (stock : Int)
    (history history' context context' : String)
    (hfail : gen (prompt stock history) = .rejects ∨
      ∃ t, gen (prompt stock history) = .text t ∧ parse (cleanup t) = none)
    (hfail' : gen' (prompt stock history') = .rejects ∨
      ∃ t, gen' (prompt stock history') = .text t ∧ parse' (cleanup t) = none) :
    analyzeStockStrategy gen parse stock history context
      = analyzeStockStrategy gen' parse' stock history' context' ∧
    ∃ r, analyzeStockStrategy gen parse stock history context = some r ∧
      r.recommendedQuantity = some 50 ∧
      r.urgencyScore = (if 2 * stock < 10 then 10 else 5) := by
  have key : ∀ (g : String → ModelReply) (p : String → Option (Option Recommendation))
      (hist ctx : String),
      (g (prompt stock hist) = .rejects ∨
        ∃ t, g (prompt stock hist) = .text t ∧ p (cleanup t) = none) →
      analyzeStockStrategy g p stock hist ctx = some (fallback stock) := by
    intro g p hist ctx hf
    rcases hf with h | ⟨t, h, hp⟩
    · exact analyzeStockStrategy_of_rejects g p stock hist ctx h
    · rw [analyzeStockStrategy_of_text g p stock hist ctx t h, hp]
  rw [key gen parse history context hfail, key gen' parse' history' context' hfail']
  refine ⟨rfl, fallback stock, rfl, rfl, ?_⟩
  show (if stock < 5 then (10 : Int) else 5) = if 2 * stock < 10 then 10 else 5
  by_cases h : stock < 5
  · rw [if_pos h, if_pos (by omega)]
  · rw [if_neg h, if_neg (by omega)]

theorem fallback_deterministic_witness :
    analyzeStockStrategy advisoryDownWorld.generateContent advisoryDownWorld.jsonParse 3
        "[1, 2]" "Basmati Rice"
      = analyzeStockStrategy zeroQuantityWorld.generateContent (fun _ => none) 3
        "[7]" "Lays Chips" ∧
    ∃ r, analyzeStockStrategy advisoryDownWorld.generateContent advisoryDownWorld.jsonParse 3
        "[1, 2]" "Basmati Rice" = some r ∧
      r.recommendedQuantity = some 50 ∧
      r.urgencyScore = (if 2 * (3 : Int) < 10 then 10 else 5) :=
  fallback_deterministic advisoryDownWorld.generateContent zeroQuantityWorld.generateContent
    advisoryDownWorld.jsonParse (fun _ => none) 3 "[1, 2]" "[7]" "Basmati Rice" "Lays Chips"
    (Or.inl rfl) (Or.inr ⟨_, rfl, rfl⟩)

/-- C12: `analyzeStockStrategy` never rejects towards its caller: whether the model call
rejects, its cleaned answer fails to parse or it parses, the promise resolves with a value,
and in the first two cases that value is exactly the fallback recommendation. -/
theorem analyze_never_throws (gen : String → ModelReply)
    (parse : String → Option (Option Recommendation)) (stock : Int)
    (history context : String) :
    analyzeStockStrategyOutcome gen parse stock history context
      = .ok (analyzeStockStrategy gen parse stock history context) ∧
    (gen (prompt stock history) = .rejects →
      analyzeStockStrategyOutcome gen parse stock history context
        = .ok (some (fallback stock))) ∧
    (∀ t, gen (prompt stock history) = .text t → parse (cleanup t) = none →
      analyzeStockStrategyOutcome gen parse stock history context
        = .ok (some (fallback stock))) ∧
    (∀ t v, gen (prompt stock history) = .text t → parse (cleanup t) = some v →
      analyzeStockStrategyOutcome gen parse stock history context = .ok v) := by
  refine ⟨?_, ?_, ?_, ?_⟩
  · cases hg : gen (prompt stock history) with
    | rejects =>
      simp [analyzeStockStrategyOutcome, analyzeAttempt, analyzeStockStrategy, hg]
    | text t =>
      cases hp : parse (cleanup t) <;>
        simp [analyzeStockStrategyOutcome, analyzeAttempt, analyzeStockStrategy, hg, hp]
  · intro h
    unfold analyzeStockStrategyOutcome analyzeAttempt
    rw [h]
  · intro t h hp
    unfold analyzeStockStrategyOutcome analyzeAttempt
    rw [h]
    simp only [hp]
  · intro t v h hp
    unfold analyzeStockStrategyOutcome analyzeAttempt
    rw [h]
    simp only [hp]

/-! ## Sales -/

theorem simulateSale_logs (id : Nat) (items : List Item)
    (h : ∀ item ∈ items, item.id = id → item.stock ≤ 0) (logs : List String) :
    items.foldl (fun logs item =>
      if item.id = id ∧ item.stock > 0 then
        (("> 🛒 Sold 1 " ++ item.unit ++ " of " ++ item.name) :: logs).take 50
      else logs) logs = logs := by
  induction items generalizing logs with
  | nil => rfl
  | cons a as ih =>
    have ha : ¬ (a.id = id ∧ a.stock > 0) := by
      intro ⟨h1, h2⟩
      have := h a (List.mem_cons_self _ _) h1
      omega
    rw [List.foldl_cons, if_neg ha]
    exact ih (fun item hi => h item (List.mem_cons_of_mem _ hi)) logs

/-- C13: `simulateSale(id)` keeps the length and order of the item list; the item at each
position keeps its id, name, unit, threshold, capacity and icon; its stock drops by exactly
1 when its id is `id` and its stock is positive, and it is unchanged when its id differs or its
stock is not positive; when no item with that id has positive stock the whole state is
unchanged. -/
theorem simulateSale_spec (s : AgentState) (id : Nat) :
    (simulateSale s id).items.length = s.items.length ∧
    (∀ (k : Nat) (item : Item), s.items[k]? = some item →
      ∃ sold, (simulateSale s id).items[k]? = some sold ∧
        sold.id = item.id ∧ sold.name = item.name ∧ sold.unit = item.unit ∧
        sold.threshold = item.threshold ∧ sold.capacity = item.capacity ∧
        sold.icon = item.icon ∧
        (item.id = id → item.stock > 0 → sold.stock = item.stock - 1) ∧
        (item.id ≠ id → sold = item) ∧
        (item.stock ≤ 0 → sold = item)) ∧
    ((∀ item ∈ s.items, item.id = id → item.stock ≤ 0) → simulateSale s id = s) := by
  refine ⟨by simp [simulateSale], ?_, ?_⟩
  · intro k item hk
    by_cases hc : item.id = id ∧ item.stock > 0
    · refine ⟨{ item with stock := item.stock - 1 }, ?_, rfl, rfl, rfl, rfl, rfl, rfl,
        fun _ _ => rfl, fun h => absurd hc.1 h, fun h => absurd hc.2 (by omega)⟩
      simp [simulateSale, List.getElem?_map, hk, hc]
    · refine ⟨item, ?_, rfl, rfl, rfl, rfl, rfl, rfl,
        fun h1 h2 => absurd ⟨h1, h2⟩ hc, fun _ => rfl, fun _ => rfl⟩
      simp [simulateSale, List.getElem?_map, hk, hc]
  · intro h
    have hitems : s.items.map (fun item =>
        if item.id = id ∧ item.stock > 0 then { item with stock := item.stock - 1 } else item)
        = s.items := by
      conv_rhs => rw [← List.map_id s.items]
      apply List.map_congr_left
      intro item hi
      have : ¬ (item.id = id ∧ item.stock > 0) := by
        intro ⟨h1, h2⟩
        have := h item hi h1
        omega
      simp [this]
    unfold simulateSale
    rw [hitems, simulateSale_logs id s.items h s.logs]

/-! ## Order client -/

theorem restockAttempt_inventory (w : World) (s : AgentState) (item : Item) (q : Int) :
    (restockAttempt w s item q).1.items
      = (if restockSucceeds w s item q then
          s.items.map (fun i => if i.id = item.id then { i with stock := i.stock + q } else i)
        else s.items) := by
  unfold restockSucceeds finalData restockAttempt payAndVerify completeRestock
  repeat' split
  all_goals simp_all [emit, addLog, Except.toOption]

theorem restockAttempt_history (w : World) (s : AgentState) (item : Item) (q : Int) :
    (restockAttempt w s item q).1.transactionHistory
      = (match finalData w s item q with
        | some data =>
          if data.success = some true then
            { id := w.now, time := w.localeTime, item := item.name, qty := q,
              hash := if truthy data.trackingId then data.trackingId.getD "" else "0x...",
              status := "Success" } :: s.transactionHistory
          else s.transactionHistory
        | none => s.transactionHistory) := by
  unfold finalData restockAttempt payAndVerify completeRestock
  repeat' split
  all_goals simp_all [emit, addLog, Except.toOption]

theorem triggerRestock_inventory (w : World) (s : AgentState) (item : Item) (q : Int) :
    (triggerRestock w s item q).items = (restockAttempt w (triggerRestockStart s item) item q).1.items ∧
    (triggerRestock w s item q).transactionHistory
      = (restockAttempt w (triggerRestockStart s item) item q).1.transactionHistory := by
  simp only [triggerRestock, triggerRestockStart]
  generalize restockAttempt w _ item q = r
  rcases r with ⟨s', _ | m⟩ <;> exact ⟨rfl, rfl⟩

theorem finalData_start (w : World) (s : AgentState) (item : Item) (q : Int) :
    finalData w (triggerRestockStart s item) item q = finalData w s item q := rfl

theorem map_ne_self_of_mem {α : Type} (f : α → α) (l : List α) (x : α) (hx : x ∈ l)
    (hf : f x ≠ x) : l.map f ≠ l := by
  induction l with
  | nil => exact absurd hx (List.not_mem_nil _)
  | cons a as ih =>
    intro h
    rw [List.map_cons, List.cons.injEq] at h
    rcases List.mem_cons.1 hx with rfl | hx'
    · exact hf h.1
    · exact ih hx' h.2

/-- C15: a run of `triggerRestock(item, q)` changes the inventory exactly when the final
response body has `success = true`: then every item with that id gets `stock + q` (no clamping
to capacity), every other item is unchanged and one history entry for the item and quantity
is put in front; otherwise (an exception before the final body is read, such as a network
error or a failed payment, or a body without `success = true`) the inventory and the
transaction history are as before. -/
theorem restock_changes_inventory (w : World) (s : AgentState) (item : Item) (q : Int) :
    (∀ data, finalData w s item q = some data → data.success = some true →
      (triggerRestock w s item q).items
        = s.items.map (fun i =>
            if i.id = item.id then { i with stock := i.stock + q } else i) ∧
      (q ≠ 0 → item ∈ s.items → (triggerRestock w s item q).items ≠ s.items) ∧
      ∃ entry, (triggerRestock w s item q).transactionHistory
          = entry :: s.transactionHistory ∧
        entry.item = item.name ∧ entry.qty = q ∧ entry.status = "Success") ∧
    ((finalData w s item q = none ∨
        ∃ data, finalData w s item q = some data ∧ data.success ≠ some true) →
      (triggerRestock w s item q).items = s.items ∧
      (triggerRestock w s item q).transactionHistory = s.transactionHistory) ∧
    ((∃ e, w.fetchOrder ⟨item.name, q, none⟩ = .error e) → finalData w s item q = none) ∧
    ((∀ d v, ∃ e, w.sendTransaction d v = .error e) →
      ∀ r, w.fetchOrder ⟨item.name, q, none⟩ = .ok r → r.status = 402 →
        finalData w s item q = none) := by
  obtain ⟨hi, hh⟩ := triggerRestock_inventory w s item q
  rw [restockAttempt_inventory, restockSucceeds, finalData_start] at hi
  rw [restockAttempt_history, finalData_start] at hh
  refine ⟨?_, ?_, ?_, ?_⟩
  · intro data hd hs
    rw [hd] at hi hh
    simp only [hs, decide_True, if_true] at hi hh
    refine ⟨hi, ?_, _, hh, rfl, rfl, rfl⟩
    intro hq hmem
    rw [hi]
    apply map_ne_self_of_mem _ _ item hmem
    simp only [if_true]
    intro h
    have := congrArg Item.stock h
    simp at this
    exact hq this
  · rintro (hn | ⟨data, hd, hs⟩)
    · rw [hn] at hi hh
      exact ⟨by simpa using hi, hh⟩
    · rw [hd] at hi hh
      simp only [hs, decide_False, if_false] at hi hh
      exact ⟨by simpa using hi, hh⟩
  · rintro ⟨e, he⟩
    unfold finalData
    cases acquireSigner w s with
    | error _ => rfl
    | ok u => simp only [he]
  · intro hpay r hr h402
    unfold finalData
    cases acquireSigner w s with
    | error _ => rfl
    | ok u =>
      simp only [hr, h402, if_true]
      cases hj : r.json with
      | error _ => rfl
      | ok invoice =>
        simp only []
        cases hp : invoice.paymentDetails with
        | none => rfl
        | some pd =>
          simp only []
          cases hv : w.parseEther pd.amount with
          | error _ => rfl
          | ok value =>
            obtain ⟨e, he⟩ := hpay pd.destination value
            simp only [he]

theorem triggerRestock_effects_eq (w : World) (s : AgentState) (item : Item) (q : Int) :
    (triggerRestock w s item q).effects
      = (restockAttempt w (triggerRestockStart s item) item q).1.effects := by
  simp only [triggerRestock, triggerRestockStart]
  generalize restockAttempt w _ item q = r
  rcases r with ⟨s', _ | m⟩ <;> rfl

/-- C16: in a run of `triggerRestock(item, q)` whose first request is answered 402 with an
invoice, the payment goes to the invoice's destination with the value `parseEther` reads from
the invoice's amount; the request carrying a proof is sent only when `tx.wait()` has resolved,
after it, with the item and quantity of the first request and with the hash of that same
transaction as `x-payment-hash`; when the payment or its confirmation fails no such request is
sent. -/
theorem payment_then_proof (w : World) (s : AgentState) (item : Item) (q : Int)
    (r : ClientResponse) (invoice : Body) (pd : PaymentDetails)
    (hsig : acquireSigner w s = .ok ())
    (hfetch : w.fetchOrder ⟨item.name, q, none⟩ = .ok r) (h402 : r.status = 402)
    (hjson : r.json = .ok invoice) (hpd : invoice.paymentDetails = some pd) :
    (∀ e, w.parseEther pd.amount = .error e →
      (triggerRestock w s item q).effects
        = s.effects ++ [Effect.orderRequest ⟨item.name, q, none⟩]) ∧
    (∀ v, w.parseEther pd.amount = .ok v →
      (∀ e, w.sendTransaction pd.destination v = .error e →
        (triggerRestock w s item q).effects
          = s.effects ++ [Effect.orderRequest ⟨item.name, q, none⟩,
              Effect.payment pd.destination v]) ∧
      (∀ h, w.sendTransaction pd.destination v = .ok h →
        (∀ e, w.wait h = .error e →
          (triggerRestock w s item q).effects
            = s.effects ++ [Effect.orderRequest ⟨item.name, q, none⟩,
                Effect.payment pd.destination v, Effect.confirmation h]) ∧
        (w.wait h = .ok () →
          (triggerRestock w s item q).effects
            = s.effects ++ [Effect.orderRequest ⟨item.name, q, none⟩,
                Effect.payment pd.destination v, Effect.confirmation h,
                Effect.orderRequest ⟨item.name, q, some h⟩]))) := by
  have hsig' : acquireSigner w (triggerRestockStart s item) = .ok () := hsig
  have base : (triggerRestock w s item q).effects
      = (payAndVerify w (emit (triggerRestockStart s item)
          (.orderRequest ⟨item.name, q, none⟩)) item q r).1.effects := by
    rw [triggerRestock_effects_eq]
    unfold restockAttempt
    rw [hsig']
    simp only [hfetch, h402, if_true]
  rw [base]
  unfold payAndVerify
  simp only [hjson, hpd]
  refine ⟨?_, ?_⟩
  · intro e he
    simp [he, emit, addLog, triggerRestockStart]
  · intro v hv
    refine ⟨?_, ?_⟩
    · intro e he
      simp [hv, he, emit, addLog, triggerRestockStart]
    · intro h hh
      refine ⟨?_, ?_⟩
      · intro e he
        simp [hv, hh, he, emit, addLog, triggerRestockStart]
      · intro hw
        simp only [hv, hh, hw]
        cases hf : w.fetchProof ⟨item.name, q, some h⟩ with
        | error e => simp [emit, addLog, triggerRestockStart]
        | ok verified =>
          simp only []
          rw [completeRestock_effects]
          simp [emit, addLog, triggerRestockStart]

theorem payment_then_proof_witness :
    (triggerRestock negativeQuantityWorld initialState (INITIAL_ITEMS.getD 2 default)
        20).effects
      = initialState.effects ++ [Effect.orderRequest ⟨"Lays Chips", 20, none⟩,
          Effect.payment (some "0x5a11e5") 100000000000000, Effect.confirmation "0xfeed",
          Effect.orderRequest ⟨"Lays Chips", 20, some "0xfeed"⟩] :=
  (((payment_then_proof negativeQuantityWorld initialState (INITIAL_ITEMS.getD 2 default) 20
    (clientView (buyStock [] ⟨"Lays Chips", 20, none⟩
      ⟨9, 1, 2, "09:00:00", some "0x5a11e5"⟩).2)
    (buyStock [] ⟨"Lays Chips", 20, none⟩ ⟨9, 1, 2, "09:00:00", some "0x5a11e5"⟩).2.body
    { amount := finalPrice 20 9, currency := "ETH", destination := some "0x5a11e5",
      invoiceId := "INV-1" }
    rfl rfl rfl rfl rfl).2 100000000000000
    (by
      have h := finalPrice_plain 20 9 (by decide) (by decide)
      simp only [negativeQuantityWorld, liveWorld, h]
      rfl)).2 "0xfeed" rfl).2 rfl

theorem restockAttempt_discovery (w : World) (s : AgentState) (item : Item) (q : Int) :
    (restockAttempt w s item q).1.effects.filter isDiscovery
      = s.effects.filter isDiscovery := by
  unfold restockAttempt payAndVerify completeRestock
  repeat' split
  all_goals simp_all [emit, addLog, isDiscovery, List.filter_append]

theorem triggerRestock_discovery (w : World) (s : AgentState) (item : Item) (q : Int) :
    (triggerRestock w s item q).effects.filter isDiscovery
      = s.effects.filter isDiscovery := by
  rw [triggerRestock_effects_eq, restockAttempt_discovery]
  rfl

theorem watchman_discovery (w : World) (s : AgentState) :
    (watchman w s).effects.filter isDiscovery = s.effects.filter isDiscovery := by
  unfold watchman checkWithAI checkWithAIResume
  repeat' split
  all_goals
    first
    | rfl
    | (rw [triggerRestock_discovery]
       simp [checkWithAIStart, emit, addLog, isDiscovery, List.filter_append])
    | simp [checkWithAIStart, emit, addLog, isDiscovery, List.filter_append]

/-- C14 fails on the code: the model recommends a restock of "Lays Chips" (stock 8) with
`recommendedQuantity = -50`, the supplier of `server.js` accepts the order, and the restock
completion leaves the item at stock -42; a sale, by its guard `stock > 0`, never takes a
non-negative stock below zero. -/
theorem negative_stock_failing_input :
    (analyzeStockStrategy negativeQuantityWorld.generateContent
        negativeQuantityWorld.jsonParse 8 negativeQuantityWorld.history "Lays Chips").map
        (fun r => (r.shouldRestock, r.recommendedQuantity)) = some (true, some (-50)) ∧
    (watchman negativeQuantityWorld initialState).items.map (fun i => (i.name, i.stock))
      = [("Basmati Rice", 38), ("Nataraj Pencils", 15), ("Lays Chips", -42),
         ("Thums Up", 45), ("Dairy Milk", 22)] ∧
    ∀ (s : AgentState) (id : Nat), (∀ i ∈ s.items, 0 ≤ i.stock) →
      ∀ i ∈ (simulateSale s id).items, 0 ≤ i.stock := by
  refine ⟨by decide, by decide!, ?_⟩
  intro s id h i hi
  simp only [simulateSale, List.mem_map] at hi
  obtain ⟨j, hj, rfl⟩ := hi
  have := h j hj
  split
  · rename_i hc
    show 0 ≤ j.stock - 1
    omega
  · exact this

/-- C17 fails on the code: with the supplier unreachable the workflow for "Lays Chips" logs
the error and ends after the decision call and the one order request; no run of the watcher,
in any world, adds a query to the Discovery Gateway to the calls made. -/
theorem discovery_failing_input :
    (watchman advisoryDownWorld initialState).effects
      = [Effect.decisionCall 8 "[]" "Lays Chips",
         Effect.orderRequest ⟨"Lays Chips", 50, none⟩] ∧
    (watchman advisoryDownWorld initialState).logs.head?
      = some "❌ ❌ Error: Failed to fetch" ∧
    (watchman advisoryDownWorld initialState).processingRef = false ∧
    ∀ (w : World) (s : AgentState),
      (watchman w s).effects.filter isDiscovery = s.effects.filter isDiscovery := by
  refine ⟨by decide, by decide, by decide, watchman_discovery⟩

/-! ## Interleaved workflows -/

theorem triggerRestockFinish_fields (w : World) (s : AgentState) (item : Item) (q : Int) :
    (triggerRestockFinish w s item q).items = (restockAttempt w s item q).1.items ∧
    (triggerRestockFinish w s item q).effects = (restockAttempt w s item q).1.effects ∧
    (triggerRestockFinish w s item q).isRestocking = false ∧
    (triggerRestockFinish w s item q).processingRef = false := by
  unfold triggerRestockFinish
  generalize restockAttempt w s item q = r
  rcases r with ⟨s', _ | m⟩ <;> exact ⟨rfl, rfl, rfl, rfl⟩

theorem triggerRestock_start_finish (w : World) (s : AgentState) (item : Item) (q : Int) :
    triggerRestock w s item q = triggerRestockFinish w (triggerRestockStart s item) item q :=
  rfl

theorem run_matches_watchman (w : World) (s : AgentState) :
    (run w (mount s) [.render, .resume 0, .resume 0]).state = watchman w s := by
  have hrun : run w (mount s) [.render, .resume 0, .resume 0]
      = step w (step w (step w (mount s) .render) (.resume 0)) (.resume 0) := rfl
  rw [hrun]
  have hrender : step w (mount s) .render
      = runEffect w { state := s, pending := [], lastDeps := some (s.items, s.isRestocking) } := by
    simp [step, mount]
  rw [hrender]
  unfold runEffect watchman
  by_cases hp : s.processingRef = true
  · simp [hp, step]
  · simp only [hp]
    cases hl : lowStockItem s.items with
    | none => simp [step]
    | some item =>
      by_cases hr : s.isRestocking = true
      · simp [hr, step]
      · simp only [hr, Bool.not_false, Bool.not_eq_true] at *
        simp only [checkWithAI, hp, step, List.nil_append, List.get?_cons_zero, List.eraseIdx,
          resumeDecision, checkWithAIResume, Bool.false_eq_true, if_false, Bool.not_false,
          if_true]
        cases analyzeStockStrategy w.generateContent w.jsonParse item.stock w.history
            item.name with
        | none => simp [step]
        | some recommendation =>
          by_cases hs : recommendation.shouldRestock = true
          · simp only [hs, if_true, startRestock]
            by_cases hsus : restockSuspends w (addLog (checkWithAIStart w s item)
                ("🧠 AI Decision: RESTOCK " ++ item.name ++ ". Reason: "
                  ++ recommendation.reason) .ai) = true
            · simp [hsus, step, triggerRestock_start_finish]
            · simp [hsus, step]
          · simp [hs, step]

theorem restockAttempt_wallet (w : World) (s : AgentState) (item : Item) (q : Int) :
    (restockAttempt w s item q).1.walletAddress = s.walletAddress := by
  unfold restockAttempt payAndVerify completeRestock
  repeat' split
  all_goals simp_all [emit, addLog]

theorem triggerRestockFinish_wallet (w : World) (s : AgentState) (item : Item) (q : Int) :
    (triggerRestockFinish w s item q).walletAddress = s.walletAddress := by
  have h := restockAttempt_wallet w s item q
  unfold triggerRestockFinish
  revert h
  generalize restockAttempt w s item q = r
  rcases r with ⟨s', _ | m⟩ <;> exact fun h => h

theorem acquireSigner_of_wallet (w : World) (s s' : AgentState)
    (h : s.walletAddress = s'.walletAddress) : acquireSigner w s = acquireSigner w s' := by
  unfold acquireSigner
  rw [h]

theorem restockSuspends_of_wallet (w : World) (s s' : AgentState)
    (h : s.walletAddress = s'.walletAddress) : restockSuspends w s = restockSuspends w s' := by
  unfold restockSuspends
  rw [h]

theorem restockSuspends_of_signer (w : World) (s : AgentState)
    (h : acquireSigner w s = .ok ()) : restockSuspends w s = true := by
  unfold acquireSigner at h
  unfold restockSuspends
  by_cases hb : (truthy s.walletAddress && w.ethereum) = true
  · simp [hb]
  · simp only [hb, Bool.false_eq_true, if_false] at h
    cases he : w.envSigner with
    | none => simp [he] at h
    | some x => simp [he] at h; simp [h]

theorem triggerRestockFinish_of_error (w : World) (s : AgentState) (item : Item) (q : Int)
    (e : String) (h : acquireSigner w s = .error e) :
    (triggerRestockFinish w s item q).effects = s.effects ∧
    (triggerRestockFinish w s item q).items = s.items := by
  unfold triggerRestockFinish restockAttempt
  rw [h]
  exact ⟨rfl, rfl⟩

theorem after_failed_restock (w : World) (r : Running) (item : Item) (q : Int) (low : Item)
    (hp : r.pending = [.restocking item q]) (hd : r.lastDeps = some (r.state.items, true))
    (hfail : restockSucceeds w r.state item q = false)
    (hlow : lowStockItem r.state.items = some low) :
    run w r [.resume 0, .render]
      = { state := checkWithAIStart w (triggerRestockFinish w r.state item q) low,
          pending := [.deciding low], lastDeps := some (r.state.items, false) } := by
  have hrun : run w r [.resume 0, .render] = step w (step w r (.resume 0)) .render := rfl
  obtain ⟨hi, _, hr, hl⟩ := triggerRestockFinish_fields w r.state item q
  rw [restockAttempt_inventory, hfail] at hi
  simp only [Bool.false_eq_true, if_false] at hi
  have hres : step w r (.resume 0)
      = { r with state := triggerRestockFinish w r.state item q, pending := [] } := by
    simp [step, hp]
  rw [hrun, hres]
  simp [step, hd, hi, hr, hl, runEffect, hlow]

theorem decision_resumes (w : World) (r : Running) (low : Item)
    (hp : r.pending = [.deciding low]) (hlock : r.state.processingRef = true)
    (hidle : r.state.isRestocking = false) (hdeps : r.lastDeps = some (r.state.items, false)) :
    (∀ rec, analyzeStockStrategy w.generateContent w.jsonParse low.stock w.history low.name
        = some rec → rec.shouldRestock = true → acquireSigner w r.state = .ok () →
      ∃ rest, (run w r [.resume 0, .render, .resume 0]).state.effects
        = r.state.effects
          ++ Effect.orderRequest ⟨low.name, quantityOrDefault rec.recommendedQuantity, none⟩
            :: rest) ∧
    (∀ e, acquireSigner w r.state = .error e →
      (run w r [.resume 0, .render, .resume 0]).state.effects = r.state.effects) := by
  have hrun : run w r [.resume 0, .render, .resume 0]
      = step w (step w (step w r (.resume 0)) .render) (.resume 0) := rfl
  constructor
  · intro rec ha hsr hs
    have hs2 : acquireSigner w (addLog r.state ("🧠 AI Decision: RESTOCK " ++ low.name
        ++ ". Reason: " ++ rec.reason) .ai) = .ok () := hs
    have hsus := restockSuspends_of_signer w _ hs2
    have h3 : step w r (.resume 0)
        = { r with
            state := triggerRestockStart (addLog r.state ("🧠 AI Decision: RESTOCK " ++ low.name
              ++ ". Reason: " ++ rec.reason) .ai) low
            pending := [.restocking low (quantityOrDefault rec.recommendedQuantity)] } := by
      simp [step, hp, resumeDecision, ha, hsr, startRestock, hsus]
    have h4 : step w (step w r (.resume 0)) .render
        = { state := triggerRestockStart (addLog r.state ("🧠 AI Decision: RESTOCK " ++ low.name
              ++ ". Reason: " ++ rec.reason) .ai) low
            pending := [.restocking low (quantityOrDefault rec.recommendedQuantity)]
            lastDeps := some (r.state.items, true) } := by
      rw [h3]
      simp [step, hdeps, runEffect, triggerRestockStart, addLog, hlock]
    rw [hrun, h4]
    obtain ⟨rest, h⟩ := restock_effects w (addLog r.state ("🧠 AI Decision: RESTOCK " ++ low.name
        ++ ". Reason: " ++ rec.reason) .ai) low (quantityOrDefault rec.recommendedQuantity) hs2
    refine ⟨rest, ?_⟩
    simp only [step, List.get?_cons_zero]
    rw [← triggerRestock_start_finish, h]
    rfl
  · intro e he
    rw [hrun]
    cases ha : analyzeStockStrategy w.generateContent w.jsonParse low.stock w.history
        low.name with
    | none => simp [step, hp, resumeDecision, ha, hdeps, hidle]
    | some rec =>
      by_cases hsr : rec.shouldRestock = true
      · have he2 : acquireSigner w (addLog r.state ("🧠 AI Decision: RESTOCK " ++ low.name
            ++ ". Reason: " ++ rec.reason) .ai) = .error e := he
        have he3 : acquireSigner w (triggerRestockStart (addLog r.state
            ("🧠 AI Decision: RESTOCK " ++ low.name ++ ". Reason: " ++ rec.reason) .ai) low)
            = .error e := he
        by_cases hsus : restockSuspends w (addLog r.state ("🧠 AI Decision: RESTOCK "
            ++ low.name ++ ". Reason: " ++ rec.reason) .ai) = true
        · have h3 : step w r (.resume 0)
              = { r with
                  state := triggerRestockStart (addLog r.state ("🧠 AI Decision: RESTOCK "
                    ++ low.name ++ ". Reason: " ++ rec.reason) .ai) low
                  pending := [.restocking low (quantityOrDefault rec.recommendedQuantity)] } := by
            simp [step, hp, resumeDecision, ha, hsr, startRestock, hsus]
          have h4 : step w (step w r (.resume 0)) .render
              = { state := triggerRestockStart (addLog r.state ("🧠 AI Decision: RESTOCK "
                    ++ low.name ++ ". Reason: " ++ rec.reason) .ai) low
                  pending := [.restocking low (quantityOrDefault rec.recommendedQuantity)]
                  lastDeps := some (r.state.items, true) } := by
            rw [h3]
            simp [step, hdeps, runEffect, triggerRestockStart, addLog, hlock]
          rw [h4]
          simp only [step, List.get?_cons_zero]
          rw [(triggerRestockFinish_of_error w _ low _ e he3).1]
          rfl
        · have hT := triggerRestockFinish_of_error w (triggerRestockStart (addLog r.state
              ("🧠 AI Decision: RESTOCK " ++ low.name ++ ". Reason: " ++ rec.reason) .ai) low)
              low (quantityOrDefault rec.recommendedQuantity) e he3
          have hF := triggerRestockFinish_fields w (triggerRestockStart (addLog r.state
              ("🧠 AI Decision: RESTOCK " ++ low.name ++ ". Reason: " ++ rec.reason) .ai) low)
              low (quantityOrDefault rec.recommendedQuantity)
          have h3 : step w r (.resume 0)
              = { r with
                  state := triggerRestockFinish w (triggerRestockStart (addLog r.state
                    ("🧠 AI Decision: RESTOCK " ++ low.name ++ ". Reason: " ++ rec.reason)
                    .ai) low) low (quantityOrDefault rec.recommendedQuantity)
                  pending := [] } := by
            simp [step, hp, resumeDecision, ha, hsr, startRestock, hsus,
              triggerRestock_start_finish]
          rw [h3]
          have hitems : (triggerRestockFinish w (triggerRestockStart (addLog r.state
              ("🧠 AI Decision: RESTOCK " ++ low.name ++ ". Reason: " ++ rec.reason) .ai) low)
              low (quantityOrDefault rec.recommendedQuantity)).items = r.state.items := hT.2
          simp only [step, hdeps, hitems, hF.2.2.1, if_true, List.get?_nil]
          rw [hT.1]
          rfl
      · simp [step, hp, resumeDecision, ha, hsr, hdeps, hidle]

/-- C18 fails as stated: with the supplier unreachable, the workflow for "Lays Chips" sends
one order request, fails and releases the lock; the release renders `isRestocking` back to
false, the watchman effect runs again, and with nothing but renders and settling promises the
agent sends a second order request for the same item. -/
theorem automatic_retry_counterexample :
    (run advisoryDownWorld (mount initialState)
        [.render, .resume 0, .render, .resume 0]).state.effects
      = [Effect.decisionCall 8 "[]" "Lays Chips",
         Effect.orderRequest ⟨"Lays Chips", 50, none⟩] ∧
    (run advisoryDownWorld (mount initialState)
        [.render, .resume 0, .render, .resume 0]).state.processingRef = false ∧
    (run advisoryDownWorld (mount initialState)
        [.render, .resume 0, .render, .resume 0]).pending = [] ∧
    (run advisoryDownWorld (mount initialState)
        [.render, .resume 0, .render, .resume 0, .render, .resume 0, .render,
         .resume 0]).state.effects
      = [Effect.decisionCall 8 "[]" "Lays Chips",
         Effect.orderRequest ⟨"Lays Chips", 50, none⟩,
         Effect.decisionCall 8 "[]" "Lays Chips",
         Effect.orderRequest ⟨"Lays Chips", 50, none⟩] := by
  refine ⟨by decide, by decide, by decide, by decide⟩

/-- C18, amended: after a workflow that ended without invoking the order client (a missing or
negative recommendation) the next render finds `items` and `isRestocking` as they were and the
watcher starts nothing; after a workflow that failed inside the order client while the
component had rendered `isRestocking = true`, the next render runs the watchman effect again,
which, the inventory being unchanged, takes the lock and issues a new decision call for the
first item below threshold; when the decision then recommends a restock and the order client
obtains a signer, a further order request is sent for that item, and when it obtains no
signer, no order request follows the decision call. -/
theorem watcher_after_workflow (w : World) (r : Running) :
    (∀ item, r.pending = [.deciding item] →
      r.lastDeps = some (r.state.items, r.state.isRestocking) →
      (∀ rec, analyzeStockStrategy w.generateContent w.jsonParse item.stock w.history
          item.name = some rec → rec.shouldRestock = false) →
      run w r [.resume 0, .render]
        = { r with state := { r.state with processingRef := false }, pending := [] }) ∧
    (∀ item q low, r.pending = [.restocking item q] →
      r.lastDeps = some (r.state.items, true) →
      restockSucceeds w r.state item q = false →
      lowStockItem r.state.items = some low →
      (run w r [.resume 0, .render]).pending = [.deciding low] ∧
      (run w r [.resume 0, .render]).state.processingRef = true ∧
      (run w r [.resume 0, .render]).state.items = r.state.items ∧
      (run w r [.resume 0, .render]).state.effects
        = (triggerRestockFinish w r.state item q).effects
          ++ [Effect.decisionCall low.stock w.history low.name] ∧
      (∀ rec, analyzeStockStrategy w.generateContent w.jsonParse low.stock w.history
          low.name = some rec → rec.shouldRestock = true → acquireSigner w r.state = .ok () →
        ∃ rest, (run w r [.resume 0, .render, .resume 0, .render, .resume 0]).state.effects
          = (triggerRestockFinish w r.state item q).effects
            ++ Effect.decisionCall low.stock w.history low.name
              :: Effect.orderRequest
                  ⟨low.name, quantityOrDefault rec.recommendedQuantity, none⟩ :: rest) ∧
      (∀ e, acquireSigner w r.state = .error e →
        (run w r [.resume 0, .render, .resume 0, .render, .resume 0]).state.effects
          = (triggerRestockFinish w r.state item q).effects
            ++ [Effect.decisionCall low.stock w.history low.name])) := by
  constructor
  · intro item hp hd hneg
    have hrun : run w r [.resume 0, .render] = step w (step w r (.resume 0)) .render := rfl
    rw [hrun]
    cases ha : analyzeStockStrategy w.generateContent w.jsonParse item.stock w.history
        item.name with
    | none => simp [step, hp, resumeDecision, ha, hd]
    | some rec => simp [step, hp, resumeDecision, ha, hd, hneg rec ha]
  · intro item q low hp hd hfail hlow
    have h2 := after_failed_restock w r item q low hp hd hfail hlow
    obtain ⟨hi, _, hr, _⟩ := triggerRestockFinish_fields w r.state item q
    rw [restockAttempt_inventory, hfail] at hi
    simp only [Bool.false_eq_true, if_false] at hi
    have hrun : run w r [.resume 0, .render, .resume 0, .render, .resume 0]
        = run w (run w r [.resume 0, .render]) [.resume 0, .render, .resume 0] := rfl
    have heff : (checkWithAIStart w (triggerRestockFinish w r.state item q) low).effects
        = (triggerRestockFinish w r.state item q).effects
          ++ [Effect.decisionCall low.stock w.history low.name] := rfl
    have hwallet : acquireSigner w (checkWithAIStart w (triggerRestockFinish w r.state item q)
        low) = acquireSigner w r.state :=
      acquireSigner_of_wallet w _ _ (triggerRestockFinish_wallet w r.state item q)
    obtain ⟨hpos, hneg⟩ := decision_resumes w
      { state := checkWithAIStart w (triggerRestockFinish w r.state item q) low,
        pending := [.deciding low], lastDeps := some (r.state.items, false) } low rfl rfl hr
      (by rw [← hi]; rfl)
    rw [hrun, h2]
    refine ⟨rfl, rfl, hi, heff, ?_, ?_⟩
    · intro rec ha hsr hs
      obtain ⟨rest, h⟩ := hpos rec ha hsr (hwallet.trans hs)
      exact ⟨rest, by rw [h, heff, List.append_assoc]; rfl⟩
    · intro e he
      rw [hneg e (hwallet.trans he), heff]

theorem watcher_after_workflow_witness :
    (run advisoryDownWorld
        (run advisoryDownWorld (mount initialState) [.render, .resume 0, .render])
        [.resume 0, .render]).pending = [.deciding (INITIAL_ITEMS.getD 2 default)] ∧
    ∃ rest, (run advisoryDownWorld
        (run advisoryDownWorld (mount initialState) [.render, .resume 0, .render])
        [.resume 0, .render, .resume 0, .render, .resume 0]).state.effects
      = (triggerRestockFinish advisoryDownWorld
          (run advisoryDownWorld (mount initialState) [.render, .resume 0, .render]).state
          (INITIAL_ITEMS.getD 2 default) 50).effects
        ++ Effect.decisionCall (INITIAL_ITEMS.getD 2 default).stock advisoryDownWorld.history
            (INITIAL_ITEMS.getD 2 default).name
          :: Effect.orderRequest ⟨(INITIAL_ITEMS.getD 2 default).name,
              quantityOrDefault (fallback 8).recommendedQuantity, none⟩ :: rest :=
  ⟨((watcher_after_workflow advisoryDownWorld
      (run advisoryDownWorld (mount initialState) [.render, .resume 0, .render])).2
      (INITIAL_ITEMS.getD 2 default) 50 (INITIAL_ITEMS.getD 2 default)
      (by decide) (by decide) (by decide) (by decide)).1,
   ((watcher_after_workflow advisoryDownWorld
      (run advisoryDownWorld (mount initialState) [.render, .resume 0, .render])).2
      (INITIAL_ITEMS.getD 2 default) 50 (INITIAL_ITEMS.getD 2 default)
      (by decide) (by decide) (by decide) (by decide)).2.2.2.2.1
      (fallback 8) (by decide) (by decide) rfl⟩

/-- C19 fails on the code: while the watcher's workflow for "Lays Chips" awaits the decision,
the Restock button of "Basmati Rice" is enabled; a click starts a second workflow, whose
`finally` clears `processingRef` while the first workflow, which set it, is still in progress;
and when the decision arrives first, two runs of `triggerRestock` are in progress at once. -/
theorem concurrent_workflows_failing_input :
    (run advisoryDownWorld (mount initialState)
        [.render, .click (INITIAL_ITEMS.getD 0 default)]).pending
      = [.deciding (INITIAL_ITEMS.getD 2 default),
         .restocking (INITIAL_ITEMS.getD 0 default) 20] ∧
    (run advisoryDownWorld (mount initialState) [.render]).state.processingRef = true ∧
    (run advisoryDownWorld (mount initialState)
        [.render, .click (INITIAL_ITEMS.getD 0 default), .resume 1]).state.processingRef
      = false ∧
    (run advisoryDownWorld (mount initialState)
        [.render, .click (INITIAL_ITEMS.getD 0 default), .resume 1]).pending
      = [.deciding (INITIAL_ITEMS.getD 2 default)] ∧
    (run advisoryDownWorld (mount initialState)
        [.render, .click (INITIAL_ITEMS.getD 0 default), .resume 0]).pending
      = [.restocking (INITIAL_ITEMS.getD 0 default) 20,
         .restocking (INITIAL_ITEMS.getD 2 default) 50] := by
  refine ⟨by decide, by decide, by decide, by decide, by decide⟩

/-! ## Supplier: repeated proofs -/

theorem revenue_of_prices (orders : List Order)
    (hprice : ∀ o ∈ orders, ∃ q h, o.total = finalPrice q h)
    (hlen : orders.length ≤ 10000000) :
    (getOrders orders).totalRevenue = specFixed (specLedgerMicros orders / 10) 5 := by
  obtain ⟨A, hf, hd, _, h1, h2⟩ := revenue_fold orders hprice 0 0 0
    (by omega) (by omega) (by omega) (by omega)
  have h0 : (some 0 : JSNumber) = some ((0 : Nat) : Int) := rfl
  unfold getOrders revenueSum
  simp only
  rw [h0, hf, toFixed_natCast]
  congr 1
  exact toFixedInt_exact A (0 + specLedgerMicros orders) (0 + orders.length) (by omega)
    (by simpa using hd) h1 h2 |>.trans (by simp)

theorem serveAll_append (orders : List Order) (xs ys : List SupplierRequest) :
    serveAll orders (xs ++ ys) = serveAll (serveAll orders xs) ys := by
  simp [serveAll, List.foldl_append]

theorem specMicros_price_pos (q : Int) (h : Nat) : 0 < specMicros (finalPrice q h) := by
  by_cases hh : h ≥ 17 <;> by_cases hq : q > 100
  · rw [finalPrice_surge_bulk q h hh hq]; decide!
  · rw [finalPrice_surge q h hh hq]; decide!
  · rw [finalPrice_bulk q h hh hq]; decide!
  · rw [finalPrice_plain q h hh hq]; decide!

/-- C20 fails as stated: two fulfilled requests that carry the proof "0xabc" leave two ledger
entries with that hash, and `totalRevenue` is "0.00020", twice the total "0.000100" of one. -/
theorem repeated_proof_counterexample :
    (serveAll [] [riceRequest, riceRequest]).map (fun o => (o.hash, o.total))
      = [("0xabc", "0.000100"), ("0xabc", "0.000100")] ∧
    (getOrders (serveAll [] [riceRequest])).totalRevenue = "0.00010" ∧
    (getOrders (serveAll [] [riceRequest, riceRequest])).totalRevenue = "0.00020" := by
  refine ⟨by decide!, by decide!, by decide!⟩

/-- C20, amended: two `POST /buy-stock` requests that carry the same non-empty proof value are
both fulfilled: after them the ledger holds two entries with that proof in front of the
earlier ones, the exact revenue grows by both totals, each of them positive, and, for a ledger
of at most 10,000,000 orders, `totalRevenue` reports that sum. -/
theorem repeated_proof_counted_twice (reqs : List SupplierRequest) (req1 req2 : BuyRequest)
    (c1 c2 : Clock) (p : String) (hp : p ≠ "") (h1 : req1.paymentHash = some p)
    (h2 : req2.paymentHash = some p)
    (hlen : (serveAll [] reqs).length + 2 ≤ 10000000) :
    ∃ o1 o2,
      serveAll [] (reqs ++ [.buy req1 c1, .buy req2 c2]) = o2 :: o1 :: serveAll [] reqs ∧
      o1.hash = p ∧ o2.hash = p ∧
      0 < specMicros o1.total ∧ 0 < specMicros o2.total ∧
      specLedgerMicros (serveAll [] (reqs ++ [.buy req1 c1, .buy req2 c2]))
        = specMicros o2.total + specMicros o1.total + specLedgerMicros (serveAll [] reqs) ∧
      (getOrders (serveAll [] (reqs ++ [.buy req1 c1, .buy req2 c2]))).totalRevenue
        = specFixed ((specMicros o2.total + specMicros o1.total
            + specLedgerMicros (serveAll [] reqs)) / 10) 5 := by
  have hp1 : proofOf req1.paymentHash = some p := by rw [h1]; exact proofOf_some p hp
  have hp2 : proofOf req2.paymentHash = some p := by rw [h2]; exact proofOf_some p hp
  have hserve : serveAll [] (reqs ++ [.buy req1 c1, .buy req2 c2])
      = (buyStock (buyStock (serveAll [] reqs) req1 c1).1 req2 c2).1 := by
    rw [serveAll_append]; rfl
  rw [buyStock_of_some _ req1 c1 p hp1, buyStock_of_some _ req2 c2 p hp2] at hserve
  simp only at hserve
  have hsum : specLedgerMicros (serveAll [] (reqs ++ [.buy req1 c1, .buy req2 c2]))
      = specMicros (finalPrice req2.quantity c2.hour)
        + specMicros (finalPrice req1.quantity c1.hour)
        + specLedgerMicros (serveAll [] reqs) := by
    rw [hserve]
    simp [specLedgerMicros, Nat.add_assoc]
  refine ⟨_, _, hserve, rfl, rfl, specMicros_price_pos _ _, specMicros_price_pos _ _, hsum, ?_⟩
  rw [← hsum]
  apply revenue_of_prices
  · intro o ho
    rcases serveAll_totals _ [] o ho with h | h
    · exact absurd h (List.not_mem_nil _)
    · exact h
  · rw [hserve]
    simp only [List.length_cons]
    omega

theorem repeated_proof_counted_twice_witness :
    ∃ o1 o2,
      serveAll [] ([] ++ [.buy ⟨"Basmati Rice", 20, some "0xabc"⟩ ⟨9, 1, 2, "09:00:00", none⟩,
          .buy ⟨"Thums Up", 150, some "0xabc"⟩ ⟨18, 3, 4, "18:30:00", none⟩])
        = o2 :: o1 :: serveAll [] [] ∧
      o1.hash = "0xabc" ∧ o2.hash = "0xabc" :=
  let ⟨o1, o2, h, ha, hb, _⟩ := repeated_proof_counted_twice []
    ⟨"Basmati Rice", 20, some "0xabc"⟩ ⟨"Thums Up", 150, some "0xabc"⟩
    ⟨9, 1, 2, "09:00:00", none⟩ ⟨18, 3, 4, "18:30:00", none⟩ "0xabc" (by decide) rfl rfl
    (by decide)
  ⟨o1, o2, h, ha, hb⟩

/-! ## Discovery gateway -/

/-- C22: `discoverSuppliers(item, quantity)` returns exactly the directory entries whose
`supportedProtocols` contains "ap2", in directory order, whatever the item and quantity; for
the built-in directory these are both suppliers. -/
theorem discoverSuppliers_spec (network : List Supplier) (item item' : String)
    (quantity quantity' : Int) :
    discoverSuppliers network item quantity
      = network.filter (fun s => decide ("ap2" ∈ s.supportedProtocols)) ∧
    (discoverSuppliers network item quantity).Sublist network ∧
    (∀ s, s ∈ discoverSuppliers network item quantity ↔
      s ∈ network ∧ "ap2" ∈ s.supportedProtocols) ∧
    discoverSuppliers network item quantity = discoverSuppliers network item' quantity' ∧
    discoverSuppliers supplierNetwork item quantity = supplierNetwork ∧
    (discoverSuppliers supplierNetwork item quantity).length = 2 := by
  refine ⟨?_, ?_, ?_, rfl, ?_, ?_⟩
  · unfold discoverSuppliers
    congr 1
    funext s
    simp
  · exact List.filter_sublist _
  · intro s
    simp [discoverSuppliers]
  · unfold discoverSuppliers
    rfl
  · unfold discoverSuppliers
    rfl

theorem ap2_append_ne_empty (t : String) : "AP2-" ++ t ≠ "" := by
  intro h
  have := congrArg String.length h
  simp [String.length_append] at this
  exact absurd this.1 (by decide)

/-- C23: for every supplier, in particular every one returned by `discoverSuppliers`, and
every order, `placeOrderViaAP2` returns `success = true`, a non-empty `orderId` and the
supplier's delivery time as `estimatedDelivery`; the protocol used is "ap2" and the result is
the same for every item and quantity, so no branch fails or asks for a payment. -/
theorem placeOrderViaAP2_spec (supplier : Supplier) (orderDetails orderDetails' : OrderDetails)
    (now : Nat) :
    (placeOrderViaAP2 supplier orderDetails now).success = true ∧
    (placeOrderViaAP2 supplier orderDetails now).orderId ≠ "" ∧
    (placeOrderViaAP2 supplier orderDetails now).estimatedDelivery = supplier.deliveryTime ∧
    (placeOrderViaAP2 supplier orderDetails now).protocolUsed = "ap2" ∧
    placeOrderViaAP2 supplier orderDetails now = placeOrderViaAP2 supplier orderDetails' now ∧
    (∀ s ∈ discoverSuppliers supplierNetwork orderDetails.item orderDetails.quantity,
      (placeOrderViaAP2 s orderDetails now).success = true ∧
      (placeOrderViaAP2 s orderDetails now).estimatedDelivery = s.deliveryTime) :=
  ⟨rfl, ap2_append_ne_empty _, rfl, rfl, rfl, fun _ _ => ⟨rfl, rfl⟩⟩

/-! ## Supplier dashboard -/

/-- C28: for every list of orders served by `GET /supplier/orders`, the revenue the dashboard
recomputes from the orders is the `totalRevenue` string of the server for that list, and its
`activeOrders` is the length of the list. -/
theorem dashboard_matches_server (orders : List Order) :
    (fetchOrders (getOrders orders)).revenue = (getOrders orders).totalRevenue ∧
    (fetchOrders (getOrders orders)).activeOrders = orders.length ∧
    fetchOrders (getOrders []) = { revenue := "0.00000", activeOrders := 0 } :=
  ⟨rfl, rfl, by decide!⟩

/-! ## Decision engine: shape of the recommendation -/

/-- C24 fails as stated: when the model answers with `recommendedQuantity` -50, the value
that `analyzeStockStrategy` returns is the parsed object itself, whose quantity is not
positive. -/
theorem recommendation_shape_counterexample :
    analyzeStockStrategy negativeQuantityWorld.generateContent
        negativeQuantityWorld.jsonParse 8 negativeQuantityWorld.history "Lays Chips"
      = some { shouldRestock := true, recommendedQuantity := some (-50), reason := "low",
               urgencyScore := 7 } ∧
    (analyzeStockStrategy negativeQuantityWorld.generateContent
        negativeQuantityWorld.jsonParse 8 negativeQuantityWorld.history "Lays Chips").map
      wellFormed = some false := by
  decide

/-- C24 (amended): on the fallback path, taken when the model call rejects or its cleaned
answer does not parse, `analyzeStockStrategy` returns a well-formed recommendation, with
quantity 50 and urgency 5 or 10; on the advisory path it returns whatever `JSON.parse` yields
from the cleaned text, unchecked. -/
theorem recommendation_shape (gen : String → ModelReply)
    (parse : String → Option (Option Recommendation)) (stock : Int) (history context : String) :
    wellFormed (fallback stock) = true ∧
    (fallback stock).recommendedQuantity = some 50 ∧
    ((fallback stock).urgencyScore = 5 ∨ (fallback stock).urgencyScore = 10) ∧
    ((gen (prompt stock history) = .rejects ∨
        ∃ t, gen (prompt stock history) = .text t ∧ parse (cleanup t) = none) →
      ∃ r, analyzeStockStrategy gen parse stock history context = some r ∧
        wellFormed r = true) ∧
    (∀ t v, gen (prompt stock history) = .text t → parse (cleanup t) = some v →
      analyzeStockStrategy gen parse stock history context = v) := by
  have hwf : wellFormed (fallback stock) = true := by
    unfold wellFormed fallback
    by_cases h : stock < 5 <;> simp [h]
  refine ⟨hwf, rfl, ?_, ?_, ?_⟩
  · unfold fallback
    by_cases h : stock < 5 <;> simp [h]
  · rintro (h | ⟨t, h, hp⟩)
    · exact ⟨_, analyzeStockStrategy_of_rejects gen parse stock history context h, hwf⟩
    · refine ⟨fallback stock, ?_, hwf⟩
      rw [analyzeStockStrategy_of_text gen parse stock history context t h, hp]
  · intro t v h hp
    rw [analyzeStockStrategy_of_text gen parse stock history context t h, hp]

/-! ## Order client: the history entry -/

/-- C25 fails on the code: in scenario A the workflow pays with transaction "0xfeed", submits
that hash as the proof and succeeds; the history entry has the item, the quantity and the
status of the workflow, but its `hash` is the supplier's tracking id "TRK-2", not the proof. -/
theorem history_hash_failing_input :
    (watchman scenarioAWorld scenarioA).transactionHistory
      = [{ id := 7, time := "09:00:05", item := "Basmati Rice", qty := 50, hash := "TRK-2",
           status := "Success" }] ∧
    Effect.confirmation "0xfeed" ∈ (watchman scenarioAWorld scenarioA).effects ∧
    Effect.orderRequest ⟨"Basmati Rice", 50, some "0xfeed"⟩
      ∈ (watchman scenarioAWorld scenarioA).effects ∧
    (ledgerAfter [] ⟨9, 1, 2, "09:00:00", some "0x5a11e5"⟩
      (watchman scenarioAWorld scenarioA).effects).map (fun o => o.hash) = ["0xfeed"] := by
  decide!

/-! ## Watcher: which item is handled -/

theorem restockAttempt_calls (w : World) (s : AgentState) (item : Item) (q : Int) :
    (restockAttempt w s item q).1.effects.filter (fun e => !restockCallFor item.name e)
      = s.effects.filter (fun e => !restockCallFor item.name e) := by
  unfold restockAttempt payAndVerify completeRestock
  repeat' split
  all_goals simp_all [emit, addLog, restockCallFor, List.filter_append]

theorem restockAttempt_effects_append (w : World) (s : AgentState) (item : Item) (q : Int) :
    ∃ rest, (restockAttempt w s item q).1.effects = s.effects ++ rest := by
  unfold restockAttempt
  split
  · exact ⟨[], by simp⟩
  · split
    · exact ⟨_, rfl⟩
    · split
      · obtain ⟨rest, h⟩ := payAndVerify_effects w
          (emit s (.orderRequest ⟨item.name, q, none⟩)) item q ‹_›
        exact ⟨Effect.orderRequest ⟨item.name, q, none⟩ :: rest, by
          rw [h]; simp only [emit, List.append_assoc]; rfl⟩
      · exact ⟨_, by rw [completeRestock_effects]; rfl⟩

theorem triggerRestock_calls (w : World) (s : AgentState) (item : Item) (q : Int) :
    ∃ rest, (triggerRestock w s item q).effects = s.effects ++ rest ∧
      ∀ e ∈ rest, restockCallFor item.name e = true := by
  obtain ⟨rest, h⟩ := restockAttempt_effects_append w (triggerRestockStart s item) item q
  have hf := restockAttempt_calls w (triggerRestockStart s item) item q
  rw [h] at hf
  refine ⟨rest, by rw [triggerRestock_effects_eq, h]; rfl, ?_⟩
  intro e he
  by_contra hne
  have hmem : e ∈ (List.filter (fun e => !restockCallFor item.name e) rest) := by
    simp [List.mem_filter, he, hne]
  rw [List.filter_append] at hf
  have hnil : List.filter (fun e => !restockCallFor item.name e) rest = [] :=
    List.append_right_eq_self.1 hf
  rw [hnil] at hmem
  exact absurd hmem (List.not_mem_nil _)

theorem watchman_unfold (w : World) (s : AgentState) (item : Item)
    (hlock : s.processingRef = false) (hidle : s.isRestocking = false)
    (hlow : lowStockItem s.items = some item) :
    watchman w s = checkWithAIResume w (checkWithAIStart w s item) item
      (.ok (analyzeStockStrategy w.generateContent w.jsonParse item.stock w.history
        item.name)) := by
  simp [watchman, checkWithAI, hlock, hidle, hlow]

/-- C30: with the lock free and some item below its threshold, the watcher starts exactly one
workflow, for the first item in list order whose stock is below its threshold: every item
before it is at or above its threshold, the one decision call of the run is for that item,
every later external call is an order request for it, a payment or a confirmation, and only
its stock can change; a low item later in the list gets no call. -/
theorem watcher_first_low_item (w : World) (s : AgentState) (item : Item)
    (hlock : s.processingRef = false) (hidle : s.isRestocking = false)
    (hlow : lowStockItem s.items = some item) :
    (∃ pre post, s.items = pre ++ item :: post ∧ ∀ i ∈ pre, ¬ i.stock < i.threshold) ∧
    item.stock < item.threshold ∧
    (∀ r : Running, r.state = s → (runEffect w r).pending = r.pending ++ [.deciding item]) ∧
    (∃ rest, (watchman w s).effects
        = s.effects ++ Effect.decisionCall item.stock w.history item.name :: rest ∧
      ∀ e ∈ rest, restockCallFor item.name e = true) ∧
    ((watchman w s).items = s.items ∨
      ∃ q, (watchman w s).items
        = s.items.map (fun i => if i.id = item.id then { i with stock := i.stock + q } else i)) := by
  refine ⟨?_, (lowStockItem_low s.items item hlow).2, ?_, ?_, ?_⟩
  · unfold lowStockItem at hlow
    obtain ⟨_, pre, post, h, hpre⟩ := List.find?_eq_some.1 hlow
    exact ⟨pre, post, h, fun i hi => by simpa using hpre i hi⟩
  · rintro r rfl
    simp [runEffect, hlock, hidle, hlow]
  · rw [watchman_unfold w s item hlock hidle hlow]
    unfold checkWithAIResume
    split
    · rename_i h; cases h
    · exact ⟨[], by simp [checkWithAIStart, emit, addLog], by simp⟩
    · split
      · obtain ⟨rest, h, hall⟩ := triggerRestock_calls w
          (addLog (checkWithAIStart w s item) ("🧠 AI Decision: RESTOCK " ++ item.name
            ++ ". Reason: " ++ (‹Recommendation›).reason) .ai)
          item (quantityOrDefault (‹Recommendation›).recommendedQuantity)
        exact ⟨rest, by rw [h]; simp [checkWithAIStart, emit, addLog], hall⟩
      · exact ⟨[], by simp [checkWithAIStart, emit, addLog], by simp⟩
  · rw [watchman_unfold w s item hlock hidle hlow]
    unfold checkWithAIResume
    split
    · rename_i h; cases h
    · exact Or.inl rfl
    · split
      · rw [(triggerRestock_inventory w _ item _).1, restockAttempt_inventory]
        split
        · exact Or.inr ⟨_, rfl⟩
        · exact Or.inl rfl
      · exact Or.inl rfl

theorem watcher_first_low_item_witness :
    (∃ pre post, twoLowState.items = pre ++ (INITIAL_ITEMS.getD 2 default) :: post ∧
      ∀ i ∈ pre, ¬ i.stock < i.threshold) ∧
    (INITIAL_ITEMS.getD 2 default).stock < (INITIAL_ITEMS.getD 2 default).threshold ∧
    (∀ r : Running, r.state = twoLowState →
      (runEffect advisoryDownWorld r).pending
        = r.pending ++ [.deciding (INITIAL_ITEMS.getD 2 default)]) ∧
    (∃ rest, (watchman advisoryDownWorld twoLowState).effects
        = twoLowState.effects ++ Effect.decisionCall (INITIAL_ITEMS.getD 2 default).stock
            advisoryDownWorld.history (INITIAL_ITEMS.getD 2 default).name :: rest ∧
      ∀ e ∈ rest, restockCallFor (INITIAL_ITEMS.getD 2 default).name e = true) ∧
    ((watchman advisoryDownWorld twoLowState).items = twoLowState.items ∨
      ∃ q, (watchman advisoryDownWorld twoLowState).items
        = twoLowState.items.map (fun i =>
            if i.id = (INITIAL_ITEMS.getD 2 default).id then { i with stock := i.stock + q }
            else i)) :=
  watcher_first_low_item advisoryDownWorld twoLowState (INITIAL_ITEMS.getD 2 default)
    rfl rfl (by decide)

/-! ## Agent and supplier together -/

theorem against_acquireSigner (w : World) (orders1 : List Order) (c1 : Clock)
    (orders2 : List Order) (c2 : Clock) (s : AgentState) :
    acquireSigner (againstSupplier w orders1 c1 orders2 c2) s = acquireSigner w s := rfl

theorem against_finalData (w : World) (orders1 : List Order) (c1 : Clock)
    (orders2 : List Order) (c2 : Clock) (s : AgentState) (item : Item) (q : Int) :
    finalData (againstSupplier w orders1 c1 orders2 c2) s item q
      = match acquireSigner w s with
        | .error _ => none
        | .ok () =>
          match w.parseEther (finalPrice q c1.hour) with
          | .error _ => none
          | .ok value =>
            match w.sendTransaction c1.wallet value with
            | .error _ => none
            | .ok hash =>
              match w.wait hash with
              | .error _ => none
              | .ok () => some (buyStock orders2 ⟨item.name, q, some hash⟩ c2).2.body := by
  unfold finalData
  rw [against_acquireSigner]
  cases acquireSigner w s with
  | error e => rfl
  | ok u =>
    cases u
    simp only [againstSupplier, clientView, buyStock, proofOf, if_true]
    cases w.parseEther (finalPrice q c1.hour) with
    | error e => rfl
    | ok value =>
      simp only
      cases w.sendTransaction c1.wallet value with
      | error e => rfl
      | ok hash =>
        simp only
        cases w.wait hash with
        | error e => rfl
        | ok u => cases u; rfl

theorem against_credit_inv (w : World) (orders1 : List Order) (c1 : Clock)
    (orders2 : List Order) (c2 : Clock) (s : AgentState) (item : Item) (q : Int)
    (h : restockSucceeds (againstSupplier w orders1 c1 orders2 c2) s item q = true) :
    ∃ value hash, acquireSigner w s = .ok () ∧
      w.parseEther (finalPrice q c1.hour) = .ok value ∧
      w.sendTransaction c1.wallet value = .ok hash ∧ w.wait hash = .ok () ∧ hash ≠ "" := by
  unfold restockSucceeds at h
  rw [against_finalData] at h
  cases hs : acquireSigner w s with
  | error e => simp [hs] at h
  | ok u =>
    cases u
    cases hv : w.parseEther (finalPrice q c1.hour) with
    | error e => simp [hs, hv] at h
    | ok value =>
      cases ht : w.sendTransaction c1.wallet value with
      | error e => simp [hs, hv, ht] at h
      | ok hash =>
        cases hw : w.wait hash with
        | error e => simp [hs, hv, ht, hw] at h
        | ok u =>
          cases u
          refine ⟨value, hash, rfl, rfl, ht, hw, ?_⟩
          rintro rfl
          simp [hs, hv, ht, hw, buyStock, proofOf] at h

theorem against_paid_run (w : World) (orders1 : List Order) (c1 : Clock)
    (orders2 : List Order) (c2 : Clock) (s : AgentState) (item : Item) (q : Int)
    (value : Nat) (hash : String) (hs : acquireSigner w s = .ok ())
    (hv : w.parseEther (finalPrice q c1.hour) = .ok value)
    (ht : w.sendTransaction c1.wallet value = .ok hash) (hw : w.wait hash = .ok ())
    (hh : hash ≠ "") :
    (triggerRestock (againstSupplier w orders1 c1 orders2 c2) s item q).effects
      = s.effects ++ [Effect.orderRequest ⟨item.name, q, none⟩, Effect.payment c1.wallet value,
          Effect.confirmation hash, Effect.orderRequest ⟨item.name, q, some hash⟩] ∧
    (triggerRestock (againstSupplier w orders1 c1 orders2 c2) s item q).items
      = s.items.map (fun i => if i.id = item.id then { i with stock := i.stock + q } else i) ∧
    (triggerRestock (againstSupplier w orders1 c1 orders2 c2) s item q).transactionHistory
      = { id := w.now, time := w.localeTime, item := item.name, qty := q,
          hash := "TRK-" ++ toString c2.nowTracking, status := "Success" }
        :: s.transactionHistory := by
  have hp : proofOf (some hash) = some hash := by simp [proofOf, hh]
  have hfd : finalData (againstSupplier w orders1 c1 orders2 c2) s item q
      = some (buyStock orders2 ⟨item.name, q, some hash⟩ c2).2.body := by
    rw [against_finalData, hs]
    simp only [hv, ht, hw]
  have hsucc : restockSucceeds (againstSupplier w orders1 c1 orders2 c2) s item q = true := by
    unfold restockSucceeds
    rw [hfd, buyStock_of_some _ _ _ hash hp]
    rfl
  refine ⟨?_, ?_, ?_⟩
  · rw [triggerRestock_effects_eq]
    have hs' : acquireSigner (againstSupplier w orders1 c1 orders2 c2)
        (triggerRestockStart s item) = .ok () := hs
    unfold restockAttempt
    rw [hs']
    simp only [againstSupplier, clientView, buyStock, proofOf, if_true, payAndVerify, hv, ht, hw,
      completeRestock_effects]
    simp [emit, addLog, triggerRestockStart]
  · have hsucc' : restockSucceeds (againstSupplier w orders1 c1 orders2 c2)
        (triggerRestockStart s item) item q = true := hsucc
    rw [(triggerRestock_inventory _ s item q).1, restockAttempt_inventory, if_pos hsucc']
    rfl
  · rw [(triggerRestock_inventory _ s item q).2, restockAttempt_history, finalData_start, hfd,
      buyStock_of_some _ _ _ hash hp]
    have htag : truthy (some ("TRK-" ++ toString c2.nowTracking)) = true := by
      simp [truthy, tag_append_ne_empty]
    simp only [if_true, htag, Option.getD_some]
    rfl

theorem credit_succeeds (w : World) (s : AgentState) (item : Item) (q : Int)
    (hcredit : (triggerRestock w s item q).items ≠ s.items ∨
      (triggerRestock w s item q).transactionHistory ≠ s.transactionHistory) :
    restockSucceeds w s item q = true := by
  by_contra hne
  have hf : restockSucceeds w (triggerRestockStart s item) item q = false := by
    simpa using hne
  rcases hcredit with h | h
  · apply h
    rw [(triggerRestock_inventory w s item q).1, restockAttempt_inventory, hf]
    rfl
  · apply h
    rw [(triggerRestock_inventory w s item q).2, restockAttempt_history]
    unfold restockSucceeds at hf
    cases hfd : finalData w (triggerRestockStart s item) item q with
    | none => rfl
    | some data =>
      rw [hfd] at hf
      have hd : ¬ data.success = some true := by simpa using hf
      simp only [if_neg hd]
      rfl

/-- C27: in a run of the order client against the supplier of `server.js` (whatever its
ledgers and clocks when it serves the two requests), if the run credits stock (the inventory
or the transaction history changes), then the external calls of the run are, in order: the
request without proof, a payment of the amount of the supplier's invoice to the invoice's
destination, the wait for that transaction, and the request carrying its hash; the inventory
is credited by `q` for the item, and serving that last request adds exactly one ledger entry,
whose item and quantity are those requested and whose hash is the hash of the payment. -/
theorem credit_matches_ledger_entry (w : World) (orders1 : List Order) (c1 : Clock)
    (orders2 : List Order) (c2 : Clock) (s : AgentState) (item : Item) (q : Int)
    (hcredit :
      (triggerRestock (againstSupplier w orders1 c1 orders2 c2) s item q).items ≠ s.items ∨
      (triggerRestock (againstSupplier w orders1 c1 orders2 c2) s item q).transactionHistory
        ≠ s.transactionHistory) :
    ∃ value hash,
      (∃ pd, (buyStock orders1 ⟨item.name, q, none⟩ c1).2.body.paymentDetails = some pd ∧
        pd.destination = c1.wallet ∧ w.parseEther pd.amount = .ok value) ∧
      w.sendTransaction c1.wallet value = .ok hash ∧ w.wait hash = .ok () ∧
      (triggerRestock (againstSupplier w orders1 c1 orders2 c2) s item q).effects
        = s.effects ++ [Effect.orderRequest ⟨item.name, q, none⟩,
            Effect.payment c1.wallet value, Effect.confirmation hash,
            Effect.orderRequest ⟨item.name, q, some hash⟩] ∧
      (triggerRestock (againstSupplier w orders1 c1 orders2 c2) s item q).items
        = s.items.map (fun i =>
            if i.id = item.id then { i with stock := i.stock + q } else i) ∧
      (buyStock orders1 ⟨item.name, q, none⟩ c1).1 = orders1 ∧
      ∃ o, (buyStock orders2 ⟨item.name, q, some hash⟩ c2).1 = o :: orders2 ∧
        o.item = item.name ∧ o.quantity = q ∧ o.hash = hash ∧
        o.total = finalPrice q c2.hour := by
  obtain ⟨value, hash, hs, hv, ht, hw, hh⟩ := against_credit_inv w orders1 c1 orders2 c2 s item q
    (credit_succeeds _ s item q hcredit)
  obtain ⟨he, hi, _⟩ := against_paid_run w orders1 c1 orders2 c2 s item q value hash hs hv ht hw hh
  have hp : proofOf (some hash) = some hash := by simp [proofOf, hh]
  refine ⟨value, hash, ⟨_, rfl, rfl, hv⟩, ht, hw, he, hi, rfl, ?_⟩
  rw [buyStock_of_some orders2 ⟨item.name, q, some hash⟩ c2 hash hp]
  exact ⟨_, rfl, rfl, rfl, rfl, rfl⟩

theorem credit_matches_ledger_entry_witness :
    ∃ value hash,
      (∃ pd, (buyStock [] ⟨(scenarioA.items.getD 0 default).name, 20, none⟩
          ⟨9, 1, 2, "09:00:00", some "0x5a11e5"⟩).2.body.paymentDetails = some pd ∧
        pd.destination = some "0x5a11e5" ∧ scenarioAWorld.parseEther pd.amount = .ok value) ∧
      scenarioAWorld.sendTransaction (some "0x5a11e5") value = .ok hash ∧
      scenarioAWorld.wait hash = .ok () ∧
      (triggerRestock (againstSupplier scenarioAWorld [] ⟨9, 1, 2, "09:00:00", some "0x5a11e5"⟩
          [] ⟨9, 3, 4, "09:00:02", some "0x5a11e5"⟩) scenarioA (scenarioA.items.getD 0 default) 20).effects
        = scenarioA.effects ++ [Effect.orderRequest ⟨(scenarioA.items.getD 0 default).name, 20, none⟩,
            Effect.payment (some "0x5a11e5") value, Effect.confirmation hash,
            Effect.orderRequest ⟨(scenarioA.items.getD 0 default).name, 20, some hash⟩] ∧
      (triggerRestock (againstSupplier scenarioAWorld [] ⟨9, 1, 2, "09:00:00", some "0x5a11e5"⟩
          [] ⟨9, 3, 4, "09:00:02", some "0x5a11e5"⟩) scenarioA (scenarioA.items.getD 0 default) 20).items
        = scenarioA.items.map (fun i =>
            if i.id = (scenarioA.items.getD 0 default).id then { i with stock := i.stock + 20 } else i) ∧
      (buyStock [] ⟨(scenarioA.items.getD 0 default).name, 20, none⟩
        ⟨9, 1, 2, "09:00:00", some "0x5a11e5"⟩).1 = [] ∧
      ∃ o, (buyStock [] ⟨(scenarioA.items.getD 0 default).name, 20, some hash⟩
          ⟨9, 3, 4, "09:00:02", some "0x5a11e5"⟩).1 = o :: [] ∧
        o.item = (scenarioA.items.getD 0 default).name ∧ o.quantity = 20 ∧ o.hash = hash ∧
        o.total = finalPrice 20 9 :=
  credit_matches_ledger_entry scenarioAWorld [] ⟨9, 1, 2, "09:00:00", some "0x5a11e5"⟩
    [] ⟨9, 3, 4, "09:00:02", some "0x5a11e5"⟩ scenarioA (scenarioA.items.getD 0 default) 20
    (Or.inl (by decide!))

/-! ## Scenario A -/

/-- C21 fails as stated: in scenario A (stock 8, threshold 10, lock free, advisory call
rejecting, nine o'clock, payment mined) the workflow requests 50 units, the quantity of the
fallback policy, not 20; it is quoted "0.000100", the stock ends at 58 and the one ledger
entry has quantity 50. -/
theorem scenarioA_counterexample :
    (watchman scenarioAWorld scenarioA).effects
      = [Effect.decisionCall 8 "[]" "Basmati Rice",
         Effect.orderRequest ⟨"Basmati Rice", 50, none⟩,
         Effect.payment (some "0x5a11e5") 100000000000000,
         Effect.confirmation "0xfeed",
         Effect.orderRequest ⟨"Basmati Rice", 50, some "0xfeed"⟩] ∧
    (watchman scenarioAWorld scenarioA).items.map (fun i => i.stock) = [58] ∧
    (ledgerAfter [] ⟨9, 1, 2, "09:00:00", some "0x5a11e5"⟩
      (watchman scenarioAWorld scenarioA).effects).map (fun o => (o.quantity, o.total))
      = [(50, "0.000100")] := by
  decide!

/-- C21 (amended): when the lock is free, the first item below its threshold has stock below
10 (as in scenario A, stock 8 and threshold 10), the fallback policy decides, the supplier's
hour is before 17 and the payment is mined, the workflow triggers and requests 50 units, the
quantity the fallback recommends; the supplier quotes "0.000100"; the run ends with that
item's stock raised by 50 (from 8 to 58) and exactly one new ledger entry, with quantity 50,
total "0.000100" and the payment's hash. -/
theorem scenarioA_fallback_run (gen : String → ModelReply)
    (parse : String → Option (Option Recommendation)) (orders : List Order) (c : Clock)
    (s : AgentState) (item : Item)
    (hlock : s.processingRef = false) (hidle : s.isRestocking = false)
    (hlow : lowStockItem s.items = some item) (hstock : item.stock < 10)
    (hfallback : analyzeStockStrategy gen parse item.stock "[]" item.name
      = some (fallback item.stock))
    (hhour : c.hour < 17) :
    (watchman (liveWorld gen parse orders c) s).effects
      = s.effects ++ [Effect.decisionCall item.stock "[]" item.name,
         Effect.orderRequest ⟨item.name, 50, none⟩,
         Effect.payment c.wallet 100000000000000,
         Effect.confirmation "0xfeed",
         Effect.orderRequest ⟨item.name, 50, some "0xfeed"⟩] ∧
    ((buyStock orders ⟨item.name, 50, none⟩ c).2.body.paymentDetails.map (fun pd => pd.amount)
      = some "0.000100") ∧
    (watchman (liveWorld gen parse orders c) s).items
      = s.items.map (fun i => if i.id = item.id then { i with stock := i.stock + 50 } else i) ∧
    ledgerAfter orders c ((watchman (liveWorld gen parse orders c) s).effects.drop
        s.effects.length)
      = { id := "ORD-" ++ toString c.now, time := c.localeTime, item := item.name,
          quantity := 50, total := "0.000100", hash := "0xfeed",
          status := "Dispatched ✈️" } :: orders := by
  have hprice : finalPrice 50 c.hour = "0.000100" :=
    finalPrice_plain 50 c.hour (by omega) (by decide)
  have hrun := against_paid_run (liveWorld gen parse orders c) orders c orders c
    (addLog (checkWithAIStart (liveWorld gen parse orders c) s item)
      ("🧠 AI Decision: RESTOCK " ++ item.name ++ ". Reason: "
        ++ (fallback item.stock).reason) .ai)
    item 50 100000000000000 "0xfeed"
    (by simp [acquireSigner, liveWorld])
    (by rw [hprice]; rfl) rfl rfl (by decide)
  have hw : againstSupplier (liveWorld gen parse orders c) orders c orders c
      = liveWorld gen parse orders c := rfl
  rw [hw] at hrun
  have hwatch : watchman (liveWorld gen parse orders c) s
      = triggerRestock (liveWorld gen parse orders c)
          (addLog (checkWithAIStart (liveWorld gen parse orders c) s item)
            ("🧠 AI Decision: RESTOCK " ++ item.name ++ ". Reason: "
              ++ (fallback item.stock).reason) .ai)
          item 50 := by
    rw [watchman_unfold _ s item hlock hidle hlow]
    have : analyzeStockStrategy (liveWorld gen parse orders c).generateContent
        (liveWorld gen parse orders c).jsonParse item.stock
        (liveWorld gen parse orders c).history item.name = some (fallback item.stock) :=
      hfallback
    rw [this]
    simp [checkWithAIResume, fallback, hstock, quantityOrDefault]
  have heff : (watchman (liveWorld gen parse orders c) s).effects
      = s.effects ++ [Effect.decisionCall item.stock "[]" item.name,
         Effect.orderRequest ⟨item.name, 50, none⟩,
         Effect.payment c.wallet 100000000000000,
         Effect.confirmation "0xfeed",
         Effect.orderRequest ⟨item.name, 50, some "0xfeed"⟩] := by
    rw [hwatch, hrun.1]
    simp [checkWithAIStart, emit, addLog, liveWorld]
  refine ⟨heff, ?_, ?_, ?_⟩
  · rw [buyStock_of_none orders ⟨item.name, 50, none⟩ c rfl, hprice]
    rfl
  · rw [hwatch, hrun.2.1]
    rfl
  · rw [heff, List.drop_left]
    simp only [ledgerAfter, List.filterMap_cons, List.filterMap_nil, serveAll, List.foldl_cons,
      List.foldl_nil, serve]
    rw [buyStock_of_none orders ⟨item.name, 50, none⟩ c rfl,
      buyStock_of_some orders ⟨item.name, 50, some "0xfeed"⟩ c "0xfeed" rfl, hprice]

theorem scenarioA_fallback_run_witness :
    (watchman (liveWorld (fun _ => .rejects) (fun _ => none) []
        ⟨9, 1, 2, "09:00:00", some "0x5a11e5"⟩) scenarioA).effects
      = scenarioA.effects ++ [Effect.decisionCall (scenarioA.items.getD 0 default).stock "[]"
           (scenarioA.items.getD 0 default).name,
         Effect.orderRequest ⟨(scenarioA.items.getD 0 default).name, 50, none⟩,
         Effect.payment (some "0x5a11e5") 100000000000000,
         Effect.confirmation "0xfeed",
         Effect.orderRequest ⟨(scenarioA.items.getD 0 default).name, 50, some "0xfeed"⟩] ∧
    ((buyStock [] ⟨(scenarioA.items.getD 0 default).name, 50, none⟩
        ⟨9, 1, 2, "09:00:00", some "0x5a11e5"⟩).2.body.paymentDetails.map (fun pd => pd.amount)
      = some "0.000100") ∧
    (watchman (liveWorld (fun _ => .rejects) (fun _ => none) []
        ⟨9, 1, 2, "09:00:00", some "0x5a11e5"⟩) scenarioA).items
      = scenarioA.items.map (fun i =>
          if i.id = (scenarioA.items.getD 0 default).id then { i with stock := i.stock + 50 }
          else i) ∧
    ledgerAfter [] ⟨9, 1, 2, "09:00:00", some "0x5a11e5"⟩
        ((watchman (liveWorld (fun _ => .rejects) (fun _ => none) []
          ⟨9, 1, 2, "09:00:00", some "0x5a11e5"⟩) scenarioA).effects.drop
          scenarioA.effects.length)
      = { id := "ORD-" ++ toString 1, time := "09:00:00",
          item := (scenarioA.items.getD 0 default).name,
          quantity := 50, total := "0.000100", hash := "0xfeed",
          status := "Dispatched ✈️" } :: [] :=
  scenarioA_fallback_run (fun _ => .rejects) (fun _ => none) []
    ⟨9, 1, 2, "09:00:00", some "0x5a11e5"⟩ scenarioA (scenarioA.items.getD 0 default)
    rfl rfl (by decide) (by decide) rfl (by decide)

/-! ## Supplier: totals and revenue bounds -/

theorem bulk_run :
    (fun a => roundF64 (a + bulkUnits) 1)^[56524307] 0 = 5593421946365673 * 2 ^ 1034 := by
  have h1 : (fun a => roundF64 (a + bulkUnits) 1)^[1] 0
      = 6640827866535439 * 2 ^ 1008 := by
    rw [fadd_run bulkUnits 1060 (by decide!) 1 0 (by decide!) (by decide!)
      (by decide!)]
    decide!
  have h2 : (fun a => roundF64 (a + bulkUnits) 1)^[2] 0
      = 6640827866535439 * 2 ^ 1009 := by
    rw [Function.iterate_succ_apply', h1]
    decide!
  have h3 : (fun a => roundF64 (a + bulkUnits) 1)^[3] 0
      = 4980620899901579 * 2 ^ 1010 := by
    rw [Function.iterate_succ_apply', h2]
    decide!
  have h5 : (fun a => roundF64 (a + bulkUnits) 1)^[5] 0
      = 8301034833169299 * 2 ^ 1010 := by
    rw [show (5 : Nat) = 2 + 3 from rfl, Function.iterate_add_apply, h3,
      fadd_run bulkUnits 1062 (by decide!) 2 (4980620899901579 * 2 ^ 1010) (by decide!) (by decide!)
        (by decide!)]
    decide!
  have h6 : (fun a => roundF64 (a + bulkUnits) 1)^[6] 0
      = 4980620899901579 * 2 ^ 1011 := by
    rw [Function.iterate_succ_apply', h5]
    decide!
  have h10 : (fun a => roundF64 (a + bulkUnits) 1)^[10] 0
      = 8301034833169299 * 2 ^ 1011 := by
    rw [show (10 : Nat) = 4 + 6 from rfl, Function.iterate_add_apply, h6,
      fadd_run bulkUnits 1063 (by decide!) 4 (4980620899901579 * 2 ^ 1011) (by decide!) (by decide!)
        (by decide!)]
    decide!
  have h11 : (fun a => roundF64 (a + bulkUnits) 1)^[11] 0
      = 2282784579121557 * 2 ^ 1013 := by
    rw [Function.iterate_succ_apply', h10]
    decide!
  have h21 : (fun a => roundF64 (a + bulkUnits) 1)^[21] 0
      = 2179021643706941 * 2 ^ 1014 := by
    rw [show (21 : Nat) = 10 + 11 from rfl, Function.iterate_add_apply, h11,
      fadd_run bulkUnits 1064 (by decide!) 10 (2282784579121557 * 2 ^ 1013) (by decide!) (by decide!)
        (by decide!)]
    decide!
  have h43 : (fun a => roundF64 (a + bulkUnits) 1)^[43] 0
      = 4461806222828493 * 2 ^ 1014 := by
    rw [show (43 : Nat) = 22 + 21 from rfl, Function.iterate_add_apply, h21,
      fadd_run bulkUnits 1065 (by decide!) 22 (2179021643706941 * 2 ^ 1014) (by decide!) (by decide!)
        (by decide!)]
    decide!
  have h86 : (fun a => roundF64 (a + bulkUnits) 1)^[86] 0
      = 8923612445656981 * 2 ^ 1014 := by
    rw [show (86 : Nat) = 43 + 43 from rfl, Function.iterate_add_apply, h43,
      fadd_run bulkUnits 1066 (by decide!) 43 (4461806222828493 * 2 ^ 1014) (by decide!) (by decide!)
        (by decide!)]
    decide!
  have h87 : (fun a => roundF64 (a + bulkUnits) 1)^[87] 0
      = 4513687690535799 * 2 ^ 1015 := by
    rw [Function.iterate_succ_apply', h86]
    decide!
  have h173 : (fun a => roundF64 (a + bulkUnits) 1)^[173] 0
      = 8975493913364287 * 2 ^ 1015 := by
    rw [show (173 : Nat) = 86 + 87 from rfl, Function.iterate_add_apply, h87,
      fadd_run bulkUnits 1067 (by decide!) 86 (4513687690535799 * 2 ^ 1015) (by decide!) (by decide!)
        (by decide!)]
    decide!
  have h174 : (fun a => roundF64 (a + bulkUnits) 1)^[174] 0
      = 2256843845267899 * 2 ^ 1017 := by
    rw [Function.iterate_succ_apply', h173]
    decide!
  have h347 : (fun a => roundF64 (a + bulkUnits) 1)^[347] 0
      = 2250358661804485 * 2 ^ 1018 := by
    rw [show (347 : Nat) = 173 + 174 from rfl, Function.iterate_add_apply, h174,
      fadd_run bulkUnits 1068 (by decide!) 173 (2256843845267899 * 2 ^ 1017) (by decide!) (by decide!)
        (by decide!)]
    decide!
  have h694 : (fun a => roundF64 (a + bulkUnits) 1)^[694] 0
      = 9001434647217939 * 2 ^ 1017 := by
    rw [show (694 : Nat) = 347 + 347 from rfl, Function.iterate_add_apply, h347,
      fadd_run bulkUnits 1069 (by decide!) 347 (2250358661804485 * 2 ^ 1018) (by decide!) (by decide!)
        (by decide!)]
    decide!
  have h695 : (fun a => roundF64 (a + bulkUnits) 1)^[695] 0
      = 4507202507072383 * 2 ^ 1018 := by
    rw [Function.iterate_succ_apply', h694]
    decide!
  have h1388 : (fun a => roundF64 (a + bulkUnits) 1)^[1388] 0
      = 9001434647218285 * 2 ^ 1018 := by
    rw [show (1388 : Nat) = 693 + 695 from rfl, Function.iterate_add_apply, h695,
      fadd_run bulkUnits 1070 (by decide!) 693 (4507202507072383 * 2 ^ 1018) (by decide!) (by decide!)
        (by decide!)]
    decide!
  have h1389 : (fun a => roundF64 (a + bulkUnits) 1)^[1389] 0
      = 4503959915340849 * 2 ^ 1019 := by
    rw [Function.iterate_succ_apply', h1388]
    decide!
  have h2777 : (fun a => roundF64 (a + bulkUnits) 1)^[2777] 0
      = 9004677238950165 * 2 ^ 1019 := by
    rw [show (2777 : Nat) = 1388 + 1389 from rfl, Function.iterate_add_apply, h1389,
      fadd_run bulkUnits 1071 (by decide!) 1388 (4503959915340849 * 2 ^ 1019) (by decide!) (by decide!)
        (by decide!)]
    decide!
  have h2778 : (fun a => roundF64 (a + bulkUnits) 1)^[2778] 0
      = 562994989417617 * 2 ^ 1023 := by
    rw [Function.iterate_succ_apply', h2777]
    decide!
  have h5555 : (fun a => roundF64 (a + bulkUnits) 1)^[5555] 0
      = 9006298534814717 * 2 ^ 1020 := by
    rw [show (5555 : Nat) = 2777 + 2778 from rfl, Function.iterate_add_apply, h2778,
      fadd_run bulkUnits 1072 (by decide!) 2777 (562994989417617 * 2 ^ 1023) (by decide!) (by decide!)
        (by decide!)]
    decide!
  have h5556 : (fun a => roundF64 (a + bulkUnits) 1)^[5556] 0
      = 4503959915340285 * 2 ^ 1021 := by
    rw [Function.iterate_succ_apply', h5555]
    decide!
  have h11111 : (fun a => roundF64 (a + bulkUnits) 1)^[11111] 0
      = 4503554591374885 * 2 ^ 1022 := by
    rw [show (11111 : Nat) = 5555 + 5556 from rfl, Function.iterate_add_apply, h5556,
      fadd_run bulkUnits 1073 (by decide!) 5555 (4503959915340285 * 2 ^ 1021) (by decide!) (by decide!)
        (by decide!)]
    decide!
  have h22222 : (fun a => roundF64 (a + bulkUnits) 1)^[22222] 0
      = 4503554591372639 * 2 ^ 1023 := by
    rw [show (22222 : Nat) = 11111 + 11111 from rfl, Function.iterate_add_apply, h11111,
      fadd_run bulkUnits 1074 (by decide!) 11111 (4503554591374885 * 2 ^ 1022) (by decide!) (by decide!)
        (by decide!)]
    decide!
  have h44444 : (fun a => roundF64 (a + bulkUnits) 1)^[44444] 0
      = 9007109182754143 * 2 ^ 1023 := by
    rw [show (44444 : Nat) = 22222 + 22222 from rfl, Function.iterate_add_apply, h22222,
      fadd_run bulkUnits 1075 (by decide!) 22222 (4503554591372639 * 2 ^ 1023) (by decide!) (by decide!)
        (by decide!)]
    decide!
  have h44445 : (fun a => roundF64 (a + bulkUnits) 1)^[44445] 0
      = 4503655922368687 * 2 ^ 1024 := by
    rw [Function.iterate_succ_apply', h44444]
    decide!
  have h88888 : (fun a => roundF64 (a + bulkUnits) 1)^[88888] 0
      = 9007109182758575 * 2 ^ 1024 := by
    rw [show (88888 : Nat) = 44443 + 44445 from rfl, Function.iterate_add_apply, h44445,
      fadd_run bulkUnits 1076 (by decide!) 44443 (4503655922368687 * 2 ^ 1024) (by decide!) (by decide!)
        (by decide!)]
    decide!
  have h88889 : (fun a => roundF64 (a + bulkUnits) 1)^[88889] 0
      = 4503605256875095 * 2 ^ 1025 := by
    rw [Function.iterate_succ_apply', h88888]
    decide!
  have h177777 : (fun a => roundF64 (a + bulkUnits) 1)^[177777] 0
      = 9007159848256599 * 2 ^ 1025 := by
    rw [show (177777 : Nat) = 88888 + 88889 from rfl, Function.iterate_add_apply, h88889,
      fadd_run bulkUnits 1077 (by decide!) 88888 (4503605256875095 * 2 ^ 1025) (by decide!) (by decide!)
        (by decide!)]
    decide!
  have h177778 : (fun a => roundF64 (a + bulkUnits) 1)^[177778] 0
      = 4503605256876203 * 2 ^ 1026 := by
    rw [Function.iterate_succ_apply', h177777]
    decide!
  have h355555 : (fun a => roundF64 (a + bulkUnits) 1)^[355555] 0
      = 9007185181005611 * 2 ^ 1026 := by
    rw [show (355555 : Nat) = 177777 + 177778 from rfl, Function.iterate_add_apply, h177778,
      fadd_run bulkUnits 1078 (by decide!) 177777 (4503605256876203 * 2 ^ 1026) (by decide!) (by decide!)
        (by decide!)]
    decide!
  have h355556 : (fun a => roundF64 (a + bulkUnits) 1)^[355556] 0
      = 4503605256876757 * 2 ^ 1027 := by
    rw [Function.iterate_succ_apply', h355555]
    decide!
  have h711111 : (fun a => roundF64 (a + bulkUnits) 1)^[711111] 0
      = 9007197847380117 * 2 ^ 1027 := by
    rw [show (711111 : Nat) = 355555 + 355556 from rfl, Function.iterate_add_apply, h355556,
      fadd_run bulkUnits 1079 (by decide!) 355555 (4503605256876757 * 2 ^ 1027) (by decide!) (by decide!)
        (by decide!)]
    decide!
  have h711112 : (fun a => roundF64 (a + bulkUnits) 1)^[711112] 0
      = 2251802628438517 * 2 ^ 1029 := by
    rw [Function.iterate_succ_apply', h711111]
    decide!
  have h1422222 : (fun a => roundF64 (a + bulkUnits) 1)^[1422222] 0
      = 4503598923690197 * 2 ^ 1029 := by
    rw [show (1422222 : Nat) = 711110 + 711112 from rfl, Function.iterate_add_apply, h711112,
      fadd_run bulkUnits 1080 (by decide!) 711110 (2251802628438517 * 2 ^ 1029) (by decide!) (by decide!)
        (by decide!)]
    decide!
  have h2844444 : (fun a => roundF64 (a + bulkUnits) 1)^[2844444] 0
      = 9007197847380533 * 2 ^ 1029 := by
    rw [show (2844444 : Nat) = 1422222 + 1422222 from rfl, Function.iterate_add_apply, h1422222,
      fadd_run bulkUnits 1081 (by decide!) 1422222 (4503598923690197 * 2 ^ 1029) (by decide!) (by decide!)
        (by decide!)]
    decide!
  have h2844445 : (fun a => roundF64 (a + bulkUnits) 1)^[2844445] 0
      = 2251800253493505 * 2 ^ 1031 := by
    rw [Function.iterate_succ_apply', h2844444]
    decide!
  have h5688888 : (fun a => roundF64 (a + bulkUnits) 1)^[5688888] 0
      = 4503598923690301 * 2 ^ 1031 := by
    rw [show (5688888 : Nat) = 2844443 + 2844445 from rfl, Function.iterate_add_apply, h2844445,
      fadd_run bulkUnits 1082 (by decide!) 2844443 (2251800253493505 * 2 ^ 1031) (by decide!) (by decide!)
        (by decide!)]
    decide!
  have h11377777 : (fun a => roundF64 (a + bulkUnits) 1)^[11377777] 0
      = 9007198639029009 * 2 ^ 1031 := by
    rw [show (11377777 : Nat) = 5688889 + 5688888 from rfl, Function.iterate_add_apply, h5688888,
      fadd_run bulkUnits 1083 (by decide!) 5688889 (4503598923690301 * 2 ^ 1031) (by decide!) (by decide!)
        (by decide!)]
    decide!
  have h11377778 : (fun a => roundF64 (a + bulkUnits) 1)^[11377778] 0
      = 2251799857669345 * 2 ^ 1033 := by
    rw [Function.iterate_succ_apply', h11377777]
    decide!
  have h22755555 : (fun a => roundF64 (a + bulkUnits) 1)^[22755555] 0
      = 2251799758713303 * 2 ^ 1034 := by
    rw [show (22755555 : Nat) = 11377777 + 11377778 from rfl, Function.iterate_add_apply, h11377778,
      fadd_run bulkUnits 1084 (by decide!) 11377777 (2251799857669345 * 2 ^ 1033) (by decide!) (by decide!)
        (by decide!)]
    decide!
  have h45511111 : (fun a => roundF64 (a + bulkUnits) 1)^[45511111] 0
      = 4503599616382657 * 2 ^ 1034 := by
    rw [show (45511111 : Nat) = 22755556 + 22755555 from rfl, Function.iterate_add_apply, h22755555,
      fadd_run bulkUnits 1085 (by decide!) 22755556 (2251799758713303 * 2 ^ 1034) (by decide!) (by decide!)
        (by decide!)]
    decide!
  have h56524307 : (fun a => roundF64 (a + bulkUnits) 1)^[56524307] 0
      = 5593421946365673 * 2 ^ 1034 := by
    rw [show (56524307 : Nat) = 11013196 + 45511111 from rfl, Function.iterate_add_apply, h45511111,
      fadd_run bulkUnits 1086 (by decide!) 11013196 (4503599616382657 * 2 ^ 1034) (by decide!) (by decide!)
        (by decide!)]
    decide!
  exact h56524307

theorem bulkRequest_ledger (n : Nat) :
    serveAll [] (List.replicate n bulkRequest)
      = List.replicate n
          { id := "ORD-1", time := "09:00:00", item := "Basmati Rice", quantity := 150,
            total := "0.000090", hash := "0xabc", status := "Dispatched ✈️" } := by
  have hr : ∀ orders, serve orders bulkRequest
      = { id := "ORD-1", time := "09:00:00", item := "Basmati Rice", quantity := 150,
          total := "0.000090", hash := "0xabc", status := "Dispatched ✈️" } :: orders := by
    intro orders
    show (buyStock orders _ _).1 = _
    rw [buyStock_of_some orders _ _ "0xabc" (by decide)]
    simp only [finalPrice_bulk 150 9 (by decide) (by decide)]
    rfl
  rw [serveAll_replicate bulkRequest _ hr n [], List.append_nil]

/-- C29 fails as stated: a ledger of 56,524,307 orders of 150 units, each with total
"0.000090", has `totalRevenue` "5087.18762", that is 508718762 hundred-thousandths, one less
than 0.00009 times the number of entries (508718763 hundred-thousandths). -/
theorem revenue_bounds_counterexample :
    (serveAll [] (List.replicate 56524307 bulkRequest)).length = 56524307 ∧
    (∀ o ∈ serveAll [] (List.replicate 56524307 bulkRequest), o.total = "0.000090") ∧
    (getOrders (serveAll [] (List.replicate 56524307 bulkRequest))).totalRevenue
      = "5087.18762" ∧
    specFixed 508718762 5 = "5087.18762" ∧
    508718762 < 9 * 56524307 := by
  refine ⟨?_, ?_, ?_, by decide!, by decide⟩
  · rw [bulkRequest_ledger, List.length_replicate]
  · rw [bulkRequest_ledger]
    intro o ho
    rw [List.eq_of_mem_replicate ho]
  · rw [bulkRequest_ledger]
    unfold getOrders revenueSum
    simp only
    have h0 : (some 0 : JSNumber) = some ((0 : Nat) : Int) := rfl
    rw [h0, revenueSum_replicate _ bulkUnits (by decide!) 56524307 0, bulk_run]
    decide!

theorem specMicros_price_cases (q : Int) (h : Nat) :
    (finalPrice q h = "0.000090" ∨ finalPrice q h = "0.000100" ∨ finalPrice q h = "0.000110" ∨
      finalPrice q h = "0.000120") ∧
    90 ≤ specMicros (finalPrice q h) ∧ specMicros (finalPrice q h) ≤ 120 ∧
    10 ∣ specMicros (finalPrice q h) := by
  by_cases hh : h ≥ 17 <;> by_cases hq : q > 100
  · rw [finalPrice_surge_bulk q h hh hq]
    exact ⟨by decide, by decide!, by decide!, by decide!⟩
  · rw [finalPrice_surge q h hh hq]
    exact ⟨by decide, by decide!, by decide!, by decide!⟩
  · rw [finalPrice_bulk q h hh hq]
    exact ⟨by decide, by decide!, by decide!, by decide!⟩
  · rw [finalPrice_plain q h hh hq]
    exact ⟨by decide, by decide!, by decide!, by decide!⟩

theorem specMicros_finalPrice (q : Int) (h : Nat) :
    specMicros (finalPrice q h) = specQuoteMicro q h := by
  unfold specQuoteMicro
  by_cases hh : h ≥ 17 <;> by_cases hq : q > 100
  · rw [finalPrice_surge_bulk q h hh hq, if_pos hh, if_pos hq]
    decide!
  · rw [finalPrice_surge q h hh hq, if_pos hh, if_neg hq]
    decide!
  · rw [finalPrice_bulk q h hh hq, if_neg hh, if_pos hq]
    decide!
  · rw [finalPrice_plain q h hh hq, if_neg hh, if_neg hq]
    decide!

theorem specLedgerMicros_bounds (orders : List Order)
    (hprice : ∀ o ∈ orders, ∃ q h, o.total = finalPrice q h) :
    90 * orders.length ≤ specLedgerMicros orders ∧
    specLedgerMicros orders ≤ 120 * orders.length ∧ 10 ∣ specLedgerMicros orders := by
  induction orders with
  | nil => exact ⟨by decide, by decide, by decide⟩
  | cons o os ih =>
    obtain ⟨q, h, ho⟩ := hprice o (List.mem_cons_self _ _)
    obtain ⟨h1, h2, h3⟩ := ih (fun o' ho' => hprice o' (List.mem_cons_of_mem _ ho'))
    obtain ⟨_, p1, p2, p3⟩ := specMicros_price_cases q h
    have hs : specLedgerMicros (o :: os) = specMicros (finalPrice q h) + specLedgerMicros os := by
      simp [specLedgerMicros, ho]
    rw [hs, List.length_cons]
    exact ⟨by omega, by omega, by omega⟩

/-- C29 (amended): the total recorded for an order is the quoted price itself, which depends
on the quantity only through the test `quantity > 100`: every ledger entry's total is one of
"0.000090", "0.000100", "0.000110", "0.000120", and at a fixed hour the quote does not increase
with the quantity; for every ledger of `n` entries with `n` at most 10,000,000 the
`totalRevenue` lies between 0.00009 n and 0.00012 n (it is `m` hundred-thousandths with
`9 n ≤ m ≤ 12 n`). -/
theorem totals_and_revenue_bounds (reqs : List SupplierRequest)
    (hlen : (serveAll [] reqs).length ≤ 10000000) :
    (∀ o ∈ serveAll [] reqs, o.total = "0.000090" ∨ o.total = "0.000100" ∨
      o.total = "0.000110" ∨ o.total = "0.000120") ∧
    (∀ (orders : List Order) (req : BuyRequest) (c : Clock) (p : String),
      proofOf req.paymentHash = some p →
      ((buyStock orders req c).1.map (fun o => o.total)).head?
        = some (finalPrice req.quantity c.hour)) ∧
    (∀ (q q' : Int) (h : Nat), q ≤ q' →
      specMicros (finalPrice q' h) ≤ specMicros (finalPrice q h)) ∧
    ∃ m, (getOrders (serveAll [] reqs)).totalRevenue = specFixed m 5 ∧
      9 * (serveAll [] reqs).length ≤ m ∧ m ≤ 12 * (serveAll [] reqs).length := by
  have hprice : ∀ o ∈ serveAll [] reqs, ∃ q h, o.total = finalPrice q h := by
    intro o ho
    rcases serveAll_totals reqs [] o ho with h | h
    · exact absurd h (List.not_mem_nil _)
    · exact h
  refine ⟨?_, ?_, ?_, ?_⟩
  · intro o ho
    obtain ⟨q, h, hq⟩ := hprice o ho
    rw [hq]
    exact (specMicros_price_cases q h).1
  · intro orders req c p hp
    rw [buyStock_of_some orders req c p hp]
    rfl
  · intro q q' h hqq
    rw [specMicros_finalPrice, specMicros_finalPrice]
    unfold specQuoteMicro
    split_ifs <;> omega
  · obtain ⟨h1, h2, h3⟩ := specLedgerMicros_bounds (serveAll [] reqs) hprice
    refine ⟨specLedgerMicros (serveAll [] reqs) / 10,
      revenue_of_prices (serveAll [] reqs) hprice hlen, ?_, ?_⟩
    · omega
    · omega

theorem totals_and_revenue_bounds_witness :
    (serveAll [] [bulkRequest, riceRequest, .listOrders,
        .buy ⟨"Thums Up", 150, some "0xdef"⟩ ⟨18, 3, 4, "18:30:00", none⟩]).length ≤ 10000000 ∧
    ∃ m, (getOrders (serveAll [] [bulkRequest, riceRequest, .listOrders,
        .buy ⟨"Thums Up", 150, some "0xdef"⟩ ⟨18, 3, 4, "18:30:00", none⟩])).totalRevenue
        = specFixed m 5 ∧
      9 * (serveAll [] [bulkRequest, riceRequest, .listOrders,
        .buy ⟨"Thums Up", 150, some "0xdef"⟩ ⟨18, 3, 4, "18:30:00", none⟩]).length ≤ m ∧
      m ≤ 12 * (serveAll [] [bulkRequest, riceRequest, .listOrders,
        .buy ⟨"Thums Up", 150, some "0xdef"⟩ ⟨18, 3, 4, "18:30:00", none⟩]).length :=
  ⟨by decide, (totals_and_revenue_bounds [bulkRequest, riceRequest, .listOrders,
    .buy ⟨"Thums Up", 150, some "0xdef"⟩ ⟨18, 3, 4, "18:30:00", none⟩] (by decide)).2.2.2⟩

/-! ## Decision engine: the clean-up of the answer -/

theorem removeAllAux_skip (pat : List Char) :
    ∀ (l : List Char) (k : Nat), removeAllAux pat k l = removeAllAux pat 0 (l.drop k) := by
  intro l
  induction l with
  | nil => intro k; cases k <;> simp [removeAllAux]
  | cons c cs ih =>
    intro k
    cases k with
    | zero => rfl
    | succ k =>
      rw [List.drop_succ_cons, ← ih k]
      rfl

theorem removeAllAux_keep (pat : List Char) (c : Char) (cs : List Char)
    (h : (c :: cs).take pat.length ≠ pat) :
    removeAllAux pat 0 (c :: cs) = c :: removeAllAux pat 0 cs := by
  rw [removeAllAux]
  simp [h]

theorem removeAllAux_drop (pat : List Char) (c : Char) (cs : List Char) (hp : pat ≠ [])
    (h : (c :: cs).take pat.length = pat) :
    removeAllAux pat 0 (c :: cs) = removeAllAux pat 0 (cs.drop (pat.length - 1)) := by
  rw [removeAllAux]
  simp only [hp, h, ne_eq, not_false_eq_true, and_self, if_true]
  exact removeAllAux_skip pat cs _

theorem containsFence_cons (c : Char) (cs : List Char) (h : containsFence (c :: cs) = false) :
    (c :: cs).take 3 ≠ "```".data ∧ containsFence cs = false := by
  simpa [containsFence] using h

theorem fence_of_json (l : List Char) (h : l.take 7 = "```json".data) :
    l.take 3 = "```".data := by
  have := congrArg (List.take 3) h
  rw [List.take_take] at this
  exact this

theorem removeAll_fence_free (l : List Char) (h : containsFence l = false) :
    removeAllAux "```".data 0 l = l ∧ removeAllAux "```json".data 0 l = l := by
  induction l with
  | nil => exact ⟨rfl, rfl⟩
  | cons c cs ih =>
    obtain ⟨hc, hcs⟩ := containsFence_cons c cs h
    constructor
    · rw [removeAllAux_keep "```".data c cs hc, (ih hcs).1]
    · rw [removeAllAux_keep "```json".data c cs (fun h7 => hc (fence_of_json _ h7)), (ih hcs).2]

theorem no_fence_before_newline (c : Char) (cs : List Char)
    (hc : (c :: cs).take 3 ≠ "```".data) :
    (c :: (cs ++ "\n```".data)).take 3 ≠ "```".data := by
  match cs, hc with
  | [], _ =>
    intro h
    have h1 : (some '\n' : Option Char) = some (Char.ofNat 96) :=
      congrArg (fun l => l.get? 1) h
    exact absurd h1 (by decide)
  | [d], _ =>
    intro h
    have h2 : (some '\n' : Option Char) = some (Char.ofNat 96) :=
      congrArg (fun l => l.get? 2) h
    exact absurd h2 (by decide)
  | d :: e :: r, hc => exact hc

theorem removeAll_json_fenced (l : List Char) (h : containsFence l = false) :
    removeAllAux "```json".data 0 (l ++ "\n```".data) = l ++ "\n```".data := by
  induction l with
  | nil => decide
  | cons c cs ih =>
    obtain ⟨hc, hcs⟩ := containsFence_cons c cs h
    rw [List.cons_append, removeAllAux_keep "```json".data c _
      (fun h7 => no_fence_before_newline c cs hc (fence_of_json _ h7)), ih hcs]

theorem removeAll_ticks_fenced (l : List Char) (h : containsFence l = false) :
    removeAllAux "```".data 0 (l ++ "\n```".data) = l ++ "\n".data := by
  induction l with
  | nil => decide
  | cons c cs ih =>
    obtain ⟨hc, hcs⟩ := containsFence_cons c cs h
    rw [List.cons_append, removeAllAux_keep "```".data c _
      (no_fence_before_newline c cs hc), ih hcs]
    rfl

theorem dropWhile_append_of_nil {α : Type} (p : α → Bool) (l m : List α)
    (h : l.dropWhile p = []) : (l ++ m).dropWhile p = m.dropWhile p := by
  induction l with
  | nil => rfl
  | cons a as ih =>
    by_cases ha : p a = true
    · simp only [List.dropWhile_cons, ha, if_true] at h
      simp [List.dropWhile_cons, ha, ih h]
    · simp [List.dropWhile_cons, ha] at h

theorem dropWhile_append_of_ne_nil {α : Type} (p : α → Bool) (l m : List α)
    (h : l.dropWhile p ≠ []) : (l ++ m).dropWhile p = l.dropWhile p ++ m := by
  induction l with
  | nil => exact absurd rfl h
  | cons a as ih =>
    by_cases ha : p a = true
    · simp only [List.dropWhile_cons, ha, if_true] at h
      simp [List.dropWhile_cons, ha, ih h]
    · simp [List.dropWhile_cons, ha]

theorem trim_newlines (l : List Char) :
    trim (String.mk ('\n' :: (l ++ "\n".data))) = trim (String.mk l) := by
  unfold trim
  congr 2
  show ((('\n' :: (l ++ "\n".data)).dropWhile isJsSpace).reverse.dropWhile isJsSpace)
    = ((l.dropWhile isJsSpace).reverse.dropWhile isJsSpace)
  have hn : isJsSpace '\n' = true := by decide
  rw [List.dropWhile_cons, hn, if_pos rfl]
  by_cases h : l.dropWhile isJsSpace = []
  · rw [dropWhile_append_of_nil _ _ _ h, h]
    rfl
  · rw [dropWhile_append_of_ne_nil _ _ _ h]
    show ((l.dropWhile isJsSpace) ++ ['\n']).reverse.dropWhile isJsSpace = _
    rw [List.reverse_append, List.reverse_singleton, List.singleton_append, List.dropWhile_cons,
      hn, if_pos rfl]

theorem removeAll_json_opening (l : List Char) :
    removeAllAux "```json".data 0 ("```json\n".data ++ l)
      = removeAllAux "```json".data 0 ('\n' :: l) := by
  show removeAllAux "```json".data 0 (Char.ofNat 96 :: (("``json\n".data) ++ l)) = _
  rw [removeAllAux_drop "```json".data (Char.ofNat 96) ("``json\n".data ++ l) (by decide) rfl]
  rfl

theorem containsFence_newline (l : List Char) (h : containsFence l = false) :
    containsFence ('\n' :: l) = false := by
  have h1 : ('\n' :: l).take 3 ≠ "```".data := by
    intro h0
    have h1 : (some '\n' : Option Char) = some (Char.ofNat 96) :=
      congrArg (fun l => l.get? 0) h0
    exact absurd h1 (by decide)
  simp [containsFence, h1, h]

theorem cleanup_fenced (t : String) (h : containsFence t.data = false) :
    cleanup ("```json\n" ++ t ++ "\n```") = trim t := by
  have hn := containsFence_newline t.data h
  unfold cleanup removeAll
  simp only [String.data_append, List.append_assoc]
  rw [removeAll_json_opening, ← List.cons_append, removeAll_json_fenced _ hn,
    removeAll_ticks_fenced _ hn]
  exact trim_newlines t.data

theorem cleanup_fence_free (t : String) (h : containsFence t.data = false) :
    cleanup t = trim t := by
  unfold cleanup removeAll
  simp only
  rw [(removeAll_fence_free t.data h).2, (removeAll_fence_free t.data h).1]

theorem ticks_data : "```".data = [Char.ofNat 96, Char.ofNat 96, Char.ofNat 96] := by decide

theorem containsFence_of_cons (c : Char) (cs : List Char)
    (hc : (c :: cs).take 3 ≠ "```".data) (hcs : containsFence cs = false) :
    containsFence (c :: cs) = false := by
  show (decide ((c :: cs).take 3 = "```".data) || containsFence cs) = false
  rw [hcs, decide_eq_false hc]
  rfl

theorem removeAll_ticks_shape : ∀ (n : Nat) (l : List Char), l.length ≤ n →
    containsFence (removeAllAux "```".data 0 l) = false ∧
    ((removeAllAux "```".data 0 l).take 1 = [Char.ofNat 96] → l.take 1 = [Char.ofNat 96]) ∧
    ((removeAllAux "```".data 0 l).take 2 = [Char.ofNat 96, Char.ofNat 96] →
      l.take 2 = [Char.ofNat 96, Char.ofNat 96]) := by
  intro n
  induction n with
  | zero =>
    intro l hl
    have : l = [] := List.length_eq_zero.1 (by omega)
    subst this
    exact ⟨rfl, fun h => by simp [removeAllAux] at h, fun h => by simp [removeAllAux] at h⟩
  | succ n ih =>
    intro l hl
    match l, hl with
    | [], _ =>
      exact ⟨rfl, fun h => by simp [removeAllAux] at h, fun h => by simp [removeAllAux] at h⟩
    | c :: cs, hl =>
      have hcs : cs.length ≤ n := by simpa using hl
      by_cases hm : (c :: cs).take 3 = "```".data
      · rw [removeAllAux_drop "```".data c cs (by decide) hm]
        have hd : (cs.drop ("```".data.length - 1)).length ≤ n := by
          rw [List.length_drop]; omega
        refine ⟨(ih _ hd).1, fun _ => ?_, fun _ => ?_⟩
        · have := congrArg (List.take 1) hm
          rw [List.take_take] at this
          exact this
        · have := congrArg (List.take 2) hm
          rw [List.take_take] at this
          exact this
      · rw [removeAllAux_keep "```".data c cs hm]
        obtain ⟨hb, h1, h2⟩ := ih cs hcs
        have hq2 : (c :: removeAllAux "```".data 0 cs).take 2
            = [Char.ofNat 96, Char.ofNat 96] → (c :: cs).take 2
            = [Char.ofNat 96, Char.ofNat 96] := by
          intro h
          rw [List.take_succ_cons, List.cons.injEq] at h
          rw [List.take_succ_cons, h.1, h1 h.2]
        refine ⟨?_, ?_, hq2⟩
        · have hne : (c :: removeAllAux "```".data 0 cs).take 3 ≠ "```".data := by
            intro h
            apply hm
            rw [ticks_data, List.take_succ_cons, List.cons.injEq] at h
            rw [ticks_data, List.take_succ_cons, h.1, h2 h.2]
          exact containsFence_of_cons _ _ hne hb
        · intro h
          rw [List.take_succ_cons, List.take_zero] at h
          rw [List.take_succ_cons, List.take_zero]
          exact h

theorem containsFence_removeAll (l : List Char) :
    containsFence (removeAllAux "```".data 0 l) = false :=
  (removeAll_ticks_shape l.length l (le_refl _)).1

theorem containsFence_dropWhile (p : Char → Bool) (l : List Char)
    (h : containsFence l = false) : containsFence (l.dropWhile p) = false := by
  induction l with
  | nil => exact h
  | cons c cs ih =>
    rw [List.dropWhile_cons]
    split
    · exact ih (containsFence_cons c cs h).2
    · exact h

theorem containsFence_take (l : List Char) (h : containsFence l = false) :
    ∀ m, containsFence (l.take m) = false := by
  induction l with
  | nil => intro m; simpa using h
  | cons c cs ih =>
    intro m
    obtain ⟨hc, hcs⟩ := containsFence_cons c cs h
    cases m with
    | zero => rfl
    | succ m =>
      have hne : ((c :: cs).take (m + 1)).take 3 ≠ "```".data := by
        intro h3
        apply hc
        have hlen : 3 ≤ ((c :: cs).take (m + 1)).length := by
          have := congrArg List.length h3
          rw [List.length_take] at this
          have h4 : "```".data.length = 3 := rfl
          omega
        rw [← List.take_append_drop (m + 1) (c :: cs), List.take_append_of_le_length hlen]
        exact h3
      have := ih hcs m
      rw [List.take_succ_cons] at hne ⊢
      exact containsFence_of_cons _ _ hne this

theorem rtrim_take {α : Type} (p : α → Bool) (l : List α) :
    (l.reverse.dropWhile p).reverse = l.take (l.reverse.dropWhile p).length := by
  have h := List.takeWhile_append_dropWhile p l.reverse
  have h2 := congrArg List.reverse h
  rw [List.reverse_append, List.reverse_reverse] at h2
  conv_rhs => rw [← h2]
  rw [List.take_left' (by simp)]

theorem trim_shape (y : List Char) :
    ∃ z, trim (String.mk y) = String.mk z ∧ z.dropWhile isJsSpace = z ∧
      z.reverse.dropWhile isJsSpace = z.reverse ∧
      (containsFence y = false → containsFence z = false) := by
  refine ⟨((y.dropWhile isJsSpace).reverse.dropWhile isJsSpace).reverse, rfl, ?_, ?_, ?_⟩
  · cases hu : y.dropWhile isJsSpace with
    | nil => rfl
    | cons a u =>
      have ha : isJsSpace a = false := by
        have := List.head_dropWhile_not isJsSpace y (by rw [hu]; exact List.cons_ne_nil _ _)
        simpa [hu] using this
      have hform : ∃ W, ((a :: u).reverse.dropWhile isJsSpace) = W ++ [a] := by
        rw [List.reverse_cons]
        by_cases h : u.reverse.dropWhile isJsSpace = []
        · refine ⟨[], ?_⟩
          rw [dropWhile_append_of_nil _ _ _ h]
          simp [List.dropWhile_cons, ha]
        · exact ⟨_, dropWhile_append_of_ne_nil _ _ _ h⟩
      obtain ⟨W, hW⟩ := hform
      rw [hW, List.reverse_append, List.reverse_singleton, List.singleton_append,
        List.dropWhile_cons, ha]
      rfl
  · rw [List.reverse_reverse, List.dropWhile_idempotent]
  · intro h
    rw [rtrim_take]
    exact containsFence_take _ (containsFence_dropWhile _ _ h) _

theorem cleanup_idempotent (x : String) : cleanup (cleanup x) = cleanup x := by
  have hy : containsFence (removeAllAux "```".data 0 (removeAll "```json" x).data) = false :=
    containsFence_removeAll _
  obtain ⟨z, hz, hl, hr, hf⟩ := trim_shape (removeAllAux "```".data 0 (removeAll "```json" x).data)
  have hc : cleanup x = String.mk z := hz
  rw [hc, cleanup_fence_free (String.mk z) (hf hy)]
  unfold trim
  simp only [hl, hr, List.reverse_reverse]

/-- C26: for every text `t` without a triple backtick, cleaning the fenced text
"```json" + newline + `t` + newline + "```" yields `t` trimmed, which is also the result of
cleaning `t` itself, so `analyzeStockStrategy` returns the same value for the fenced and the
unfenced answer; and cleaning is idempotent on every text. -/
theorem fenced_answer_cleanup (t : String) (ht : containsFence t.data = false) :
    cleanup ("```json\n" ++ t ++ "\n```") = trim t ∧
    cleanup ("```json\n" ++ t ++ "\n```") = cleanup t ∧
    (∀ (parse : String → Option (Option Recommendation)) (stock : Int)
        (history context : String),
      analyzeStockStrategy (fun _ => .text ("```json\n" ++ t ++ "\n```")) parse stock history
          context
        = analyzeStockStrategy (fun _ => .text t) parse stock history context) ∧
    (∀ x : String, cleanup (cleanup x) = cleanup x) := by
  have h1 := cleanup_fenced t ht
  have h2 := cleanup_fence_free t ht
  refine ⟨h1, h1.trans h2.symm, ?_, cleanup_idempotent⟩
  intro parse stock history context
  unfold analyzeStockStrategy
  simp only [h1, h2]

theorem fenced_answer_cleanup_witness :
    containsFence zeroQuantityText.data = false ∧
    cleanup ("```json\n" ++ zeroQuantityText ++ "\n```") = trim zeroQuantityText ∧
    cleanup ("```json\n" ++ zeroQuantityText ++ "\n```") = cleanup zeroQuantityText :=
  ⟨by decide, (fenced_answer_cleanup zeroQuantityText (by decide)).1,
    (fenced_answer_cleanup zeroQuantityText (by decide)).2.1⟩

end SmartShelf
